import Mathlib

/-!
# SLATE API server: the secret commands

A shallow embedding of `src/SecretCommands.cpp` (the request handlers
`listSecrets`, `createSecret`, `deleteSecret`, `getSecret` and
`internal::deleteSecret`).

Conventions of the embedding.

* A `std::string` is a `String` whose characters stand for the `char`s of the
  C++ string, so `size()` is `String.length`.  A `const char*` read back as a
  C string stops at the first NUL character (`cstr`).
* A handler is a function from the world before the call to its outcome and
  the world after the call.  The world is the persistent store together with
  the trace of every effectful call that left the handler (store writes,
  decryptions, cluster-agent calls).
* Everything the handlers call that is outside `src/` (authentication, the
  JSON parser and writer, encryption, the database client, `kubectl`) is a
  field of `Env`, so that a theorem holds for every behaviour of these
  collaborators.  The outcome of such a call may depend on the trace so far.
  Generating a secret id and reading the clock change neither the store nor the
  cluster and are not recorded in the trace.
* The store operations on secrets, which are declared outside `src/`, are modelled
  from the spec as keyed get, put and delete on the list of secret records.
-/

namespace Slate

/-! ## Strings and JSON values -/

/-- The NUL character that ends a C string. -/
def NUL : Char := Char.ofNat 0

/-- The C string at the start of a character buffer: `std::string(const char*)`
keeps the characters before the first NUL. -/
def cstr (s : String) : String := ⟨s.data.takeWhile (fun c => c != NUL)⟩

/-- The test `s.find_first_not_of(allowed) != std::string::npos`: some character of
`s` does not occur in `allowed`. -/
def findsCharNotOf (s allowed : String) : Bool :=
  s.data.any (fun c => !allowed.data.contains c)

/-- A `rapidjson::Value`.  A string value carries its full length, so it may
hold NUL characters (JSON `\u0000`). -/
inductive Value where
  | null
  | bool (b : Bool)
  | number (n : Int)
  | string (s : String)
  | array (items : List Value)
  | object (members : List (String × Value))

/-- The body of a `crow::response`. -/
inductive Body where
  | empty
  | error (message : String)
  | document (json : Value)

/-- Modelled from the spec: `generateError` is declared outside `src/`; the body it
builds is represented by the message it was given. -/
def generateError (message : String) : Body := Body.error message

/-- A `crow::response`: status code and body. -/
structure response where
  code : Nat
  body : Body

/-- How a call of a handler ends. -/
inductive Outcome where
  /-- the handler returned this response -/
  | returned (r : response)
  /-- a `std::runtime_error` left the handler -/
  | thrown (what : String)
  /-- a `RAPIDJSON_ASSERT` failed (a member or a type that is not there) -/
  | asserted

/-- The status code of the response, when the handler returned one. -/
def Outcome.code : Outcome → Option Nat
  | .returned r => some r.code
  | _ => none

namespace Value

def IsNull : Value → Bool
  | .null => true
  | _ => false

def IsObject : Value → Bool
  | .object _ => true
  | _ => false

def IsString : Value → Bool
  | .string _ => true
  | _ => false

/-- The call `v.HasMember(name)`; it asserts that `v` is an object. -/
def HasMember (v : Value) (name : String) : Except Outcome Bool :=
  match v with
  | .object members => .ok (members.any (fun m => m.1 == name))
  | _ => .error .asserted

/-- The subscript `v[name]`: the first member of that name; it asserts that `v` is an
object that has one. -/
def member (v : Value) (name : String) : Except Outcome Value :=
  match v with
  | .object members =>
    match members.find? (fun m => m.1 == name) with
    | some m => .ok m.2
    | none => .error .asserted
  | _ => .error .asserted

/-- The call `v.GetString()`: the character buffer of a string value. -/
def GetString (v : Value) : Except Outcome String :=
  match v with
  | .string s => .ok s
  | _ => .error .asserted

/-- The call `v.GetObject()`: the members of an object, in order. -/
def GetObject (v : Value) : Except Outcome (List (String × Value)) :=
  match v with
  | .object members => .ok members
  | _ => .error .asserted

/-- The call `v.AddMember(name, value, allocator)` on an object: appended at the end. -/
def AddMember (v : Value) (name : String) (value : Value) : Except Outcome Value :=
  match v with
  | .object members => .ok (.object (members ++ [(name, value)]))
  | _ => .error .asserted

end Value

/-! ## Entities -/

/-- A user as the handlers see it; a default-constructed `User` is not valid. -/
structure User where
  valid : Bool := false
  id : String := ""
  name : String := ""
  email : String := ""
  token : String := ""
  globusID : String := ""
  admin : Bool := false
deriving DecidableEq

structure VO where
  valid : Bool := false
  id : String := ""
  name : String := ""
deriving DecidableEq

structure Cluster where
  valid : Bool := false
  id : String := ""
  name : String := ""
  config : String := ""
  owningVO : String := ""
deriving DecidableEq

/-- A secret record; `data` is the encrypted payload. -/
structure Secret where
  valid : Bool := false
  id : String := ""
  name : String := ""
  vo : String := ""
  cluster : String := ""
  ctime : String := ""
  data : String := ""
deriving DecidableEq

/-- An HTTP request as the handlers read it: the URL parameters and the raw body. -/
structure request where
  url_params : List (String × String)
  body : String

/-- The call `req.url_params.get(name)`: the value of the first parameter of that name,
`none` for the null pointer. -/
def request.get (req : request) (name : String) : Option String :=
  (req.url_params.find? (fun p => p.1 == name)).map (fun p => p.2)

/-- The result of running a command: `kubernetes::commandResult`. -/
structure commandResult where
  output : String := ""
  error : String := ""
  status : Int := 0

/-! ## The world: store and trace -/

/-- An effectful call that left a handler. -/
inductive Event where
  | decryptSecret (secret : Secret)
  | addSecret (secret : Secret)
  | removeSecret (id : String)
  | kubectl_create_namespace (clusterConfig : String) (vo : VO)
  | kubectl (clusterConfig : String) (arguments : List String)

/-- The calls that go to the cluster agent. -/
def Event.isClusterCall : Event → Bool
  | .kubectl_create_namespace _ _ => true
  | .kubectl _ _ => true
  | _ => false

/-- Modelled from the spec: the store operations the secret handlers use are declared
outside `src/`.  The lookups of users, VOs, clusters, memberships and access grants,
which no secret handler changes, are the store's current answers; the secret table is the
list of its records. -/
structure PersistentStore where
  getVO : String → VO
  findVOByID : String → VO
  getCluster : String → Cluster
  userInVO : String → String → Bool
  voAllowedOnCluster : String → String → Bool
  configPathForCluster : String → String
  secrets : List Secret

structure World where
  store : PersistentStore
  trace : List Event

/-- The collaborators outside `src/`.  A fallible call is given the trace so far, so two
calls with the same arguments may end differently. -/
structure Env where
  /-- the call `authenticateUser(store, token)`; the token is `none` for a null pointer -/
  authenticateUser : PersistentStore → Option String → User
  /-- the call `Document::Parse`; an error is a `std::runtime_error` -/
  Parse : String → Except String Value
  /-- the text a `rapidjson::Writer` leaves in the buffer for a value -/
  write : Value → String
  generateSecretID : List Event → String
  timestamp : List Event → String
  namespaceName : VO → String
  encryptSecret : List Event → String → String
  /-- an error is a `std::runtime_error` -/
  decryptSecret : List Event → Secret → Except String String
  /-- does the database client's `PutItem` for this record succeed -/
  putItem : List Event → Secret → Bool
  /-- does the database client's `DeleteItem` for this secret id succeed -/
  deleteItem : List Event → String → Bool
  /-- the call `kubernetes::kubectl_create_namespace`; `some what` is a
  `std::runtime_error` -/
  kubectl_create_namespace : List Event → String → VO → Option String
  /-- the call `kubernetes::kubectl`; an error is a `std::runtime_error` -/
  kubectl : List Event → String → List String → Except String commandResult

namespace PersistentStore

/-- Modelled from the spec: `getSecret` is keyed get by primary key; like `getUser` in
`src/PersistentStore.cpp` it returns a default (invalid) record when there is no match
and marks a record it found as valid. -/
def getSecret (store : PersistentStore) (id : String) : Secret :=
  match store.secrets.find? (fun s => s.id == id) with
  | some s => { s with valid := true }
  | none => {}

/-- Modelled from the spec: `findSecretByName` looks a secret up by its name within a
(VO, cluster) pair. -/
def findSecretByName (store : PersistentStore) (vo cluster name : String) : Secret :=
  match store.secrets.find? (fun s => s.vo == vo && s.cluster == cluster && s.name == name) with
  | some s => { s with valid := true }
  | none => {}

/-- Modelled from the spec: `listSecrets` returns the secrets of a VO, restricted to one
cluster unless the cluster is the empty string. -/
def listSecrets (store : PersistentStore) (vo cluster : String) : List Secret :=
  (store.secrets.filter (fun s => s.vo == vo && (cluster == "" || s.cluster == cluster))).map
    (fun s => { s with valid := true })

/-- Modelled from the spec: `addSecret` is keyed put by primary key, as `addUser` in
`src/PersistentStore.cpp`: when the database call succeeds the record replaces any record
with the same id, otherwise the table is unchanged and the result is `false`. -/
def addSecret (env : Env) (w : World) (secret : Secret) : Bool × World :=
  let success := env.putItem w.trace secret
  (success,
   { store := if success then
       { w.store with secrets := secret :: w.store.secrets.filter (fun s => s.id != secret.id) }
     else w.store,
     trace := w.trace ++ [Event.addSecret secret] })

/-- Modelled from the spec: `removeSecret` is keyed delete by primary key, as
`removeUser` in `src/PersistentStore.cpp`: when the database call succeeds no record with
that id is left, otherwise the table is unchanged and the result is `false`. -/
def removeSecret (env : Env) (w : World) (id : String) : Bool × World :=
  let success := env.deleteItem w.trace id
  (success,
   { store := if success then
       { w.store with secrets := w.store.secrets.filter (fun s => s.id != id) }
     else w.store,
     trace := w.trace ++ [Event.removeSecret id] })

end PersistentStore

/-! ## The handlers -/

/-- The statement `return crow::response(code, body)`. -/
def reply (code : Nat) (body : Body) : Outcome := Outcome.returned ⟨code, body⟩

/-- The handler `listSecrets` (lines 73–123).  It only reads the store. -/
def listSecrets (env : Env) (w : World) (req : request) : Outcome × World :=
  let user := env.authenticateUser w.store (req.get "token")
  if !user.valid then (reply 403 (generateError "Not authorized"), w) else
  match req.get "vo" with
  | none => (reply 400 (generateError "A VO must be spcified"), w)
  | some voRaw =>
    let cluster : String := match req.get "cluster" with
      | some clusterRaw => cstr clusterRaw
      | none => ""
    let vo := w.store.getVO (cstr voRaw)
    if !vo.valid then (reply 404 (generateError "VO not found"), w) else
    if !user.admin && !w.store.userInVO user.id vo.id then
      (reply 403 (generateError "Not authorized"), w)
    else
      let secrets := w.store.listSecrets vo.id cluster
      let resultItems := secrets.map (fun secret =>
        Value.object [
          ("apiVersion", Value.string "v1alpha1"),
          ("kind", Value.string "Secret"),
          ("metadata", Value.object [
            ("id", Value.string secret.id),
            ("name", Value.string secret.name),
            ("vo", Value.string (w.store.getVO secret.vo).name),
            ("cluster", Value.string (w.store.getCluster secret.cluster).name),
            ("created", Value.string secret.ctime)])])
      (reply 200 (Body.document (Value.object [
          ("apiVersion", Value.string "v1alpha1"),
          ("items", Value.array resultItems)])), w)

/-- The characters a secret key may use (lines 171–173). -/
def allowedKeyCharacters : String :=
  "-._0123456789abcdefghijklmnopqrstuvwxyzABCDEFGHIJKLMNOPQRSTUVWXYZ"

/-- The characters a secret name may use (line 198). -/
def allowedNameCharacters : String := "abcdefghijklmnopqrstuvwxyz0123456789-."

/-- Lines 139–167 of `createSecret`: the members the request body must have, and their
types. -/
def createSecret.checkBody (body : Value) : Except Outcome Unit := do
  if body.IsNull then
    throw (reply 400 (generateError "Invalid JSON in request body"))
  if !(← body.HasMember "metadata") then
    throw (reply 400 (generateError "Missing user metadata in request"))
  let metadata ← body.member "metadata"
  if !metadata.IsObject then
    throw (reply 400 (generateError "Incorrect type for metadata"))
  if !(← metadata.HasMember "name") then
    throw (reply 400 (generateError "Missing secret name in request"))
  let name ← metadata.member "name"
  if !name.IsString then
    throw (reply 400 (generateError "Incorrect type for secret name"))
  if !(← metadata.HasMember "vo") then
    throw (reply 400 (generateError "Missing VO ID in request"))
  let vo ← metadata.member "vo"
  if !vo.IsString then
    throw (reply 400 (generateError "Incorrect type for VO ID"))
  if !(← metadata.HasMember "cluster") then
    throw (reply 400 (generateError "Missing cluster ID in request"))
  let cluster ← metadata.member "cluster"
  if !cluster.IsString then
    throw (reply 400 (generateError "Incorrect type for cluster ID"))
  let hasContents ← body.HasMember "contents"
  let hasCopyFrom ← body.HasMember "copyFrom"
  if hasContents && hasCopyFrom then
    throw (reply 400 (generateError "Secret contents and copy source cannot both be specified"))
  if !hasContents && !hasCopyFrom then
    throw (reply 400 (generateError "Missing secret contents or source in request"))
  if hasContents then
    let contents ← body.member "contents"
    if !contents.IsObject then
      throw (reply 400 (generateError "Incorrect type for contents"))
  if hasCopyFrom then
    let copyFrom ← body.member "copyFrom"
    if !copyFrom.IsString then
      throw (reply 400 (generateError "Incorrect type for copyFrom"))

/-- Lines 176–184 of `createSecret`: the checks on one member of the contents.  The
lengths are those of the whole key (`GetStringLength`), the characters checked are those
of `std::string(member.name.GetString())`. -/
def createSecret.checkMember (m : String × Value) : Except Outcome Unit := do
  if !m.2.IsString then
    throw (reply 400 (generateError "Secret value is not a string"))
  if m.1.length == 0 then
    throw (reply 400 (generateError "Secret keys may not be empty"))
  if m.1.length > 253 then
    throw (reply 400 (generateError "Secret keys may be no more than 253 characters"))
  if findsCharNotOf (cstr m.1) allowedKeyCharacters then
    throw (reply 400 (generateError "Secret key does not match [-._a-zA-Z0-9]+"))

/-- Lines 174–186 of `createSecret`: every member of the contents is checked, in
order. -/
def createSecret.checkContents (body : Value) : Except Outcome Unit := do
  if (← body.HasMember "contents") then
    let contents ← body.member "contents"
    let members ← contents.GetObject
    members.forM createSecret.checkMember

/-- Lines 188–199 of `createSecret`: the new record is filled in from the metadata and
its name is checked. -/
def createSecret.readSecret (env : Env) (trace : List Event) (body : Value) :
    Except Outcome Secret := do
  let metadata ← body.member "metadata"
  let name ← (← metadata.member "name").GetString
  let vo ← (← metadata.member "vo").GetString
  let cluster ← (← metadata.member "cluster").GetString
  let secret : Secret :=
    { id := env.generateSecretID trace, name := cstr name, vo := cstr vo,
      cluster := cstr cluster, ctime := env.timestamp trace }
  if secret.name.length > 253 then
    throw (reply 400 (generateError "Secret name too long"))
  if findsCharNotOf secret.name allowedNameCharacters then
    throw (reply 400 (generateError "Secret name contains an invalid character"))
  pure secret

/-- Lines 131–199 of `createSecret`: the shape validation.  It reads the request only. -/
def createSecret.shape (env : Env) (trace : List Event) (req : request) :
    Except Outcome (Value × Secret) :=
  match env.Parse req.body with
  | .error _ => .error (reply 400 (generateError "Invalid JSON in request body"))
  | .ok body => do
    createSecret.checkBody body
    createSecret.checkContents body
    let secret ← createSecret.readSecret env trace body
    pure (body, secret)

/-- Lines 201–220 of `createSecret`: the VO and the cluster are resolved, the requester
must be a member of the VO and the VO must be allowed on the cluster. -/
def createSecret.authorize (store : PersistentStore) (user : User) (secret : Secret) :
    Except Outcome (VO × Cluster × Secret) := do
  let vo := store.getVO secret.vo
  if !vo.valid then
    throw (reply 404 (generateError "VO not found"))
  let secret : Secret := { secret with vo := vo.id }
  if !store.userInVO user.id vo.id then
    throw (reply 403 (generateError "Not authorized"))
  let cluster := store.getCluster secret.cluster
  if !cluster.valid then
    throw (reply 404 (generateError "Cluster not found"))
  let secret : Secret := { secret with cluster := cluster.id }
  if vo.id != cluster.owningVO && !store.voAllowedOnCluster vo.id cluster.id then
    throw (reply 403 (generateError "Not authorized"))
  pure (vo, cluster, secret)

/-- Lines 222–225 of `createSecret`: the name must not be in use for the VO and
cluster. -/
def createSecret.checkDuplicate (store : PersistentStore) (vo : VO) (secret : Secret) :
    Except Outcome Unit :=
  let existing := store.findSecretByName vo.id secret.cluster secret.name
  if existing.valid then
    .error (reply 400 (generateError "A secret with the same name already exists"))
  else .ok ()

/-- Lines 227–260 of `createSecret`: the payload is encrypted from the contents given, or
copied from the source secret, which is then decrypted to obtain the contents. -/
def createSecret.materialize (env : Env) (w : World) (user : User) (body : Value)
    (secret : Secret) : Except Outcome (Value × Secret) × World :=
  match body.HasMember "contents" with
  | .error o => (.error o, w)
  | .ok true =>
    match body.member "contents" with
    | .error o => (.error o, w)
    | .ok contents =>
      (.ok (body, { secret with data := env.encryptSecret w.trace (env.write contents),
                                valid := true }), w)
  | .ok false =>
    match body.member "copyFrom" >>= Value.GetString with
    | .error o => (.error o, w)
    | .ok copyFrom =>
      let sourceID := cstr copyFrom
      let existing := w.store.getSecret sourceID
      if !existing.valid then
        (.error (reply 404 (generateError "The specified source secret does not exist")), w)
      else if !w.store.userInVO user.id existing.vo then
        (.error (reply 403 (generateError "Not authorized")), w)
      else
        let secret : Secret := { secret with data := existing.data }
        let w1 : World := { w with trace := w.trace ++ [Event.decryptSecret existing] }
        match env.decryptSecret w.trace existing with
        | .error what => (.error (Outcome.thrown what), w1)
        | .ok secretData =>
          match env.Parse secretData with
          | .error what => (.error (Outcome.thrown what), w1)
          | .ok contents =>
            match body.AddMember "contents" contents with
            | .error o => (.error o, w1)
            | .ok body => (.ok (body, { secret with valid := true }), w1)

/-- Lines 283–286 of `createSecret`: the loop that appends `--from-literal key=value` for
every member of the contents; key and value are read as C strings. -/
def createSecret.literals : List (String × Value) → Except Outcome (List String)
  | [] => .ok []
  | m :: rest =>
    match m.2.GetString with
    | .error o => .error o
    | .ok value =>
      match createSecret.literals rest with
      | .error o => .error o
      | .ok arguments => .ok ("--from-literal" :: (cstr m.1 ++ "=" ++ cstr value) :: arguments)

/-- Lines 281–286 of `createSecret`: the arguments of the `kubectl` call. -/
def createSecret.arguments (env : Env) (body : Value) (secret : Secret) (vo : VO) :
    Except Outcome (List String) :=
  match body.member "contents" >>= Value.GetObject with
  | .error o => .error o
  | .ok members =>
    match createSecret.literals members with
    | .error o => .error o
    | .ok literals =>
      .ok (["create", "secret", "generic", secret.name, "--namespace", env.namespaceName vo]
        ++ literals)

/-- Lines 307–317 of `createSecret`: the response for a secret that was created. -/
def createSecret.result (secret : Secret) : Value :=
  Value.object [
    ("apiVersion", Value.string "v1alpha1"),
    ("kind", Value.string "Secret"),
    ("metadata", Value.object [
      ("id", Value.string secret.id),
      ("name", Value.string secret.name)])]

/-- Lines 262–317 of `createSecret`: the record is written to the store, then the
namespace and the secret are created on the cluster; the record is removed again when the
first namespace call throws or `kubectl` reports a failure. -/
def createSecret.provision (env : Env) (w : World) (body : Value) (secret : Secret)
    (vo : VO) (cluster : Cluster) : Outcome × World :=
  let (success, w1) := PersistentStore.addSecret env w secret
  if !success then
    (reply 500 (generateError "Failed to store secret to the persistent store"), w1)
  else
    let configPath := w1.store.configPathForCluster cluster.id
    let w2 : World :=
      { w1 with trace := w1.trace ++ [Event.kubectl_create_namespace configPath vo] }
    match env.kubectl_create_namespace w1.trace configPath vo with
    | some what =>
      let (_, w3) := PersistentStore.removeSecret env w2 secret.id
      (reply 500 (generateError what), w3)
    | none =>
      match createSecret.arguments env body secret vo with
      | .error o => (o, w2)
      | .ok arguments =>
        let w3 : World :=
          { w2 with trace := w2.trace ++ [Event.kubectl_create_namespace configPath vo] }
        let rethrown : Option String :=
          match env.kubectl_create_namespace w2.trace configPath vo with
          | some what => if what != "Namespace creation failed" then some what else none
          | none => none
        match rethrown with
        | some what => (Outcome.thrown what, w3)
        | none =>
          let w4 : World := { w3 with trace := w3.trace ++ [Event.kubectl configPath arguments] }
          match env.kubectl w3.trace configPath arguments with
          | .error what => (Outcome.thrown what, w4)
          | .ok result =>
            if result.status != 0 then
              let errMsg := "Failed to store secret to kubernetes: " ++ result.error
              let (_, w5) := PersistentStore.removeSecret env w4 secret.id
              (reply 500 (generateError errMsg), w5)
            else
              (reply 200 (Body.document (createSecret.result secret)), w4)

/-- Lines 222–317 of `createSecret`: what the handler does once the request is shaped and
authorized, from the duplicate check on. -/
def createSecret.fromDuplicateCheck (env : Env) (w : World) (user : User) (body : Value)
    (secret : Secret) (vo : VO) (cluster : Cluster) : Outcome × World :=
  match createSecret.checkDuplicate w.store vo secret with
  | .error o => (o, w)
  | .ok () =>
    match createSecret.materialize env w user body secret with
    | (.error o, w1) => (o, w1)
    | (.ok (body, secret), w1) => createSecret.provision env w1 body secret vo cluster

/-- The handler `createSecret` (lines 125–318). -/
def createSecret (env : Env) (w : World) (req : request) : Outcome × World :=
  let user := env.authenticateUser w.store (req.get "token")
  if !user.valid then (reply 403 (generateError "Not authorized"), w) else
  match createSecret.shape env w.trace req with
  | .error o => (o, w)
  | .ok (body, secret) =>
    match createSecret.authorize w.store user secret with
    | .error o => (o, w)
    | .ok (vo, cluster, secret) =>
      createSecret.fromDuplicateCheck env w user body secret vo cluster

/-- Lines 350–351 of `internal::deleteSecret`: the arguments of the `kubectl` call. -/
def internal.deleteSecret.arguments (env : Env) (secret : Secret) (vo : VO) : List String :=
  ["delete", "secret", secret.name, "--namespace", env.namespaceName vo]

/-- The function `internal::deleteSecret` (lines 343–375): the error message, empty on
success.  An error of the `kubectl` call stands for a `std::runtime_error` thrown in the
`try` block of lines 348–359. -/
def internal.deleteSecret (env : Env) (w : World) (secret : Secret) (force : Bool) :
    String × World :=
  let vo := w.store.findVOByID secret.vo
  let configPath := w.store.configPathForCluster secret.cluster
  let arguments := internal.deleteSecret.arguments env secret vo
  let w1 : World := { w with trace := w.trace ++ [Event.kubectl configPath arguments] }
  let removeFromDatabase : String × World :=
    let (success, w2) := PersistentStore.removeSecret env w1 secret.id
    if !success then ("Failed to delete secret from database", w2) else ("", w2)
  match env.kubectl w.trace configPath arguments with
  | .ok result =>
    if result.status != 0 then
      if !force then ("Failed to delete secret from kubernetes", w1)
      else removeFromDatabase
    else removeFromDatabase
  | .error _ =>
    if !force then ("Failed to delete secret from kubernetes", w1)
    else removeFromDatabase

/-- The handler `deleteSecret` (lines 320–340).  The response built from a non-empty
error is a temporary that is not returned (line 338). -/
def deleteSecret (env : Env) (w : World) (req : request) (secretID : String) :
    Outcome × World :=
  let user := env.authenticateUser w.store (req.get "token")
  if !user.valid then (reply 403 (generateError "Not authorized"), w) else
  let secret := w.store.getSecret secretID
  if !secret.valid then (reply 404 (generateError "Secret not found"), w) else
  if !w.store.userInVO user.id secret.vo then
    (reply 403 (generateError "Not authorized"), w)
  else
    let force := (req.get "force").isSome
    let (err, w1) := internal.deleteSecret env w secret force
    let _temporary : Option response :=
      if !err.isEmpty then some ⟨500, generateError err⟩ else none
    (reply 200 Body.empty, w1)

/-- The handler `getSecret` (lines 378–419). -/
def getSecret (env : Env) (w : World) (req : request) (secretID : String) :
    Outcome × World :=
  let user := env.authenticateUser w.store (req.get "token")
  if !user.valid then (reply 403 (generateError "Not authorized"), w) else
  let secret := w.store.getSecret secretID
  if !secret.valid then (reply 404 (generateError "Secret not found"), w) else
  if !w.store.userInVO user.id secret.vo then
    (reply 403 (generateError "Not authorized"), w)
  else
    let metadata := Value.object [
      ("id", Value.string secret.id),
      ("name", Value.string secret.name),
      ("vo", Value.string (w.store.getVO secret.vo).name),
      ("cluster", Value.string (w.store.getCluster secret.cluster).name),
      ("created", Value.string secret.ctime)]
    let w1 : World := { w with trace := w.trace ++ [Event.decryptSecret secret] }
    match env.decryptSecret w.trace secret >>= env.Parse with
    | .error _ => (reply 500 (generateError "Secret decryption failed"), w1)
    | .ok contents =>
      (reply 200 (Body.document (Value.object [
        ("apiVersion", Value.string "v1alpha1"),
        ("kind", Value.string "Secret"),
        ("metadata", metadata),
        ("contents", contents)])), w1)

/-! ## Notions used to state the properties -/

/-- The user a request is authenticated as: the first statement of every handler. -/
abbrev requester (env : Env) (w : World) (req : request) : User :=
  env.authenticateUser w.store (req.get "token")

/-- A `kubectl` call failed: it threw a `std::runtime_error` or its exit status is not
zero. -/
def kubectlFailed : Except String commandResult → Bool
  | .ok result => result.status != 0
  | .error _ => true

/-- The outcome of the `kubectl` call that `internal::deleteSecret` makes for a secret. -/
def internal.deleteSecret.kubectl (env : Env) (w : World) (secret : Secret) :
    Except String commandResult :=
  env.kubectl w.trace (w.store.configPathForCluster secret.cluster)
    (internal.deleteSecret.arguments env secret (w.store.findVOByID secret.vo))

/-- The trace after the `kubectl` call that `internal::deleteSecret` makes for a secret. -/
def internal.deleteSecret.called (env : Env) (w : World) (secret : Secret) : List Event :=
  w.trace ++ [Event.kubectl (w.store.configPathForCluster secret.cluster)
    (internal.deleteSecret.arguments env secret (w.store.findVOByID secret.vo))]

/-- The handler returned a validation (400), authorization (403) or not-found (404)
error. -/
def Outcome.isRejection (o : Outcome) : Bool :=
  o.code = some 400 ∨ o.code = some 403 ∨ o.code = some 404

/-- Two users that differ at most in the administrator flag. -/
def User.sameButAdmin (a b : User) : Bool :=
  decide ({ a with admin := b.admin } = b)

/-- The store holds a record for this secret id. -/
def PersistentStore.holds (store : PersistentStore) (id : String) : Bool :=
  (store.getSecret id).valid

/-- The trace at the first namespace-creation call of `createSecret.provision`, entered in
world `w` with the record `secret`: the record has been written. -/
def createSecret.provision.atFirstNamespaceCall (w : World) (secret : Secret) : List Event :=
  w.trace ++ [Event.addSecret secret]

/-- The trace at the second namespace-creation call of `createSecret.provision`. -/
def createSecret.provision.atSecondNamespaceCall (w : World) (secret : Secret) (vo : VO)
    (cluster : Cluster) : List Event :=
  createSecret.provision.atFirstNamespaceCall w secret
    ++ [Event.kubectl_create_namespace (w.store.configPathForCluster cluster.id) vo]

/-- The trace at the `kubectl create secret` call of `createSecret.provision`. -/
def createSecret.provision.atKubectl (w : World) (secret : Secret) (vo : VO)
    (cluster : Cluster) : List Event :=
  createSecret.provision.atSecondNamespaceCall w secret vo cluster
    ++ [Event.kubectl_create_namespace (w.store.configPathForCluster cluster.id) vo]

/-- The first namespace-creation call of `createSecret.provision` throws. -/
def createSecret.provision.firstNamespaceCallThrows (env : Env) (w : World) (secret : Secret)
    (vo : VO) (cluster : Cluster) : Bool :=
  (env.kubectl_create_namespace (createSecret.provision.atFirstNamespaceCall w secret)
    (w.store.configPathForCluster cluster.id) vo).isSome

/-- The second namespace-creation call of `createSecret.provision` returns, or throws
the message that line 290 lets pass. -/
def createSecret.provision.secondNamespaceCallPasses (env : Env) (w : World) (secret : Secret)
    (vo : VO) (cluster : Cluster) : Bool :=
  match env.kubectl_create_namespace (createSecret.provision.atSecondNamespaceCall w secret vo cluster)
      (w.store.configPathForCluster cluster.id) vo with
  | none => true
  | some what => what == "Namespace creation failed"

/-- The `kubectl create secret` call of `createSecret.provision` is reached and returns a
non-zero exit status: the first namespace-creation call returned, the arguments were
built, the second namespace-creation call passed, and the command reported a failure. -/
def createSecret.provision.kubectlReportsFailure (env : Env) (w : World) (body : Value)
    (secret : Secret) (vo : VO) (cluster : Cluster) : Bool :=
  !createSecret.provision.firstNamespaceCallThrows env w secret vo cluster
  && createSecret.provision.secondNamespaceCallPasses env w secret vo cluster
  && match createSecret.arguments env body secret vo with
     | .error _ => false
     | .ok arguments =>
       match env.kubectl (createSecret.provision.atKubectl w secret vo cluster)
           (w.store.configPathForCluster cluster.id) arguments with
       | .ok result => result.status != 0
       | .error _ => false

/-! ## A concrete deployment, on which the handlers are evaluated -/

namespace Scenario

/-- A member of `vo1` who is not an administrator. -/
def alice : User := { valid := true, id := "User_alice", name := "alice", token := "token-alice" }

/-- An administrator who is a member of no VO. -/
def root : User :=
  { valid := true, id := "User_root", name := "root", token := "token-root", admin := true }

/-- A user who is neither an administrator nor a member of any VO. -/
def carol : User := { valid := true, id := "User_carol", name := "carol", token := "token-carol" }

def vo1 : VO := { valid := true, id := "VO_1", name := "vo1" }

def vo2 : VO := { valid := true, id := "VO_2", name := "vo2" }

/-- A cluster owned by `vo1`. -/
def cluster1 : Cluster :=
  { valid := true, id := "Cluster_1", name := "cluster1", config := "config1", owningVO := "VO_1" }

/-- A cluster owned by `vo2`, to which `vo1` has been granted access. -/
def cluster2 : Cluster :=
  { valid := true, id := "Cluster_2", name := "cluster2", config := "config2", owningVO := "VO_2" }

/-- A cluster owned by `vo2`, without a grant for `vo1`. -/
def cluster3 : Cluster :=
  { valid := true, id := "Cluster_3", name := "cluster3", config := "config3", owningVO := "VO_2" }

/-- A secret of `vo1` on `cluster1`. -/
def secret1 : Secret :=
  { valid := true, id := "Secret_1", name := "db-password", vo := "VO_1", cluster := "Cluster_1",
    ctime := "2018-07-01", data := "0f3a" }

def store : PersistentStore :=
  { getVO := fun key =>
      if key = "VO_1" ∨ key = "vo1" then vo1 else if key = "VO_2" ∨ key = "vo2" then vo2 else {}
    findVOByID := fun id => if id = "VO_1" then vo1 else if id = "VO_2" then vo2 else {}
    getCluster := fun key =>
      if key = "Cluster_1" ∨ key = "cluster1" then cluster1
      else if key = "Cluster_2" ∨ key = "cluster2" then cluster2
      else if key = "Cluster_3" ∨ key = "cluster3" then cluster3 else {}
    userInVO := fun user vo => user = "User_alice" ∧ vo = "VO_1"
    voAllowedOnCluster := fun vo cluster => vo = "VO_1" ∧ cluster = "Cluster_2"
    configPathForCluster := fun id => id ++ ".yaml"
    secrets := [secret1] }

def world : World := { store := store, trace := [] }

/-- The number of namespace-creation calls in a trace. -/
def namespaceCalls (trace : List Event) : Nat :=
  (trace.filter (fun e => match e with
    | Event.kubectl_create_namespace _ _ => true
    | _ => false)).length

/-- The collaborators of the scenario: the parser reads the request body as `document`,
the n-th namespace-creation call ends as the n-th entry of `namespaces` (it succeeds
beyond the end of the list), every `kubectl` call ends as `kubectl`, and the database
calls succeed. -/
def env (document : Value) (namespaces : List (Option String))
    (kubectl : Except String commandResult) : Env :=
  { authenticateUser := fun _ token =>
      if token = some "token-alice" then alice
      else if token = some "token-root" then root
      else if token = some "token-carol" then carol else {}
    Parse := fun _ => .ok document
    write := fun _ => "plaintext"
    generateSecretID := fun _ => "Secret_new"
    timestamp := fun _ => "2018-07-02"
    namespaceName := fun vo => "slate-vo-" ++ vo.name
    encryptSecret := fun _ plain => "encrypted:" ++ plain
    decryptSecret := fun _ secret => .ok secret.data
    putItem := fun _ _ => true
    deleteItem := fun _ _ => true
    kubectl_create_namespace := fun trace _ _ => namespaces.getD (namespaceCalls trace) none
    kubectl := fun _ _ _ => kubectl }

/-- A secret key with a NUL character in it, followed by a blank and an exclamation
mark: the JSON member name `user\u0000 name!`. -/
def keyWithNUL : String := "user" ++ String.singleton NUL ++ " name!"

/-- A request body with inline contents, for `vo1`. -/
def inlineBody (name cluster : String) (contents : List (String × Value)) : Value :=
  Value.object [
    ("metadata", Value.object [
      ("name", Value.string name), ("vo", Value.string "vo1"), ("cluster", Value.string cluster)]),
    ("contents", Value.object contents)]

/-- A request that carries a token and, when `force` is set, the `force` parameter. -/
def requestOf (token : String) (force : Bool) : request :=
  { url_params := if force then [("token", token), ("force", "")] else [("token", token)]
    body := "" }

/-- The `kubectl` call reports a failure with exit status 1. -/
def failure : Except String commandResult := .ok { error := "connection refused", status := 1 }

/-- The `kubectl` call succeeds. -/
def success : Except String commandResult := .ok {}

end Scenario

/-! ## The secure buffer (`SecretStringBuffer`, lines 10–71) -/

/-- The value of a `std::size_t` expression: arithmetic is modulo 2^64. -/
def size_t (n : Nat) : Nat := n % 2 ^ 64

/-- Modelled from the spec: `SecretData` is declared outside `src/`.  It owns a region of
`dataSize` chars, `data`, which is zero-initialized when it is allocated (spec 4.1). -/
structure SecretData where
  data : List Char
  dataSize : Nat
deriving DecidableEq

/-- Modelled from the spec: the constructor `SecretData(size)` allocates a fresh,
zero-initialized region of `size` chars. -/
def SecretData.ofSize (size : Nat) : SecretData :=
  { data := List.replicate size NUL, dataSize := size }

/-- The call `std::copy_n(first, count, result)` on two regions: the first `count` chars of
`result` become those of `first`.  It is undefined (`none`) when `count` exceeds one of the
regions. -/
def copy_n (first : List Char) (count : Nat) (result : List Char) : Option (List Char) :=
  if count ≤ first.length ∧ count ≤ result.length then
    some (first.take count ++ result.drop count)
  else none

/-- The struct `SecretStringBuffer`: `size` chars of `data` are in use, `data.dataSize` is
the capacity. -/
structure SecretStringBuffer where
  data : SecretData
  size : Nat
deriving DecidableEq

namespace SecretStringBuffer

/-- The constructor (line 15). -/
def new : SecretStringBuffer := { data := SecretData.ofSize 32, size := 0 }

/-- The method `Reserve` (lines 37–43). -/
def Reserve (b : SecretStringBuffer) (count : Nat) : Option SecretStringBuffer :=
  if count > b.data.dataSize then
    match copy_n b.data.data b.size (SecretData.ofSize count).data with
    | some region => some { b with data := { data := region, dataSize := count } }
    | none => none
  else some b

/-- The method `Put` (lines 17–22).  The write `*(data.data.get()+size)=c` is undefined
(`none`) when `size` is not an index of the region. -/
def Put (b : SecretStringBuffer) (c : Char) : Option SecretStringBuffer :=
  match (if b.size = b.data.dataSize then b.Reserve (size_t (2 * b.size)) else some b) with
  | none => none
  | some b1 =>
    if b1.size < b1.data.data.length then
      some { data := { b1.data with data := b1.data.data.set b1.size c },
             size := size_t (b1.size + 1) }
    else none

/-- The method `PutUnsafe` (lines 23–26): it calls `Put`. -/
def PutUnsafe (b : SecretStringBuffer) (c : Char) : Option SecretStringBuffer := b.Put c

/-- The method `Flush` (line 27): it does nothing. -/
def Flush (b : SecretStringBuffer) : SecretStringBuffer := b

/-- The method `Clear` (lines 28–31). -/
def Clear (_b : SecretStringBuffer) : SecretStringBuffer :=
  { data := SecretData.ofSize 32, size := 0 }

/-- The method `ShrinkToFit` (lines 32–36). -/
def ShrinkToFit (b : SecretStringBuffer) : Option SecretStringBuffer :=
  match copy_n b.data.data b.size (SecretData.ofSize b.size).data with
  | some region => some { b with data := { data := region, dataSize := b.size } }
  | none => none

/-- The method `Push` (lines 44–49): the buffer afterwards and the offset in the region of
the pointer returned. -/
def Push (b : SecretStringBuffer) (count : Nat) : Option (SecretStringBuffer × Nat) :=
  match b.Reserve (size_t (b.size + count)) with
  | none => none
  | some b1 => some ({ b1 with size := size_t (b1.size + count) }, b1.size)

/-- The method `PushUnsafe` (lines 50–53): it calls itself.  The recursion is run with
fuel; `none` says that the fuel ran out before the call returned. -/
def PushUnsafe : Nat → SecretStringBuffer → Nat → Option (Option (SecretStringBuffer × Nat))
  | 0, _, _ => none
  | fuel + 1, b, count => PushUnsafe fuel b count

/-- The method `Pop` (lines 54–56): `size-=count` in `std::size_t`. -/
def Pop (b : SecretStringBuffer) (count : Nat) : SecretStringBuffer :=
  { b with size := size_t (b.size + (2 ^ 64 - size_t count)) }

/-- The method `GetString` (lines 57–59): the start of the region. -/
def GetString (b : SecretStringBuffer) : List Char := b.data.data

/-- The method `GetSize` (lines 60–62). -/
def GetSize (b : SecretStringBuffer) : Nat := b.size

/-- The method `GetLength` (lines 63–65). -/
def GetLength (b : SecretStringBuffer) : Nat := b.size

/-- The fields are values of `std::size_t` and the region has `dataSize` chars, as after
every allocation. -/
def Sound (b : SecretStringBuffer) : Prop :=
  b.size < 2 ^ 64 ∧ b.data.dataSize < 2 ^ 64 ∧ b.data.data.length = b.data.dataSize

instance (b : SecretStringBuffer) : Decidable b.Sound := by
  unfold Sound
  infer_instance

/-- A call of one of the methods that change the buffer. -/
inductive Call where
  | Put (c : Char)
  | PutUnsafe (c : Char)
  | Reserve (count : Nat)
  | Push (count : Nat)
  | ShrinkToFit
  | Clear
  | Pop (count : Nat)
deriving DecidableEq

/-- The buffer after a call, `none` when the call is undefined. -/
def call (b : SecretStringBuffer) : Call → Option SecretStringBuffer
  | .Put c => b.Put c
  | .PutUnsafe c => b.PutUnsafe c
  | .Reserve count => b.Reserve count
  | .Push count => (b.Push count).map (fun r => r.1)
  | .ShrinkToFit => b.ShrinkToFit
  | .Clear => some b.Clear
  | .Pop count => some (b.Pop count)

/-- The buffer after a sequence of calls, `none` when one of them is undefined. -/
def calls (b : SecretStringBuffer) : List Call → Option SecretStringBuffer
  | [] => some b
  | c :: rest =>
    match b.call c with
    | some b1 => b1.calls rest
    | none => none

end SecretStringBuffer

namespace SecretStringBuffer

/-- The calls of a sequence are made with arguments that are values of `std::size_t`, and
every `Pop(count)` with `count <= size`. -/
def Admissible : SecretStringBuffer → List Call → Prop
  | _, [] => True
  | b, c :: rest =>
    (match c with
      | .Pop count => count ≤ b.size
      | .Reserve count => count < 2 ^ 64
      | .Push count => count < 2 ^ 64
      | _ => True)
    ∧ ∀ b1, b.call c = some b1 → Admissible b1 rest

end SecretStringBuffer

/-! ## The persistent store over the database client (`src/PersistentStore.cpp`) -/

/-- An `Aws::DynamoDB::Model::AttributeValue`, as far as the store uses it: a string or a
boolean. -/
inductive AttributeValue where
  | S (s : String)
  | BOOL (b : Bool)
deriving DecidableEq

/-- The call `value.GetS()`: the string of a string value, empty for another value. -/
def AttributeValue.GetS : AttributeValue → String
  | .S s => s
  | .BOOL _ => ""

/-- The call `value.GetBool()`: the boolean of a boolean value, false for another value. -/
def AttributeValue.GetBool : AttributeValue → Bool
  | .S _ => false
  | .BOOL b => b

/-- An item of a table: a map from attribute names to values, as a list of pairs. -/
abbrev Item := List (String × AttributeValue)

/-- The call `item.find(name)`: the value of the attribute, `none` for the end iterator. -/
def Item.find (item : Item) (name : String) : Option AttributeValue :=
  (List.find? (fun a => a.1 == name) item).map (fun a => a.2)

/-- The call `item.count(name)`. -/
def Item.count (item : Item) (name : String) : Nat :=
  if (Item.find item name).isSome then 1 else 0

/-- The expression `item.find(name)->second.GetS()`; it is undefined (`none`) when the item
has no such attribute, because the end iterator is dereferenced. -/
def Item.GetS (item : Item) (name : String) : Option String :=
  (Item.find item name).map AttributeValue.GetS

/-- The expression `item.find(name)->second.GetBool()`, undefined as `Item.GetS` is. -/
def Item.GetBool (item : Item) (name : String) : Option Bool :=
  (Item.find item name).map AttributeValue.GetBool

/-- A key condition of a query, with the placeholders of the expression replaced by the
attribute names and values given with it: `#a = :v`, or
`#a = :v AND begins_with(#s,:p)`. -/
inductive KeyCondition where
  | equals (name : String) (value : AttributeValue)
  | equalsAndBeginsWith (name : String) (value : AttributeValue)
      (sortName : String) (start : AttributeValue)
deriving DecidableEq

/-- A filter expression of a scan, with its placeholders replaced:
`attribute_exists(name)`. -/
inductive FilterExpression where
  | attribute_exists (name : String)
deriving DecidableEq

structure PutItemRequest where
  tableName : String
  item : Item
deriving DecidableEq

structure DeleteItemRequest where
  tableName : String
  key : Item
deriving DecidableEq

structure GetItemRequest where
  tableName : String
  key : Item
deriving DecidableEq

structure QueryRequest where
  tableName : String
  indexName : Option String := none
  keyCondition : KeyCondition
  exclusiveStartKey : Item := []
deriving DecidableEq

structure ScanRequest where
  tableName : String
  filterExpression : FilterExpression
  exclusiveStartKey : Item := []
deriving DecidableEq

/-- The result of a successful query: one page of items and the key to continue from,
empty when there is no further page. -/
structure QueryResult where
  items : List Item
  lastEvaluatedKey : Item := []
deriving DecidableEq

/-- The result of a successful scan: one page of items and the key to continue from,
empty when there is no further page. -/
structure ScanResult where
  items : List Item
  lastEvaluatedKey : Item := []
deriving DecidableEq

/-- The database client `dbClient`, outside `src/`, over a database in state `σ`.  A write
returns whether the outcome is a success and the database afterwards; a read returns its
result or, as an error, the message of a failed outcome. -/
structure DynamoDBClient (σ : Type) where
  PutItem : σ → PutItemRequest → Bool × σ
  DeleteItem : σ → DeleteItemRequest → Bool × σ
  GetItem : σ → GetItemRequest → Except String Item
  Query : σ → QueryRequest → Except String QueryResult
  Scan : σ → ScanRequest → Except String ScanResult

/-- How a call of a store function that reads with a loop or dereferences iterators
ends. -/
inductive Run (α : Type) where
  /-- the call returned this value -/
  | returned (value : α)
  /-- the call dereferenced the end iterator of an item -/
  | undefined
  /-- the fuel ran out before the call returned -/
  | unfinished
deriving DecidableEq

/-- A loop over items that reads attributes of each: the values read, `none` when an
attribute that is read is missing from an item. -/
def readAll {α : Type} (read : Item → Option α) : List Item → Option (List α)
  | [] => some []
  | item :: rest =>
    match read item with
    | none => none
    | some a =>
      match readAll read rest with
      | none => none
      | some others => some (a :: others)

namespace PersistentStore

/-- The table of users and memberships (line 14). -/
def userTableName : String := "SLATE_users"

/-- The table of VOs (line 15). -/
def voTableName : String := "SLATE_VOs"

/-- The function `addUser` (lines 18–40). -/
def addUser {σ : Type} (dbClient : DynamoDBClient σ) (db : σ) (user : User) : Bool × σ :=
  dbClient.PutItem db
    { tableName := userTableName
      item := [("ID", .S user.id), ("sortKey", .S user.id), ("name", .S user.name),
               ("globusID", .S user.globusID), ("token", .S user.token),
               ("email", .S user.email), ("admin", .BOOL user.admin)] }

/-- The function `getUser` (lines 42–66). -/
def getUser {σ : Type} (dbClient : DynamoDBClient σ) (db : σ) (id : String) : Run User :=
  match dbClient.GetItem db
      { tableName := userTableName, key := [("ID", .S id), ("sortKey", .S id)] } with
  | .error _ => .returned {}
  | .ok item =>
    if item.isEmpty then .returned {}
    else
      match Item.GetS item "name", Item.GetS item "email", Item.GetS item "token",
          Item.GetS item "globusID", Item.GetBool item "admin" with
      | some name, some email, some token, some globusID, some admin =>
        .returned { valid := true, id := id, name := name, email := email, token := token,
                    globusID := globusID, admin := admin }
      | _, _, _, _, _ => .undefined

/-- Lines 192–199 of `listUsers`: the user read from an item of a page. -/
def listUsers.user (item : Item) : Option User :=
  match Item.GetS item "ID", Item.GetS item "name", Item.GetS item "email" with
  | some id, some name, some email => some { valid := true, id := id, name := name, email := email }
  | _, _, _ => none

/-- Lines 175–200 of `listUsers`: the `do ... while(keepGoing)` loop, run with fuel. -/
def listUsers.loop {σ : Type} (dbClient : DynamoDBClient σ) (db : σ) :
    Nat → ScanRequest → List User → Run (List User)
  | 0, _, _ => .unfinished
  | fuel + 1, request, collected =>
    match dbClient.Scan db request with
    | .error _ => .returned collected
    | .ok result =>
      let keepGoing := !result.lastEvaluatedKey.isEmpty
      let request : ScanRequest :=
        if keepGoing then { request with exclusiveStartKey := result.lastEvaluatedKey }
        else request
      match readAll listUsers.user result.items with
      | none => .undefined
      | some users =>
        if keepGoing then listUsers.loop dbClient db fuel request (collected ++ users)
        else .returned (collected ++ users)

/-- The first request of `listUsers` (lines 169–172). -/
def listUsers.request : ScanRequest :=
  { tableName := userTableName, filterExpression := .attribute_exists "email" }

/-- The function `listUsers` (lines 167–202), run with fuel. -/
def listUsers {σ : Type} (dbClient : DynamoDBClient σ) (db : σ) (fuel : Nat) : Run (List User) :=
  listUsers.loop dbClient db fuel listUsers.request []

/-- The function `addUserToVO` (lines 204–222). -/
def addUserToVO {σ : Type} (dbClient : DynamoDBClient σ) (db : σ) (uID voID : String) :
    Bool × σ :=
  dbClient.PutItem db
    { tableName := userTableName
      item := [("ID", .S uID), ("sortKey", .S (uID ++ ":" ++ voID)), ("voID", .S voID)] }

/-- The function `removeUserFromVO` (lines 224–237). -/
def removeUserFromVO {σ : Type} (dbClient : DynamoDBClient σ) (db : σ) (uID voID : String) :
    Bool × σ :=
  dbClient.DeleteItem db
    { tableName := userTableName
      key := [("ID", .S uID), ("sortKey", .S (uID ++ ":" ++ voID))] }

/-- Lines 262–265 of `getUserVOMemberships`: the VO ids of the items that have one. -/
def getUserVOMemberships.vos : List Item → List String
  | [] => []
  | item :: rest =>
    match Item.find item "voID" with
    | some value => value.GetS :: getUserVOMemberships.vos rest
    | none => getUserVOMemberships.vos rest

/-- The function `getUserVOMemberships` (lines 239–267): one query, whose items are read;
the key to continue from is not looked at. -/
def getUserVOMemberships {σ : Type} (dbClient : DynamoDBClient σ) (db : σ) (uID : String) :
    List String :=
  match dbClient.Query db
      { tableName := userTableName
        keyCondition := .equalsAndBeginsWith "ID" (.S uID) "sortKey" (.S (uID ++ ":VO")) } with
  | .error _ => []
  | .ok queryResult => getUserVOMemberships.vos queryResult.items

/-- The function `addVO` (lines 271–287). -/
def addVO {σ : Type} (dbClient : DynamoDBClient σ) (db : σ) (vo : VO) : Bool × σ :=
  dbClient.PutItem db
    { tableName := voTableName
      item := [("ID", .S vo.id), ("sortKey", .S vo.id), ("name", .S vo.name)] }

/-- The function `getMembersOfVO` (lines 312–334): one query on the index `ByVO`, whose
items are read; the key to continue from is not looked at. -/
def getMembersOfVO {σ : Type} (dbClient : DynamoDBClient σ) (db : σ) (voID : String) :
    Run (List String) :=
  match dbClient.Query db
      { tableName := userTableName, indexName := some "ByVO"
        keyCondition := .equals "voID" (.S voID) } with
  | .error _ => .returned []
  | .ok queryResult =>
    match readAll (fun item => Item.GetS item "ID") queryResult.items with
    | none => .undefined
    | some users => .returned users

/-- Lines 361–367 of `listVOs`: the VO read from an item of a page. -/
def listVOs.vo (item : Item) : Option VO :=
  match Item.GetS item "ID", Item.GetS item "name" with
  | some id, some name => some { valid := true, id := id, name := name }
  | _, _ => none

/-- Lines 344–368 of `listVOs`: the `do ... while(keepGoing)` loop, run with fuel. -/
def listVOs.loop {σ : Type} (dbClient : DynamoDBClient σ) (db : σ) :
    Nat → ScanRequest → List VO → Run (List VO)
  | 0, _, _ => .unfinished
  | fuel + 1, request, collected =>
    match dbClient.Scan db request with
    | .error _ => .returned collected
    | .ok result =>
      let keepGoing := !result.lastEvaluatedKey.isEmpty
      let request : ScanRequest :=
        if keepGoing then { request with exclusiveStartKey := result.lastEvaluatedKey }
        else request
      match readAll listVOs.vo result.items with
      | none => .undefined
      | some vos =>
        if keepGoing then listVOs.loop dbClient db fuel request (collected ++ vos)
        else .returned (collected ++ vos)

/-- The first request of `listVOs` (lines 338–341). -/
def listVOs.request : ScanRequest :=
  { tableName := voTableName, filterExpression := .attribute_exists "name" }

/-- The function `listVOs` (lines 336–370), run with fuel. -/
def listVOs {σ : Type} (dbClient : DynamoDBClient σ) (db : σ) (fuel : Nat) : Run (List VO) :=
  listVOs.loop dbClient db fuel listVOs.request []

end PersistentStore

/-! ## The database as a map keyed by (ID, sortKey) -/

/-- Modelled from the spec: the database is outside `src/`.  It is a map from a table
name and a primary key (`ID`, `sortKey`) to an item, kept as the list of its rows; a put
replaces the row at the key of the item, a delete removes it. -/
abbrev Database := List (String × Item)

namespace Database

/-- The primary key of an item: its attributes `ID` and `sortKey`. -/
def key (item : Item) : Option AttributeValue × Option AttributeValue :=
  (Item.find item "ID", Item.find item "sortKey")

/-- The row is the one of this table at the key of `item`. -/
def isAt (tableName : String) (item : Item) (row : String × Item) : Bool :=
  decide (row.1 = tableName ∧ key row.2 = key item)

/-- The rows after a put: the item is at its key, alone. -/
def PutItem (db : Database) (request : PutItemRequest) : Database :=
  db.filter (fun row => !isAt request.tableName request.item row)
    ++ [(request.tableName, request.item)]

/-- The rows after a delete: no row is at the key. -/
def DeleteItem (db : Database) (request : DeleteItemRequest) : Database :=
  db.filter (fun row => !isAt request.tableName request.key row)

/-- The item at a key, empty when there is none. -/
def GetItem (db : Database) (request : GetItemRequest) : Item :=
  match db.find? (isAt request.tableName request.key) with
  | some row => row.2
  | none => []

/-- The test `begins_with(s, start)` of a key condition. -/
def beginsWith (s start : String) : Bool := start.data.isPrefixOf s.data

/-- An item satisfies a key condition. -/
def satisfies (condition : KeyCondition) (item : Item) : Bool :=
  match condition with
  | .equals name value => decide (Item.find item name = some value)
  | .equalsAndBeginsWith name value sortName start =>
    decide (Item.find item name = some value)
    && match Item.find item sortName, start with
       | some (.S s), .S stem => beginsWith s stem
       | _, _ => false

/-- The items of a table that satisfy the key condition of a query, in one page. -/
def Query (db : Database) (request : QueryRequest) : QueryResult :=
  { items := (db.filter (fun row =>
      decide (row.1 = request.tableName) && satisfies request.keyCondition row.2)).map
        (fun row => row.2) }

/-- An item passes a filter expression. -/
def passes (filter : FilterExpression) (item : Item) : Bool :=
  match filter with
  | .attribute_exists name => (Item.find item name).isSome

/-- The items of a table that pass the filter of a scan, in one page. -/
def Scan (db : Database) (request : ScanRequest) : ScanResult :=
  { items := (db.filter (fun row =>
      decide (row.1 = request.tableName) && passes request.filterExpression row.2)).map
        (fun row => row.2) }

/-- The client of the map.  When the database is `up` every call succeeds; otherwise every
call fails and the rows stay as they are. -/
def client (up : Bool) : DynamoDBClient Database :=
  { PutItem := fun db request => if up then (true, PutItem db request) else (false, db)
    DeleteItem := fun db request => if up then (true, DeleteItem db request) else (false, db)
    GetItem := fun db request => if up then .ok (GetItem db request) else .error "unavailable"
    Query := fun db request => if up then .ok (Query db request) else .error "unavailable"
    Scan := fun db request => if up then .ok (Scan db request) else .error "unavailable" }

/-- An item that has a `voID` is a membership record as `addUserToVO` writes it: the
`voID` and the `ID` are strings and the `sortKey` is `ID:voID`. -/
def isMembershipOrOther (item : Item) : Bool :=
  match Item.find item "voID" with
  | none => true
  | some (.S voID) =>
    match Item.find item "ID" with
    | some (.S uID) => decide (Item.find item "sortKey" = some (.S (uID ++ ":" ++ voID)))
    | _ => false
  | some _ => false

/-- Every row of the user table that has a `voID` is a membership record as `addUserToVO`
writes it. -/
def WellFormed (db : Database) : Bool :=
  db.all (fun row => decide (row.1 ≠ PersistentStore.userTableName) || isMembershipOrOther row.2)

end Database

namespace PersistentStore

/-- The scan that starts with `request` is answered by these pages in turn: every page but
the last carries a non-empty key to continue from, with which the next request is made,
and the last page carries none. -/
def ScanServes {σ : Type} (dbClient : DynamoDBClient σ) (db : σ) :
    ScanRequest → List ScanResult → Prop
  | _, [] => False
  | request, [page] => dbClient.Scan db request = .ok page ∧ page.lastEvaluatedKey = []
  | request, page :: next :: rest =>
    dbClient.Scan db request = .ok page ∧ page.lastEvaluatedKey ≠ []
    ∧ ScanServes dbClient db { request with exclusiveStartKey := page.lastEvaluatedKey }
        (next :: rest)

/-- The scan that starts with `request` is answered by these pages in turn, each with a
non-empty key to continue from, and the scan call after them fails. -/
def ScanFailsAfter {σ : Type} (dbClient : DynamoDBClient σ) (db : σ) :
    ScanRequest → List ScanResult → Prop
  | request, [] => ∃ what, dbClient.Scan db request = .error what
  | request, page :: rest =>
    dbClient.Scan db request = .ok page ∧ page.lastEvaluatedKey ≠ []
    ∧ ScanFailsAfter dbClient db { request with exclusiveStartKey := page.lastEvaluatedKey } rest

/-- The items of all pages, in order. -/
def allItems (pages : List ScanResult) : List Item :=
  pages.flatMap (fun page => page.items)

end PersistentStore

namespace Scenario

/-- The record of a user, as `addUser` writes it. -/
def userItem (id name email : String) : Item :=
  [("ID", .S id), ("sortKey", .S id), ("name", .S name), ("email", .S email)]

/-- The record of a membership, as `addUserToVO` writes it. -/
def membershipItem (uID voID : String) : Item :=
  [("ID", .S uID), ("sortKey", .S (uID ++ ":" ++ voID)), ("voID", .S voID)]

/-- The key that the first page of the scenario carries to continue from. -/
def firstKey : Item := [("ID", .S "User_1"), ("sortKey", .S "User_1")]

/-- The first page of the scan of the scenario: the record of `User_1`, and `firstKey`. -/
def firstPage : ScanResult :=
  { items := [userItem "User_1" "Bob" "bob@place.com"], lastEvaluatedKey := firstKey }

/-- A database client whose table is read in two pages.  A scan returns `firstPage`;
continued from `firstKey` it ends as `second` says.  A query for the members of a VO returns the membership of `User_1` and `firstKey`, and continued from
there the membership of `User_2`; a query for the memberships of a user returns the one in
`VO_1` and `firstKey`, and continued from there the one in `VO_2`.  Writes fail. -/
def pagedClient (second : Except String ScanResult) : DynamoDBClient Unit :=
  { PutItem := fun db _ => (false, db)
    DeleteItem := fun db _ => (false, db)
    GetItem := fun _ _ => .error "unavailable"
    Query := fun _ request =>
      match request.keyCondition with
      | .equals _ (.S voID) =>
        if request.exclusiveStartKey = [] then
          .ok { items := [membershipItem "User_1" voID], lastEvaluatedKey := firstKey }
        else .ok { items := [membershipItem "User_2" voID] }
      | .equalsAndBeginsWith _ (.S uID) _ _ =>
        if request.exclusiveStartKey = [] then
          .ok { items := [membershipItem uID "VO_1"], lastEvaluatedKey := firstKey }
        else .ok { items := [membershipItem uID "VO_2"] }
      | _ => .error "unsupported"
    Scan := fun _ request =>
      if request.exclusiveStartKey = [] then
        .ok firstPage
      else if request.exclusiveStartKey = firstKey then second
      else .error "unknown key" }

/-- The second page of the scan of the scenario: the record of `User_2`, and no key. -/
def secondPage : ScanResult := { items := [userItem "User_2" "Fred" "fred@place.com"] }

end Scenario

/-! ## Notions for the listing, the ordering and the copy -/

/-- The cluster that `listSecrets` restricts the listing to (lines 81 and 85–87): the
`cluster` parameter, or the empty string when there is none. -/
def listSecrets.cluster (req : request) : String :=
  match req.get "cluster" with
  | some clusterRaw => cstr clusterRaw
  | none => ""

/-- The entry that the loop of `listSecrets` (lines 107–119) appends for one secret. -/
def listSecrets.item (store : PersistentStore) (secret : Secret) : Value :=
  Value.object [
    ("apiVersion", Value.string "v1alpha1"),
    ("kind", Value.string "Secret"),
    ("metadata", Value.object [
      ("id", Value.string secret.id),
      ("name", Value.string secret.name),
      ("vo", Value.string (store.getVO secret.vo).name),
      ("cluster", Value.string (store.getCluster secret.cluster).name),
      ("created", Value.string secret.ctime)])]

/-- The `items` array of the document in a response, when there is one. -/
def Outcome.items : Outcome → Option (List Value)
  | .returned ⟨_, Body.document (Value.object members)⟩ =>
    match members.find? (fun m => m.1 == "items") with
    | some (_, Value.array items) => some items
    | _ => none
  | _ => none

namespace Scenario

/-- A request to list the secrets of a VO, with a token. -/
def listingOf (token vo : String) : request :=
  { url_params := [("token", token), ("vo", vo)], body := "" }

end Scenario

namespace Scenario

/-- The collaborators of the scenario when the database is down: as `env`, with every
namespace-creation and `kubectl` call succeeding, but no record can be written. -/
def storeDown (document : Value) : Env :=
  { env document [] success with putItem := fun _ _ => false }

/-- The record that `createSecret` writes for the request of `alice` for the secret
`api-key` on `cluster1`, with the contents given in the request. -/
def apiKey : Secret :=
  { valid := true, id := "Secret_new", name := "api-key", vo := "VO_1", cluster := "Cluster_1",
    ctime := "2018-07-02", data := "encrypted:plaintext" }

end Scenario

namespace Scenario

/-- A secret of `vo2` on `cluster3`. -/
def secret2 : Secret :=
  { valid := true, id := "Secret_2", name := "tls-key", vo := "VO_2", cluster := "Cluster_3",
    ctime := "2018-06-30", data := "9c41" }

/-- The deployment with `secret2` in the store as well; `alice` is a member of `vo2` too
when `memberOfBoth` is set. -/
def copyWorld (memberOfBoth : Bool) : World :=
  { store :=
      { store with
        userInVO := fun user vo =>
          user = "User_alice" ∧ (vo = "VO_1" ∨ (memberOfBoth = true ∧ vo = "VO_2"))
        secrets := [secret1, secret2] }
    trace := [] }

/-- A request body that names a source secret to copy, for `vo1`. -/
def copyBody (name cluster source : String) : Value :=
  Value.object [
    ("metadata", Value.object [
      ("name", Value.string name), ("vo", Value.string "vo1"), ("cluster", Value.string cluster)]),
    ("copyFrom", Value.string source)]

/-- The contents that the payload of `secret2` decrypts to. -/
def tlsContents : Value := Value.object [("key", Value.string "hunter2")]

/-- The collaborators of the scenario for a copy: as `env` with every call succeeding, but
the parser reads the decrypted payload of `secret2` as `tlsContents`, and every other text
as `document`. -/
def copyEnv (document : Value) : Env :=
  { env document [] success with
    Parse := fun text => if text = "9c41" then .ok tlsContents else .ok document }

/-- The record read from the request of the scenario that copies a secret as `tls-copy`
to `cluster1`. -/
def copyRequested : Secret :=
  { id := "Secret_new", name := "tls-copy", vo := "vo1", cluster := "cluster1",
    ctime := "2018-07-02" }

/-- The record of `copyRequested` with the VO and the cluster resolved to their ids. -/
def copyResolved : Secret := { copyRequested with vo := "VO_1", cluster := "Cluster_1" }

end Scenario

/-- Decryption reads the payload alone: two records with the same payload decrypt alike,
whenever they are decrypted.  The function `decryptSecret` is declared outside `src/`. -/
def Env.decryptsPayloadAlone (env : Env) : Prop :=
  ∀ (trace other : List Event) (secret copy : Secret),
    secret.data = copy.data → env.decryptSecret trace secret = env.decryptSecret other copy

/-! ## Properties -/

/-- C1 (the code at the failing input): `alice`, a member of the owning VO, asks to delete
`Secret_1` without `force`, and the cluster agent's delete call ends with exit status 1.
Then `internal::deleteSecret` returns the error "Failed to delete secret from kubernetes"
and the record is still in the store, but the handler `deleteSecret` responds 200. -/
theorem deleteSecret_unforced_failure_responds_200 :
    (requester (Scenario.env Value.null [] Scenario.failure) Scenario.world
        (Scenario.requestOf "token-alice" false)).valid = true
    ∧ Scenario.store.holds "Secret_1" = true
    ∧ Scenario.store.userInVO "User_alice" (Scenario.store.getSecret "Secret_1").vo = true
    ∧ ((Scenario.requestOf "token-alice" false).get "force").isSome = false
    ∧ kubectlFailed (internal.deleteSecret.kubectl (Scenario.env Value.null [] Scenario.failure)
        Scenario.world (Scenario.store.getSecret "Secret_1")) = true
    ∧ (internal.deleteSecret (Scenario.env Value.null [] Scenario.failure) Scenario.world
        (Scenario.store.getSecret "Secret_1") false).1 = "Failed to delete secret from kubernetes"
    ∧ (deleteSecret (Scenario.env Value.null [] Scenario.failure) Scenario.world
        (Scenario.requestOf "token-alice" false) "Secret_1").1.code = some 200
    ∧ (deleteSecret (Scenario.env Value.null [] Scenario.failure) Scenario.world
        (Scenario.requestOf "token-alice" false) "Secret_1").2.store.holds "Secret_1" = true := by
  refine ⟨?_, ?_, ?_, ?_, ?_, ?_, ?_, ?_⟩ <;> decide

/-- What `internal::deleteSecret` does without `force` when the cluster agent's delete
call fails: it returns the error message and leaves the store as it was. -/
theorem internal_deleteSecret_unforced_failure (env : Env) (w : World) (secret : Secret)
    (hfail : kubectlFailed (internal.deleteSecret.kubectl env w secret) = true) :
    (internal.deleteSecret env w secret false).1 = "Failed to delete secret from kubernetes"
    ∧ (internal.deleteSecret env w secret false).2.store = w.store := by
  simp only [internal.deleteSecret.kubectl] at hfail
  simp only [internal.deleteSecret]
  cases hk : env.kubectl w.trace (w.store.configPathForCluster secret.cluster)
      (internal.deleteSecret.arguments env secret (w.store.findVOByID secret.vo)) with
  | error what => simp
  | ok result =>
    simp only [hk, kubectlFailed] at hfail
    simp [hfail]

/-- Once the requester is authenticated and a member of the VO of an existing secret,
the handler `deleteSecret` responds 200 whatever `internal::deleteSecret` returned. -/
theorem deleteSecret_authorized_responds_200 (env : Env) (w : World) (req : request)
    (secretID : String)
    (hauth : (requester env w req).valid = true)
    (hexists : w.store.holds secretID = true)
    (hmember : w.store.userInVO (requester env w req).id (w.store.getSecret secretID).vo = true) :
    (deleteSecret env w req secretID).1 = reply 200 Body.empty := by
  simp only [PersistentStore.holds] at hexists
  simp only [requester] at hauth hmember
  simp [deleteSecret, hauth, hexists, hmember]

/-- A record that `getSecret` found carries the id it was looked up by. -/
theorem getSecret_id_of_valid (store : PersistentStore) (id : String)
    (h : (store.getSecret id).valid = true) : (store.getSecret id).id = id := by
  unfold PersistentStore.getSecret at h ⊢
  cases hfind : store.secrets.find? (fun s => s.id == id) with
  | none => simp [hfind] at h
  | some s =>
    have := List.find?_some hfind
    simpa using this

/-- After the records with an id are filtered out, `getSecret` finds none for that id. -/
theorem getSecret_filter_ne (store : PersistentStore) (id : String) :
    ({ store with secrets := store.secrets.filter (fun s => s.id != id) } :
      PersistentStore).getSecret id = {} := by
  have hnone : (store.secrets.filter (fun s => s.id != id)).find? (fun s => s.id == id) = none := by
    rw [List.find?_eq_none]
    intro s hs
    simp only [List.mem_filter] at hs
    simpa using hs.2
  simp [PersistentStore.getSecret, hnone]

/-- C2: when the cluster agent's delete call fails (exit status or runtime error) and
the request asks for forced deletion, `internal::deleteSecret` goes on to `removeSecret`;
when that call succeeds it returns the empty error string, the handler responds 200 and
the store holds no record for the secret id afterward. -/
theorem deleteSecret_forced_removes_record (env : Env) (w : World) (req : request)
    (secretID : String)
    (hauth : (requester env w req).valid = true)
    (hexists : w.store.holds secretID = true)
    (hmember : w.store.userInVO (requester env w req).id (w.store.getSecret secretID).vo = true)
    (hforce : (req.get "force").isSome = true)
    (_hfail : kubectlFailed
      (internal.deleteSecret.kubectl env w (w.store.getSecret secretID)) = true)
    (hremove : env.deleteItem (internal.deleteSecret.called env w (w.store.getSecret secretID))
      (w.store.getSecret secretID).id = true) :
    (internal.deleteSecret env w (w.store.getSecret secretID) true).1 = ""
    ∧ (deleteSecret env w req secretID).1 = reply 200 Body.empty
    ∧ (deleteSecret env w req secretID).2.trace
        = internal.deleteSecret.called env w (w.store.getSecret secretID)
          ++ [Event.removeSecret secretID]
    ∧ (deleteSecret env w req secretID).2.store.holds secretID = false := by
  have hid := getSecret_id_of_valid w.store secretID hexists
  simp only [PersistentStore.holds] at hexists
  simp only [requester] at hauth hmember
  simp only [internal.deleteSecret.called, hid] at hremove
  have hinternal : internal.deleteSecret env w (w.store.getSecret secretID) true
      = ("", { store := { w.store with
                  secrets := w.store.secrets.filter (fun s => s.id != secretID) },
               trace := internal.deleteSecret.called env w (w.store.getSecret secretID)
                 ++ [Event.removeSecret secretID] }) := by
    simp only [internal.deleteSecret, internal.deleteSecret.called,
      PersistentStore.removeSecret, hid, hremove]
    cases hk : env.kubectl w.trace (w.store.configPathForCluster (w.store.getSecret secretID).cluster)
        (internal.deleteSecret.arguments env (w.store.getSecret secretID)
          (w.store.findVOByID (w.store.getSecret secretID).vo)) with
    | error what => simp
    | ok result => simp
  have hhandler : deleteSecret env w req secretID
      = (reply 200 Body.empty, (internal.deleteSecret env w (w.store.getSecret secretID) true).2) := by
    simp [deleteSecret, hauth, hexists, hmember, hforce]
  rw [hhandler, hinternal]
  exact ⟨rfl, rfl, rfl, congrArg Secret.valid (getSecret_filter_ne w.store secretID)⟩

/-- The witness of C2: `alice` deletes `Secret_1` with `force` while the cluster agent's
delete call ends with exit status 1. -/
theorem deleteSecret_forced_removes_record_witness :
    kubectlFailed (internal.deleteSecret.kubectl (Scenario.env Value.null [] Scenario.failure)
      Scenario.world (Scenario.store.getSecret "Secret_1")) = true
    ∧ (deleteSecret (Scenario.env Value.null [] Scenario.failure) Scenario.world
        (Scenario.requestOf "token-alice" true) "Secret_1").1 = reply 200 Body.empty
    ∧ (deleteSecret (Scenario.env Value.null [] Scenario.failure) Scenario.world
        (Scenario.requestOf "token-alice" true) "Secret_1").2.store.holds "Secret_1" = false :=
  have h := deleteSecret_forced_removes_record (Scenario.env Value.null [] Scenario.failure)
    Scenario.world (Scenario.requestOf "token-alice" true) "Secret_1"
    (by decide) (by decide) (by decide) (by decide) (by decide) (by decide)
  ⟨by decide, h.2.1, h.2.2.2⟩

/-! ### Compensation when provisioning fails (C3) -/

/-- C3 (counterexample): `alice` creates the secret `api-key` for `vo1` on `cluster1`; the
request passes every check and the record is written; the first namespace-creation call
returns, the second one throws "Namespace creation failed", and `kubectl create secret`
succeeds.  The handler responds 200 and the store holds the new record: an error of the
second namespace-creation call is not a failure of the request. -/
theorem createSecret_second_namespace_error_is_not_a_failure :
    (Scenario.env (Scenario.inlineBody "api-key" "cluster1" [("user", Value.string "admin")])
        [none, some "Namespace creation failed"] Scenario.success).kubectl_create_namespace
      (createSecret.provision.atSecondNamespaceCall Scenario.world
        { valid := true, id := "Secret_new", name := "api-key", vo := "VO_1",
          cluster := "Cluster_1", ctime := "2018-07-02", data := "encrypted:plaintext" }
        Scenario.vo1 Scenario.cluster1)
      "Cluster_1.yaml" Scenario.vo1 = some "Namespace creation failed"
    ∧ (createSecret
        (Scenario.env (Scenario.inlineBody "api-key" "cluster1" [("user", Value.string "admin")])
          [none, some "Namespace creation failed"] Scenario.success)
        Scenario.world (Scenario.requestOf "token-alice" false)).1.code = some 200
    ∧ (createSecret
        (Scenario.env (Scenario.inlineBody "api-key" "cluster1" [("user", Value.string "admin")])
          [none, some "Namespace creation failed"] Scenario.success)
        Scenario.world (Scenario.requestOf "token-alice" false)).2.store.holds "Secret_new"
      = true := by
  refine ⟨?_, ?_, ?_⟩ <;> decide

/-- The shape validation succeeds only through its four steps. -/
theorem shape_ok (env : Env) (trace : List Event) (req : request) (body : Value)
    (secret : Secret) (h : createSecret.shape env trace req = .ok (body, secret)) :
    env.Parse req.body = .ok body ∧ createSecret.checkBody body = .ok ()
    ∧ createSecret.checkContents body = .ok ()
    ∧ createSecret.readSecret env trace body = .ok secret := by
  unfold createSecret.shape at h
  cases hparse : env.Parse req.body with
  | error what => simp [hparse] at h
  | ok parsed =>
    simp only [hparse, bind, Except.bind, pure, Except.pure] at h
    cases hbody : createSecret.checkBody parsed with
    | error o => simp [hbody] at h
    | ok u =>
      cases hcontents : createSecret.checkContents parsed with
      | error o => simp [hbody, hcontents] at h
      | ok u2 =>
        cases hread : createSecret.readSecret env trace parsed with
        | error o => simp [hbody, hcontents, hread] at h
        | ok s =>
          simp only [hbody, hcontents, hread, Except.ok.injEq, Prod.mk.injEq] at h
          obtain ⟨h1, h2⟩ := h
          subst h1 h2
          exact ⟨rfl, hbody, hcontents, hread⟩

/-- The record that `readSecret` returns: the C strings of the three metadata members, a
fresh id and the time; its name has at most 253 characters, all of them allowed. -/
theorem readSecret_ok (env : Env) (trace : List Event) (body : Value) (secret : Secret)
    (h : createSecret.readSecret env trace body = .ok secret) :
    ∃ name vo cluster : String,
      secret = { id := env.generateSecretID trace, name := cstr name, vo := cstr vo,
                 cluster := cstr cluster, ctime := env.timestamp trace }
      ∧ (cstr name).length ≤ 253
      ∧ findsCharNotOf (cstr name) allowedNameCharacters = false := by
  unfold createSecret.readSecret at h
  simp only [bind, Except.bind, pure, Except.pure] at h
  repeat' split at h
  all_goals first | contradiction | skip
  rename_i hlen hchars
  simp only [Except.ok.injEq] at h
  exact ⟨_, _, _, h.symm, by simpa using hlen, by simpa using hchars⟩

/-- The authorization succeeds only when the VO and the cluster exist, the requester is a
member of the VO and the VO owns the cluster or is allowed on it; the record it returns
names the VO and the cluster by their ids. -/
theorem authorize_ok (store : PersistentStore) (user : User) (secret : Secret)
    (vo : VO) (cluster : Cluster) (resolved : Secret)
    (h : createSecret.authorize store user secret = .ok (vo, cluster, resolved)) :
    vo = store.getVO secret.vo ∧ vo.valid = true ∧ store.userInVO user.id vo.id = true
    ∧ cluster = store.getCluster secret.cluster ∧ cluster.valid = true
    ∧ (vo.id = cluster.owningVO ∨ store.voAllowedOnCluster vo.id cluster.id = true)
    ∧ resolved = { secret with vo := vo.id, cluster := cluster.id } := by
  unfold createSecret.authorize at h
  simp only [bind, Except.bind, pure, Except.pure] at h
  repeat' split at h
  all_goals first | contradiction | skip
  all_goals simp_all
  obtain ⟨h1, h2, h3⟩ := h
  subst h1 h2 h3
  simp_all
  tauto

/-- A successful `materialize` keeps the id and the name of the record, marks it valid, and
leaves the store as it was. -/
theorem materialize_ok (env : Env) (w : World) (user : User) (body : Value) (secret : Secret)
    (body1 : Value) (secret1 : Secret) (w1 : World)
    (h : createSecret.materialize env w user body secret = (.ok (body1, secret1), w1)) :
    secret1.id = secret.id ∧ secret1.name = secret.name ∧ secret1.vo = secret.vo
    ∧ secret1.cluster = secret.cluster ∧ secret1.valid = true ∧ w1.store = w.store := by
  simp only [createSecret.materialize] at h
  repeat' split at h
  all_goals simp only [Prod.mk.injEq, Except.ok.injEq, reduceCtorEq, false_and] at h
  all_goals
    obtain ⟨⟨h1, h2⟩, h3⟩ := h
    subst h1 h2 h3
    simp

/-- Once a record has been written and removed again by a successful `removeSecret`, the
store holds no record of that id, whatever else the table held. -/
theorem holds_after_removeSecret (env : Env) (w : World) (id : String)
    (h : env.deleteItem w.trace id = true) :
    (PersistentStore.removeSecret env w id).2.store.holds id = false := by
  simp only [PersistentStore.removeSecret, h, if_true, PersistentStore.holds]
  exact congrArg Secret.valid (getSecret_filter_ne w.store id)

/-- The trace of a `removeSecret` call: the call is appended. -/
theorem trace_removeSecret (env : Env) (w : World) (id : String) :
    (PersistentStore.removeSecret env w id).2.trace = w.trace ++ [Event.removeSecret id] := by
  simp [PersistentStore.removeSecret]

/-- When the record was written and the first namespace-creation call throws,
`createSecret.provision` removes the record and answers 500 with the message thrown. -/
theorem provision_first_namespace_call_throws (env : Env) (w : World) (body : Value)
    (secret : Secret) (vo : VO) (cluster : Cluster) (what : String)
    (hadd : env.putItem w.trace secret = true)
    (hthrow : env.kubectl_create_namespace (createSecret.provision.atFirstNamespaceCall w secret)
      (w.store.configPathForCluster cluster.id) vo = some what) :
    createSecret.provision env w body secret vo cluster
      = (reply 500 (generateError what),
         (PersistentStore.removeSecret env
           { store := (PersistentStore.addSecret env w secret).2.store,
             trace := createSecret.provision.atSecondNamespaceCall w secret vo cluster }
           secret.id).2) := by
  simp only [createSecret.provision.atFirstNamespaceCall] at hthrow
  simp [createSecret.provision, PersistentStore.addSecret, hadd, hthrow,
    createSecret.provision.atSecondNamespaceCall, createSecret.provision.atFirstNamespaceCall]

/-- When the record was written and `kubectl create secret` is reached and reports a
failure, `createSecret.provision` removes the record and answers 500. -/
theorem provision_kubectl_reports_failure (env : Env) (w : World) (body : Value)
    (secret : Secret) (vo : VO) (cluster : Cluster)
    (hadd : env.putItem w.trace secret = true)
    (hfail : createSecret.provision.kubectlReportsFailure env w body secret vo cluster = true) :
    ∃ message, createSecret.provision env w body secret vo cluster
      = (reply 500 (generateError message),
         (PersistentStore.removeSecret env
           { store := (PersistentStore.addSecret env w secret).2.store,
             trace := createSecret.provision.atKubectl w secret vo cluster
               ++ [Event.kubectl (w.store.configPathForCluster cluster.id)
                    ((createSecret.arguments env body secret vo).toOption.getD [])] }
           secret.id).2) := by
  simp only [createSecret.provision.kubectlReportsFailure,
    createSecret.provision.firstNamespaceCallThrows,
    createSecret.provision.secondNamespaceCallPasses,
    createSecret.provision.atKubectl, createSecret.provision.atSecondNamespaceCall,
    createSecret.provision.atFirstNamespaceCall, Bool.and_eq_true, Bool.not_eq_true',
    List.append_assoc, List.cons_append, List.nil_append] at hfail
  obtain ⟨⟨hfirst, hsecond⟩, hrest⟩ := hfail
  cases h1 : env.kubectl_create_namespace (w.trace ++ [Event.addSecret secret])
      (w.store.configPathForCluster cluster.id) vo with
  | some what => simp [h1] at hfirst
  | none =>
    cases hargs : createSecret.arguments env body secret vo with
    | error o => simp [hargs] at hrest
    | ok arguments =>
      simp only [hargs] at hrest
      cases hk : env.kubectl
          (w.trace ++ [Event.addSecret secret,
            Event.kubectl_create_namespace (w.store.configPathForCluster cluster.id) vo,
            Event.kubectl_create_namespace (w.store.configPathForCluster cluster.id) vo])
          (w.store.configPathForCluster cluster.id) arguments with
      | error what => simp [hk] at hrest
      | ok result =>
        simp only [hk] at hrest
        refine ⟨"Failed to store secret to kubernetes: " ++ result.error, ?_⟩
        cases hsnd : env.kubectl_create_namespace
            (w.trace ++ [Event.addSecret secret,
              Event.kubectl_create_namespace (w.store.configPathForCluster cluster.id) vo])
            (w.store.configPathForCluster cluster.id) vo with
        | none =>
          simp [createSecret.provision, PersistentStore.addSecret, hadd, h1, hargs, hsnd, hk,
            hrest, createSecret.provision.atKubectl,
            createSecret.provision.atSecondNamespaceCall,
            createSecret.provision.atFirstNamespaceCall, Except.toOption]
        | some what =>
          simp only [hsnd, beq_iff_eq] at hsecond
          subst hsecond
          simp [createSecret.provision, PersistentStore.addSecret, hadd, h1, hargs, hsnd, hk,
            hrest, createSecret.provision.atKubectl,
            createSecret.provision.atSecondNamespaceCall,
            createSecret.provision.atFirstNamespaceCall, Except.toOption]

/-- C3 (amended): for a request that passes validation, authorization and the duplicate
check and whose record `secret` was written by `addSecret`: if the first
namespace-creation call throws, or `kubectl create secret` is reached and returns a
non-zero status, then `createSecret` answers 500, its last call is `removeSecret` for the
id of the new record, and when that call succeeds the store holds no record of that id.
The id is the one generated for the request. -/
theorem createSecret_compensates_provisioning_failure (env : Env) (w : World) (req : request)
    (body : Value) (requested : Secret) (vo : VO) (cluster : Cluster) (resolved : Secret)
    (body1 : Value) (secret : Secret) (w1 : World)
    (hauth : (requester env w req).valid = true)
    (hshape : createSecret.shape env w.trace req = .ok (body, requested))
    (hauthz : createSecret.authorize w.store (requester env w req) requested
      = .ok (vo, cluster, resolved))
    (hdup : createSecret.checkDuplicate w.store vo resolved = .ok ())
    (hmat : createSecret.materialize env w (requester env w req) body resolved
      = (.ok (body1, secret), w1))
    (hadd : env.putItem w1.trace secret = true)
    (hfail : createSecret.provision.firstNamespaceCallThrows env w1 secret vo cluster = true
      ∨ createSecret.provision.kubectlReportsFailure env w1 body1 secret vo cluster = true) :
    secret.id = env.generateSecretID w.trace
    ∧ (createSecret env w req).1.code = some 500
    ∧ (createSecret env w req).2.trace.getLast? = some (Event.removeSecret secret.id)
    ∧ (env.deleteItem (createSecret env w req).2.trace.dropLast secret.id = true →
        (createSecret env w req).2.store.holds secret.id = false) := by
  have hid : secret.id = env.generateSecretID w.trace := by
    obtain ⟨_, _, _, hread⟩ := shape_ok env w.trace req body requested hshape
    obtain ⟨_, _, _, hrequested, _⟩ := readSecret_ok env w.trace body requested hread
    obtain ⟨_, _, _, _, _, _, hresolved⟩ :=
      authorize_ok w.store _ requested vo cluster resolved hauthz
    obtain ⟨hmid, _⟩ := materialize_ok env w _ body resolved body1 secret w1 hmat
    rw [hmid, hresolved, hrequested]
  have hrun : createSecret env w req = createSecret.provision env w1 body1 secret vo cluster := by
    simp only [requester] at hauth hauthz hmat
    simp [createSecret, createSecret.fromDuplicateCheck, hauth, hshape, hauthz, hdup, hmat]
  refine ⟨hid, ?_⟩
  rw [hrun]
  rcases hfail with hfirst | hkubectl
  · simp only [createSecret.provision.firstNamespaceCallThrows, Option.isSome_iff_exists] at hfirst
    obtain ⟨what, hwhat⟩ := hfirst
    rw [provision_first_namespace_call_throws env w1 body1 secret vo cluster what hadd hwhat]
    refine ⟨rfl, ?_, ?_⟩
    · simp [trace_removeSecret]
    · intro hremove
      simp only [trace_removeSecret, List.dropLast_concat] at hremove
      exact holds_after_removeSecret env _ secret.id hremove
  · obtain ⟨message, hmessage⟩ :=
      provision_kubectl_reports_failure env w1 body1 secret vo cluster hadd hkubectl
    rw [hmessage]
    refine ⟨rfl, ?_, ?_⟩
    · simp [trace_removeSecret]
    · intro hremove
      simp only [trace_removeSecret, List.dropLast_concat] at hremove
      exact holds_after_removeSecret env _ secret.id hremove

/-- The witness of C3 (amended), on two requests of `alice` for the secret `api-key`: one
where the first namespace-creation call throws, one where `kubectl create secret` ends
with exit status 1 after the second namespace-creation call threw "Namespace creation
failed". -/
theorem createSecret_compensates_provisioning_failure_witness :
    ((createSecret
        (Scenario.env (Scenario.inlineBody "api-key" "cluster1" [("user", Value.string "admin")])
          [some "no route to host"] Scenario.success)
        Scenario.world (Scenario.requestOf "token-alice" false)).1.code = some 500
      ∧ (createSecret
        (Scenario.env (Scenario.inlineBody "api-key" "cluster1" [("user", Value.string "admin")])
          [some "no route to host"] Scenario.success)
        Scenario.world (Scenario.requestOf "token-alice" false)).2.store.holds "Secret_new"
        = false)
    ∧ ((createSecret
        (Scenario.env (Scenario.inlineBody "api-key" "cluster1" [("user", Value.string "admin")])
          [none, some "Namespace creation failed"] Scenario.failure)
        Scenario.world (Scenario.requestOf "token-alice" false)).1.code = some 500
      ∧ (createSecret
        (Scenario.env (Scenario.inlineBody "api-key" "cluster1" [("user", Value.string "admin")])
          [none, some "Namespace creation failed"] Scenario.failure)
        Scenario.world (Scenario.requestOf "token-alice" false)).2.store.holds "Secret_new"
        = false) :=
  have first := createSecret_compensates_provisioning_failure
    (Scenario.env (Scenario.inlineBody "api-key" "cluster1" [("user", Value.string "admin")])
      [some "no route to host"] Scenario.success)
    Scenario.world (Scenario.requestOf "token-alice" false)
    (Scenario.inlineBody "api-key" "cluster1" [("user", Value.string "admin")])
    { id := "Secret_new", name := "api-key", vo := "vo1", cluster := "cluster1",
      ctime := "2018-07-02" }
    Scenario.vo1 Scenario.cluster1
    { id := "Secret_new", name := "api-key", vo := "VO_1", cluster := "Cluster_1",
      ctime := "2018-07-02" }
    (Scenario.inlineBody "api-key" "cluster1" [("user", Value.string "admin")])
    { valid := true, id := "Secret_new", name := "api-key", vo := "VO_1",
      cluster := "Cluster_1", ctime := "2018-07-02", data := "encrypted:plaintext" }
    Scenario.world (by decide) (by rfl) (by rfl) (by rfl) (by rfl) (by decide)
    (Or.inl (by decide))
  have second := createSecret_compensates_provisioning_failure
    (Scenario.env (Scenario.inlineBody "api-key" "cluster1" [("user", Value.string "admin")])
      [none, some "Namespace creation failed"] Scenario.failure)
    Scenario.world (Scenario.requestOf "token-alice" false)
    (Scenario.inlineBody "api-key" "cluster1" [("user", Value.string "admin")])
    { id := "Secret_new", name := "api-key", vo := "vo1", cluster := "cluster1",
      ctime := "2018-07-02" }
    Scenario.vo1 Scenario.cluster1
    { id := "Secret_new", name := "api-key", vo := "VO_1", cluster := "Cluster_1",
      ctime := "2018-07-02" }
    (Scenario.inlineBody "api-key" "cluster1" [("user", Value.string "admin")])
    { valid := true, id := "Secret_new", name := "api-key", vo := "VO_1",
      cluster := "Cluster_1", ctime := "2018-07-02", data := "encrypted:plaintext" }
    Scenario.world (by decide) (by rfl) (by rfl) (by rfl) (by rfl) (by decide)
    (Or.inr (by decide))
  ⟨⟨first.2.1, first.2.2.2 (by decide)⟩, ⟨second.2.1, second.2.2.2 (by decide)⟩⟩

/-- The part of C3 that the amended statement leaves out: when the second
namespace-creation call throws any other message, the error leaves the handler (line 291)
and the record written before stays in the store. -/
theorem createSecret_rethrow_leaves_record :
    (createSecret
        (Scenario.env (Scenario.inlineBody "api-key" "cluster1" [("user", Value.string "admin")])
          [none, some "no route to host"] Scenario.success)
        Scenario.world (Scenario.requestOf "token-alice" false)).1.code = none
    ∧ (createSecret
        (Scenario.env (Scenario.inlineBody "api-key" "cluster1" [("user", Value.string "admin")])
          [none, some "no route to host"] Scenario.success)
        Scenario.world (Scenario.requestOf "token-alice" false)).2.store.holds "Secret_new"
      = true := by
  refine ⟨?_, ?_⟩ <;> decide

/-! ### Authorization of `createSecret` (C4, C5, C6) -/

/-- Users that differ at most in the administrator flag have the same id and validity. -/
theorem sameButAdmin_id_valid (a b : User) (h : User.sameButAdmin a b = true) :
    a.id = b.id ∧ a.valid = b.valid := by
  simp only [User.sameButAdmin, decide_eq_true_eq] at h
  rw [← h]
  exact ⟨rfl, rfl⟩

/-- The handler `createSecret` reads only the validity and the id of the requester: with
another authentication that yields a user of the same validity and id, all else equal,
it does the same. -/
theorem createSecret_reads_id_and_validity (env : Env) (w : World) (req : request)
    (authenticate : PersistentStore → Option String → User)
    (hid : (authenticate w.store (req.get "token")).id = (requester env w req).id)
    (hvalid : (authenticate w.store (req.get "token")).valid = (requester env w req).valid) :
    createSecret { env with authenticateUser := authenticate } w req = createSecret env w req := by
  have hshape : createSecret.shape { env with authenticateUser := authenticate } w.trace req
      = createSecret.shape env w.trace req := rfl
  have hprovision : ∀ w1 body secret vo cluster,
      createSecret.provision { env with authenticateUser := authenticate } w1 body secret vo cluster
        = createSecret.provision env w1 body secret vo cluster := fun _ _ _ _ _ => rfl
  have hmaterialize : ∀ body secret,
      createSecret.materialize { env with authenticateUser := authenticate } w
          (authenticate w.store (req.get "token")) body secret
        = createSecret.materialize env w (requester env w req) body secret := by
    intro body secret
    simp only [createSecret.materialize, hid]
  have hauthorize : ∀ secret,
      createSecret.authorize w.store (authenticate w.store (req.get "token")) secret
        = createSecret.authorize w.store (requester env w req) secret := by
    intro secret
    simp only [createSecret.authorize, hid]
  simp only [createSecret, createSecret.fromDuplicateCheck, hshape, hprovision, hmaterialize,
    hauthorize, hvalid, requester]

/-- A well-formed request for an existing VO by a requester who is not a member of it is
answered 403 "Not authorized", and nothing else happens. -/
theorem createSecret_nonmember (env : Env) (w : World) (req : request) (body : Value)
    (secret : Secret)
    (hauth : (requester env w req).valid = true)
    (hshape : createSecret.shape env w.trace req = .ok (body, secret))
    (hvo : (w.store.getVO secret.vo).valid = true)
    (hnonmember : w.store.userInVO (requester env w req).id (w.store.getVO secret.vo).id = false) :
    createSecret env w req = (reply 403 (generateError "Not authorized"), w) := by
  simp only [requester] at hauth hnonmember
  simp [createSecret, createSecret.authorize, hauth, hshape, hvo, hnonmember, bind, Except.bind,
    pure, Except.pure]

/-- C4: membership is required to create a secret, also for administrators.  A well-formed
`createSecret` request that names an existing VO of which the requester is not a member is
answered 403 "Not authorized" and changes nothing, whatever the requester's administrator
flag; and two authentications whose users differ at most in the administrator flag give
the same outcome and the same world, for every request. -/
theorem createSecret_membership_required_of_administrators (env : Env) (w : World)
    (req : request) :
    (∀ body secret,
      (requester env w req).valid = true →
      createSecret.shape env w.trace req = .ok (body, secret) →
      (w.store.getVO secret.vo).valid = true →
      w.store.userInVO (requester env w req).id (w.store.getVO secret.vo).id = false →
      createSecret env w req = (reply 403 (generateError "Not authorized"), w))
    ∧ (∀ authenticate : PersistentStore → Option String → User,
      (∀ store token,
        User.sameButAdmin (authenticate store token) (env.authenticateUser store token) = true) →
      createSecret { env with authenticateUser := authenticate } w req
        = createSecret env w req) := by
  refine ⟨fun body secret hauth hshape hvo hnonmember =>
    createSecret_nonmember env w req body secret hauth hshape hvo hnonmember, ?_⟩
  intro authenticate hsame
  obtain ⟨hid, hvalid⟩ := sameButAdmin_id_valid _ _ (hsame w.store (req.get "token"))
  exact createSecret_reads_id_and_validity env w req authenticate hid hvalid

/-- The witness of C4: `root`, an administrator who is a member of no VO, asks to create
a secret for `vo1` and is answered 403; with the administrator flag cleared the handler does
the same. -/
theorem createSecret_membership_required_of_administrators_witness :
    (requester
        (Scenario.env (Scenario.inlineBody "api-key" "cluster1" [("user", Value.string "admin")])
          [] Scenario.success)
        Scenario.world (Scenario.requestOf "token-root" false)).admin = true
    ∧ createSecret
        (Scenario.env (Scenario.inlineBody "api-key" "cluster1" [("user", Value.string "admin")])
          [] Scenario.success)
        Scenario.world (Scenario.requestOf "token-root" false)
      = (reply 403 (generateError "Not authorized"), Scenario.world)
    ∧ createSecret
        { Scenario.env (Scenario.inlineBody "api-key" "cluster1" [("user", Value.string "admin")])
            [] Scenario.success with
          authenticateUser := fun store token =>
            { (Scenario.env (Scenario.inlineBody "api-key" "cluster1"
                  [("user", Value.string "admin")]) [] Scenario.success).authenticateUser
                store token with admin := false } }
        Scenario.world (Scenario.requestOf "token-root" false)
      = createSecret
        (Scenario.env (Scenario.inlineBody "api-key" "cluster1" [("user", Value.string "admin")])
          [] Scenario.success)
        Scenario.world (Scenario.requestOf "token-root" false) :=
  have h := createSecret_membership_required_of_administrators
    (Scenario.env (Scenario.inlineBody "api-key" "cluster1" [("user", Value.string "admin")])
      [] Scenario.success)
    Scenario.world (Scenario.requestOf "token-root" false)
  ⟨by decide,
   h.1 (Scenario.inlineBody "api-key" "cluster1" [("user", Value.string "admin")])
     { id := "Secret_new", name := "api-key", vo := "vo1", cluster := "cluster1",
       ctime := "2018-07-02" }
     (by decide) (by rfl) (by decide) (by decide),
   h.2 _ (fun _ _ => by simp [User.sameButAdmin])⟩

/-- C5: authorization soundness.  For an authenticated user who is not an administrator
and not a member of the VO `V`: (a) `getSecret` and `deleteSecret` on every existing secret
owned by `V` are answered 403; (b) a well-formed `createSecret` request for `V` is answered
403 whatever the store answers for the cluster named (`cluster`, valid or not, owned by
`V` or not) and for the access grant (`granted`).  In each case the world is unchanged:
nothing was decrypted, written or removed and no cluster-agent call was made. -/
theorem nonmember_is_refused (env : Env) (w : World) (req : request) (V : VO)
    (hauth : (requester env w req).valid = true)
    (_hnotadmin : (requester env w req).admin = false)
    (hnonmember : w.store.userInVO (requester env w req).id V.id = false) :
    (∀ secretID, w.store.holds secretID = true → (w.store.getSecret secretID).vo = V.id →
      getSecret env w req secretID = (reply 403 (generateError "Not authorized"), w)
      ∧ deleteSecret env w req secretID = (reply 403 (generateError "Not authorized"), w))
    ∧ (∀ body secret cluster granted,
      createSecret.shape env w.trace req = .ok (body, secret) →
      w.store.getVO secret.vo = V → V.valid = true →
      w.store.getCluster secret.cluster = cluster →
      w.store.voAllowedOnCluster V.id cluster.id = granted →
      createSecret env w req = (reply 403 (generateError "Not authorized"), w)) := by
  constructor
  · intro secretID hholds hvo
    simp only [PersistentStore.holds] at hholds
    simp only [requester] at hauth hnonmember
    rw [← hvo] at hnonmember
    constructor
    · simp [getSecret, hauth, hholds, hnonmember]
    · simp [deleteSecret, hauth, hholds, hnonmember]
  · intro body secret cluster granted hshape hvo hvalid _ _
    subst hvo
    exact createSecret_nonmember env w req body secret hauth hshape hvalid hnonmember

/-- The witness of C5: `carol`, neither administrator nor member of `vo1`, is refused on
`Secret_1` and on creating a secret for `vo1` on a cluster that `vo1` owns. -/
theorem nonmember_is_refused_witness :
    (getSecret (Scenario.env (Scenario.inlineBody "api-key" "cluster1" []) [] Scenario.success)
        Scenario.world (Scenario.requestOf "token-carol" false) "Secret_1"
      = (reply 403 (generateError "Not authorized"), Scenario.world)
    ∧ deleteSecret (Scenario.env (Scenario.inlineBody "api-key" "cluster1" []) [] Scenario.success)
        Scenario.world (Scenario.requestOf "token-carol" false) "Secret_1"
      = (reply 403 (generateError "Not authorized"), Scenario.world))
    ∧ createSecret (Scenario.env (Scenario.inlineBody "api-key" "cluster1" []) [] Scenario.success)
        Scenario.world (Scenario.requestOf "token-carol" false)
      = (reply 403 (generateError "Not authorized"), Scenario.world) :=
  have h := nonmember_is_refused
    (Scenario.env (Scenario.inlineBody "api-key" "cluster1" []) [] Scenario.success)
    Scenario.world (Scenario.requestOf "token-carol" false) Scenario.vo1
    (by decide) (by decide) (by decide)
  ⟨h.1 "Secret_1" (by decide) (by decide),
   h.2 (Scenario.inlineBody "api-key" "cluster1" [])
     { id := "Secret_new", name := "api-key", vo := "vo1", cluster := "cluster1",
       ctime := "2018-07-02" }
     Scenario.cluster1 false (by rfl) (by decide) (by decide) (by decide) (by decide)⟩

/-- C6: the grant rule of `createSecret`.  For a well-formed request by a member of the
existing VO, against an existing cluster: the authorization step succeeds if and only if
the VO owns the cluster or the store reports that the VO is allowed on it; when it does
(in particular with a grant and without ownership) the handler goes on from the duplicate
check, with the record naming the VO and the cluster by their ids; with neither ownership
nor grant the answer is 403 and the world is unchanged. -/
theorem createSecret_grant_rule (env : Env) (w : World) (req : request) (body : Value)
    (secret : Secret)
    (hauth : (requester env w req).valid = true)
    (hshape : createSecret.shape env w.trace req = .ok (body, secret))
    (hvo : (w.store.getVO secret.vo).valid = true)
    (hmember : w.store.userInVO (requester env w req).id (w.store.getVO secret.vo).id = true)
    (hcluster : (w.store.getCluster secret.cluster).valid = true) :
    ((∃ resolved, createSecret.authorize w.store (requester env w req) secret = .ok resolved)
      ↔ ((w.store.getVO secret.vo).id = (w.store.getCluster secret.cluster).owningVO
          ∨ w.store.voAllowedOnCluster (w.store.getVO secret.vo).id
              (w.store.getCluster secret.cluster).id = true))
    ∧ (((w.store.getVO secret.vo).id = (w.store.getCluster secret.cluster).owningVO
          ∨ w.store.voAllowedOnCluster (w.store.getVO secret.vo).id
              (w.store.getCluster secret.cluster).id = true) →
        createSecret env w req
          = createSecret.fromDuplicateCheck env w (requester env w req) body
              { secret with vo := (w.store.getVO secret.vo).id,
                            cluster := (w.store.getCluster secret.cluster).id }
              (w.store.getVO secret.vo) (w.store.getCluster secret.cluster))
    ∧ ((w.store.getVO secret.vo).id ≠ (w.store.getCluster secret.cluster).owningVO →
        w.store.voAllowedOnCluster (w.store.getVO secret.vo).id
          (w.store.getCluster secret.cluster).id = false →
        createSecret env w req = (reply 403 (generateError "Not authorized"), w)) := by
  simp only [requester] at hauth hmember ⊢
  have hallowed : ((w.store.getVO secret.vo).id = (w.store.getCluster secret.cluster).owningVO
        ∨ w.store.voAllowedOnCluster (w.store.getVO secret.vo).id
            (w.store.getCluster secret.cluster).id = true) →
      createSecret.authorize w.store (env.authenticateUser w.store (req.get "token")) secret
        = .ok (w.store.getVO secret.vo, w.store.getCluster secret.cluster,
            { secret with vo := (w.store.getVO secret.vo).id,
                          cluster := (w.store.getCluster secret.cluster).id }) := by
    intro h
    rcases h with h | h
    · have hmember1 := hmember
      rw [h] at hmember1
      simp [createSecret.authorize, hvo, hmember1, hcluster, h, bind, Except.bind, pure,
        Except.pure]
    · simp [createSecret.authorize, hvo, hmember, hcluster, h, bind, Except.bind, pure,
        Except.pure]
  have hrefused : (w.store.getVO secret.vo).id ≠ (w.store.getCluster secret.cluster).owningVO →
      w.store.voAllowedOnCluster (w.store.getVO secret.vo).id
        (w.store.getCluster secret.cluster).id = false →
      createSecret.authorize w.store (env.authenticateUser w.store (req.get "token")) secret
        = .error (reply 403 (generateError "Not authorized")) := by
    intro h1 h2
    simp [createSecret.authorize, hvo, hmember, hcluster, h1, h2, bind, Except.bind, pure,
      Except.pure]
  refine ⟨⟨?_, fun h => ⟨_, hallowed h⟩⟩, ?_, ?_⟩
  · rintro ⟨resolved, hresolved⟩
    by_contra hnot
    simp only [not_or, Bool.not_eq_true] at hnot
    rw [hrefused hnot.1 hnot.2] at hresolved
    cases hresolved
  · intro h
    simp [createSecret, hauth, hshape, hallowed h]
  · intro h1 h2
    simp [createSecret, hauth, hshape, hrefused h1 h2]

/-- The witness of C6: `alice` creates a secret for `vo1` on `cluster2`, which `vo2` owns and
to which `vo1` has a grant, and the handler goes on from the duplicate check (here to
success); on `cluster3`, owned by `vo2` without a grant, she is answered 403. -/
theorem createSecret_grant_rule_witness :
    ((createSecret (Scenario.env (Scenario.inlineBody "api-key" "cluster2" []) [] Scenario.success)
        Scenario.world (Scenario.requestOf "token-alice" false)
      = createSecret.fromDuplicateCheck
          (Scenario.env (Scenario.inlineBody "api-key" "cluster2" []) [] Scenario.success)
          Scenario.world Scenario.alice (Scenario.inlineBody "api-key" "cluster2" [])
          { id := "Secret_new", name := "api-key", vo := "VO_1", cluster := "Cluster_2",
            ctime := "2018-07-02" }
          Scenario.vo1 Scenario.cluster2)
      ∧ (createSecret
          (Scenario.env (Scenario.inlineBody "api-key" "cluster2" []) [] Scenario.success)
          Scenario.world (Scenario.requestOf "token-alice" false)).1.code = some 200)
    ∧ createSecret (Scenario.env (Scenario.inlineBody "api-key" "cluster3" []) [] Scenario.success)
        Scenario.world (Scenario.requestOf "token-alice" false)
      = (reply 403 (generateError "Not authorized"), Scenario.world) :=
  have granted := createSecret_grant_rule
    (Scenario.env (Scenario.inlineBody "api-key" "cluster2" []) [] Scenario.success)
    Scenario.world (Scenario.requestOf "token-alice" false)
    (Scenario.inlineBody "api-key" "cluster2" [])
    { id := "Secret_new", name := "api-key", vo := "vo1", cluster := "cluster2",
      ctime := "2018-07-02" }
    (by decide) (by rfl) (by decide) (by decide) (by decide)
  have refused := createSecret_grant_rule
    (Scenario.env (Scenario.inlineBody "api-key" "cluster3" []) [] Scenario.success)
    Scenario.world (Scenario.requestOf "token-alice" false)
    (Scenario.inlineBody "api-key" "cluster3" [])
    { id := "Secret_new", name := "api-key", vo := "vo1", cluster := "cluster3",
      ctime := "2018-07-02" }
    (by decide) (by rfl) (by decide) (by decide) (by decide)
  ⟨⟨granted.2.1 (Or.inr (by decide)), by decide⟩, refused.2.2 (by decide) (by decide)⟩

/-! ### The duplicate check (C7) -/

/-- C7 (counterexample): `alice` asks to create `db-password` for `vo1` on `cluster1`,
where the store already holds a secret of that name.  The request is rejected with status
400, the status that a validation error such as an invalid character in the name has
too: the response carries no error kind of its own, only another message. -/
theorem createSecret_duplicate_has_validation_status :
    (createSecret (Scenario.env (Scenario.inlineBody "db-password" "cluster1" []) []
        Scenario.success) Scenario.world (Scenario.requestOf "token-alice" false)).1
      = reply 400 (generateError "A secret with the same name already exists")
    ∧ (createSecret (Scenario.env (Scenario.inlineBody "DB_password" "cluster1" []) []
        Scenario.success) Scenario.world (Scenario.requestOf "token-alice" false)).1
      = reply 400 (generateError "Secret name contains an invalid character")
    ∧ (createSecret (Scenario.env (Scenario.inlineBody "db-password" "cluster1" []) []
        Scenario.success) Scenario.world (Scenario.requestOf "token-alice" false)).1.code
      = (createSecret (Scenario.env (Scenario.inlineBody "DB_password" "cluster1" []) []
        Scenario.success) Scenario.world (Scenario.requestOf "token-alice" false)).1.code := by
  refine ⟨by rfl, by rfl, by decide⟩

/-- A name in use for the VO and cluster is found by `findSecretByName`. -/
theorem findSecretByName_valid (store : PersistentStore) (vo cluster name : String)
    (h : ∃ s ∈ store.secrets, s.vo = vo ∧ s.cluster = cluster ∧ s.name = name) :
    (store.findSecretByName vo cluster name).valid = true := by
  unfold PersistentStore.findSecretByName
  cases hfind : store.secrets.find?
      (fun s => s.vo == vo && s.cluster == cluster && s.name == name) with
  | some s => rfl
  | none =>
    obtain ⟨s, hs, h1, h2, h3⟩ := h
    have := List.find?_eq_none.mp hfind s hs
    simp [h1, h2, h3] at this

/-- C7 (amended): when the store already holds a secret with the name for the (VO, cluster)
pair of an authorized, well-formed request, `createSecret` answers 400 with the message
"A secret with the same name already exists" and the world is unchanged: no second record
is written and no cluster-agent call is made. -/
theorem createSecret_duplicate_name_rejected (env : Env) (w : World) (req : request)
    (body : Value) (secret : Secret) (vo : VO) (cluster : Cluster) (resolved : Secret)
    (hauth : (requester env w req).valid = true)
    (hshape : createSecret.shape env w.trace req = .ok (body, secret))
    (hauthz : createSecret.authorize w.store (requester env w req) secret
      = .ok (vo, cluster, resolved))
    (hexisting : ∃ s ∈ w.store.secrets,
      s.vo = vo.id ∧ s.cluster = cluster.id ∧ s.name = secret.name) :
    createSecret env w req
      = (reply 400 (generateError "A secret with the same name already exists"), w) := by
  obtain ⟨_, _, _, _, _, _, hresolved⟩ := authorize_ok w.store _ secret vo cluster resolved hauthz
  have hfound := findSecretByName_valid w.store vo.id cluster.id secret.name hexisting
  simp only [requester] at hauth hauthz
  subst hresolved
  simp [createSecret, createSecret.fromDuplicateCheck, createSecret.checkDuplicate, hauth,
    hshape, hauthz, hfound]

/-- The witness of C7 (amended): `alice` asks to create `db-password` for `vo1` on
`cluster1`, a name that `Secret_1` already has there. -/
theorem createSecret_duplicate_name_rejected_witness :
    createSecret (Scenario.env (Scenario.inlineBody "db-password" "cluster1" []) []
        Scenario.success) Scenario.world (Scenario.requestOf "token-alice" false)
      = (reply 400 (generateError "A secret with the same name already exists"),
         Scenario.world) :=
  createSecret_duplicate_name_rejected
    (Scenario.env (Scenario.inlineBody "db-password" "cluster1" []) [] Scenario.success)
    Scenario.world (Scenario.requestOf "token-alice" false)
    (Scenario.inlineBody "db-password" "cluster1" [])
    { id := "Secret_new", name := "db-password", vo := "vo1", cluster := "cluster1",
      ctime := "2018-07-02" }
    Scenario.vo1 Scenario.cluster1
    { id := "Secret_new", name := "db-password", vo := "VO_1", cluster := "Cluster_1",
      ctime := "2018-07-02" }
    (by decide) (by rfl) (by rfl) ⟨Scenario.secret1, by decide, by decide, by decide, by decide⟩

/-! ### Shape validation (C8, C9) -/

/-- C8 (the code at the failing input): `alice` asks to create a secret with the empty name
for `vo1` on `cluster1`.  Neither check of lines 196–199 refuses the empty name: the
shape validation returns the record, the store is consulted, the record is written under
the empty name, `kubectl create secret generic` is called with an empty name, and the
answer is 200. -/
theorem createSecret_accepts_empty_name :
    ((createSecret.shape
        (Scenario.env (Scenario.inlineBody "" "cluster1" [("user", Value.string "admin")]) []
          Scenario.success) [] (Scenario.requestOf "token-alice" false)).toOption.map
        (fun r => r.2.name)) = some ""
    ∧ (createSecret
        (Scenario.env (Scenario.inlineBody "" "cluster1" [("user", Value.string "admin")]) []
          Scenario.success) Scenario.world (Scenario.requestOf "token-alice" false)).1.code
      = some 200
    ∧ ((createSecret
        (Scenario.env (Scenario.inlineBody "" "cluster1" [("user", Value.string "admin")]) []
          Scenario.success) Scenario.world
        (Scenario.requestOf "token-alice" false)).2.store.getSecret "Secret_new").name = ""
    ∧ (createSecret
        (Scenario.env (Scenario.inlineBody "" "cluster1" [("user", Value.string "admin")]) []
          Scenario.success) Scenario.world
        (Scenario.requestOf "token-alice" false)).2.store.holds "Secret_new" = true
    ∧ (createSecret
        (Scenario.env (Scenario.inlineBody "" "cluster1" [("user", Value.string "admin")]) []
          Scenario.success) Scenario.world
        (Scenario.requestOf "token-alice" false)).2.trace.getLast?
      = some (Event.kubectl "Cluster_1.yaml"
          ["create", "secret", "generic", "", "--namespace", "slate-vo-vo1",
           "--from-literal", "user=admin"]) := by
  refine ⟨by decide, by decide, by decide, by decide, by rfl⟩

/-- C9 (the code at the failing input): `alice` asks to create a secret whose contents
have the key `user\u0000 name!`, eleven characters with a NUL, a blank and an exclamation
mark.  The length checks read the whole key, the character check reads the C string
`user` only (lines 182–183), so the key passes; the record is written, `kubectl` is given
the literal `user=admin`, and the answer is 200. -/
theorem createSecret_accepts_key_with_NUL :
    Scenario.keyWithNUL.length = 11
    ∧ findsCharNotOf Scenario.keyWithNUL allowedKeyCharacters = true
    ∧ cstr Scenario.keyWithNUL = "user"
    ∧ (createSecret.checkMember (Scenario.keyWithNUL, Value.string "admin")).toBool = true
    ∧ (createSecret
        (Scenario.env (Scenario.inlineBody "api-key" "cluster1"
            [(Scenario.keyWithNUL, Value.string "admin")]) [] Scenario.success)
        Scenario.world (Scenario.requestOf "token-alice" false)).1.code = some 200
    ∧ (createSecret
        (Scenario.env (Scenario.inlineBody "api-key" "cluster1"
            [(Scenario.keyWithNUL, Value.string "admin")]) [] Scenario.success)
        Scenario.world (Scenario.requestOf "token-alice" false)).2.store.holds "Secret_new"
      = true
    ∧ (createSecret
        (Scenario.env (Scenario.inlineBody "api-key" "cluster1"
            [(Scenario.keyWithNUL, Value.string "admin")]) [] Scenario.success)
        Scenario.world (Scenario.requestOf "token-alice" false)).2.trace.getLast?
      = some (Event.kubectl "Cluster_1.yaml"
          ["create", "secret", "generic", "api-key", "--namespace", "slate-vo-vo1",
           "--from-literal", "user=admin"]) := by
  refine ⟨by decide, by decide, by decide, by decide, by decide, by decide, by rfl⟩

/-- What the checks of lines 176–184 accept: a string value under a key of 1 to 253
characters whose C string (the characters before the first NUL) has allowed characters
only. -/
theorem checkMember_ok_iff (m : String × Value) :
    createSecret.checkMember m = .ok ()
      ↔ (m.2.IsString = true ∧ 1 ≤ m.1.length ∧ m.1.length ≤ 253
          ∧ findsCharNotOf (cstr m.1) allowedKeyCharacters = false) := by
  unfold createSecret.checkMember
  simp only [bind, Except.bind, pure, Except.pure, throw, throwThe, MonadExceptOf.throw]
  by_cases h1 : m.2.IsString = true <;> by_cases h2 : m.1.length = 0
    <;> by_cases h3 : m.1.length > 253
    <;> by_cases h4 : findsCharNotOf (cstr m.1) allowedKeyCharacters = true
    <;> simp [h1, h2, h3, h4]
  all_goals omega

/-! ### No side effects on rejection (C10) -/

/-- The subscript `v[name]` fails only by an assertion. -/
theorem member_error (v : Value) (name : String) (o : Outcome)
    (h : v.member name = Except.error o) : o = Outcome.asserted := by
  unfold Value.member at h
  repeat' split at h
  all_goals first | contradiction | (simp only [Except.error.injEq] at h; exact h.symm)

/-- The call `v.GetObject()` fails only by an assertion. -/
theorem GetObject_error (v : Value) (o : Outcome)
    (h : v.GetObject = Except.error o) : o = Outcome.asserted := by
  unfold Value.GetObject at h
  split at h
  · contradiction
  · simp only [Except.error.injEq] at h; exact h.symm

/-- The call `v.GetString()` fails only by an assertion. -/
theorem GetString_error (v : Value) (o : Outcome)
    (h : v.GetString = Except.error o) : o = Outcome.asserted := by
  unfold Value.GetString at h
  split at h
  · contradiction
  · simp only [Except.error.injEq] at h; exact h.symm

/-- The members of the contents turn into `kubectl` literals unless a value is not a
string, which is an assertion failure. -/
theorem literals_error (members : List (String × Value)) (o : Outcome)
    (h : createSecret.literals members = Except.error o) : o = Outcome.asserted := by
  induction members with
  | nil => simp [createSecret.literals] at h
  | cons m rest ih =>
    simp only [createSecret.literals] at h
    split at h
    · rename_i o1 hvalue
      simp only [Except.error.injEq] at h
      subst h
      exact GetString_error _ _ hvalue
    · split at h
      · rename_i o1 hrest
        simp only [Except.error.injEq] at h
        subst h
        exact ih hrest
      · contradiction

/-- Building the arguments of `kubectl create secret` fails only by an assertion. -/
theorem arguments_error (env : Env) (body : Value) (secret : Secret) (vo : VO) (o : Outcome)
    (h : createSecret.arguments env body secret vo = Except.error o) :
    o = Outcome.asserted := by
  unfold createSecret.arguments at h
  split at h
  · rename_i o1 hmembers
    simp only [Except.error.injEq] at h
    subst h
    cases hcontents : body.member "contents" with
    | error o2 =>
      simp only [hcontents, bind, Except.bind, Except.error.injEq] at hmembers
      subst hmembers
      exact member_error _ _ _ hcontents
    | ok contents =>
      simp only [hcontents, bind, Except.bind] at hmembers
      exact GetObject_error _ _ hmembers
  · split at h
    · rename_i o1 hliterals
      simp only [Except.error.injEq] at h
      subst h
      exact literals_error _ _ hliterals
    · contradiction

/-- The step `createSecret.provision` never ends in a 400, 403 or 404 response. -/
theorem provision_not_rejection (env : Env) (w : World) (body : Value) (secret : Secret)
    (vo : VO) (cluster : Cluster) :
    (createSecret.provision env w body secret vo cluster).1.isRejection = false := by
  simp only [createSecret.provision]
  repeat' split
  all_goals first
    | rfl
    | (rename_i harguments
       have hasserted := arguments_error env body secret vo _ harguments
       subst hasserted
       rfl)

/-- When `createSecret.materialize` ends in a 400, 403 or 404 response, the world is as
before. -/
theorem materialize_rejection (env : Env) (w : World) (user : User) (body : Value)
    (secret : Secret) (o : Outcome) (w1 : World)
    (h : createSecret.materialize env w user body secret = (.error o, w1))
    (hrejection : o.isRejection = true) : w1 = w := by
  simp only [createSecret.materialize] at h
  repeat' split at h
  all_goals simp only [Prod.mk.injEq, Except.error.injEq, reduceCtorEq, false_and] at h
  all_goals obtain ⟨h1, h2⟩ := h
  all_goals first
    | exact h2.symm
    | (subst h1; simp [Outcome.isRejection, Outcome.code] at hrejection; done)
    | (subst h1
       rename_i o1 hadd
       unfold Value.AddMember at hadd
       split at hadd
       · contradiction
       · simp only [Except.error.injEq] at hadd
         subst hadd
         simp [Outcome.isRejection, Outcome.code] at hrejection)

/-- When `createSecret` ends in a 400, 403 or 404 response, the world is as before. -/
theorem createSecret_rejection (env : Env) (w : World) (req : request)
    (h : (createSecret env w req).1.isRejection = true) : (createSecret env w req).2 = w := by
  generalize hresult : createSecret env w req = result at h
  simp only [createSecret, createSecret.fromDuplicateCheck] at hresult
  repeat' split at hresult
  all_goals subst hresult
  all_goals first
    | rfl
    | (rename_i hmaterialize
       exact materialize_rejection env w _ _ _ _ _ hmaterialize h)
    | (rw [provision_not_rejection] at h
       contradiction)

/-- When `getSecret` ends in a 400, 403 or 404 response, the world is as before. -/
theorem getSecret_rejection (env : Env) (w : World) (req : request) (secretID : String)
    (h : (getSecret env w req secretID).1.isRejection = true) :
    (getSecret env w req secretID).2 = w := by
  generalize hresult : getSecret env w req secretID = result at h
  simp only [getSecret] at hresult
  repeat' split at hresult
  all_goals subst hresult
  all_goals first
    | rfl
    | (simp [Outcome.isRejection, Outcome.code, reply] at h)

/-- When `deleteSecret` ends in a 400, 403 or 404 response, the world is as before. -/
theorem deleteSecret_rejection (env : Env) (w : World) (req : request) (secretID : String)
    (h : (deleteSecret env w req secretID).1.isRejection = true) :
    (deleteSecret env w req secretID).2 = w := by
  generalize hresult : deleteSecret env w req secretID = result at h
  simp only [deleteSecret] at hresult
  repeat' split at hresult
  all_goals subst hresult
  all_goals first
    | rfl
    | (simp [Outcome.isRejection, Outcome.code, reply] at h)

/-- The handler `listSecrets` never changes the world. -/
theorem listSecrets_world (env : Env) (w : World) (req : request) :
    (listSecrets env w req).2 = w := by
  simp only [listSecrets]
  repeat' split
  all_goals rfl

/-- C10: no partial side effects on rejection.  For every request and every world,
whenever `createSecret`, `getSecret`, `deleteSecret` or `listSecrets` returns a 400, 403 or
404 response, the world after the call is the world before it: the store holds the same
records and the trace has no new call, so no namespace was created and no `kubectl`
command was run. -/
theorem rejection_has_no_side_effects (env : Env) (w : World) (req : request)
    (secretID : String) :
    ((createSecret env w req).1.isRejection = true → (createSecret env w req).2 = w)
    ∧ ((getSecret env w req secretID).1.isRejection = true →
        (getSecret env w req secretID).2 = w)
    ∧ ((deleteSecret env w req secretID).1.isRejection = true →
        (deleteSecret env w req secretID).2 = w)
    ∧ ((listSecrets env w req).1.isRejection = true → (listSecrets env w req).2 = w) :=
  ⟨createSecret_rejection env w req, getSecret_rejection env w req secretID,
   deleteSecret_rejection env w req secretID, fun _ => listSecrets_world env w req⟩

/-- The witness of C10: `carol` is refused (403) on creating a secret for `vo1`, `alice`
asks for a secret that does not exist (404), and `alice` lists secrets without naming a VO
(400); the world is unchanged each time. -/
theorem rejection_has_no_side_effects_witness :
    ((createSecret (Scenario.env (Scenario.inlineBody "api-key" "cluster1" []) [] Scenario.success)
        Scenario.world (Scenario.requestOf "token-carol" false)).1.code = some 403
      ∧ (createSecret (Scenario.env (Scenario.inlineBody "api-key" "cluster1" []) [] Scenario.success)
        Scenario.world (Scenario.requestOf "token-carol" false)).2 = Scenario.world)
    ∧ ((getSecret (Scenario.env Value.null [] Scenario.success)
        Scenario.world (Scenario.requestOf "token-alice" false) "Secret_0").1.code = some 404
      ∧ (getSecret (Scenario.env Value.null [] Scenario.success)
        Scenario.world (Scenario.requestOf "token-alice" false) "Secret_0").2 = Scenario.world)
    ∧ ((deleteSecret (Scenario.env Value.null [] Scenario.success)
        Scenario.world (Scenario.requestOf "token-alice" false) "Secret_0").1.code = some 404
      ∧ (deleteSecret (Scenario.env Value.null [] Scenario.success)
        Scenario.world (Scenario.requestOf "token-alice" false) "Secret_0").2 = Scenario.world)
    ∧ ((listSecrets (Scenario.env Value.null [] Scenario.success)
        Scenario.world (Scenario.requestOf "token-alice" false)).1.code = some 400
      ∧ (listSecrets (Scenario.env Value.null [] Scenario.success)
        Scenario.world (Scenario.requestOf "token-alice" false)).2 = Scenario.world) :=
  have refused := rejection_has_no_side_effects
    (Scenario.env (Scenario.inlineBody "api-key" "cluster1" []) [] Scenario.success)
    Scenario.world (Scenario.requestOf "token-carol" false) "Secret_0"
  have missing := rejection_has_no_side_effects (Scenario.env Value.null [] Scenario.success)
    Scenario.world (Scenario.requestOf "token-alice" false) "Secret_0"
  ⟨⟨by decide, refused.1 (by decide)⟩, ⟨by decide, missing.2.1 (by decide)⟩,
   ⟨by decide, missing.2.2.1 (by decide)⟩, ⟨by decide, missing.2.2.2 (by decide)⟩⟩

/-! ### The secure buffer (C14, C15, C16, C22, C23) -/

/-- C14 (the code at the failing input): a fresh buffer is compacted while empty, which
leaves it with capacity 0, and then a char is appended.  `Put` finds `size == capacity`
and calls `Reserve(2*size)`, which is `Reserve(0)` and allocates nothing, so the write at
index 0 is outside the (empty) region. -/
theorem Put_after_ShrinkToFit_of_empty_writes_outside (c : Char) :
    (SecretStringBuffer.new.ShrinkToFit.map (fun b => (b.size, b.data.dataSize, b.data.data)))
      = some (0, 0, [])
    ∧ (SecretStringBuffer.new.ShrinkToFit.bind (fun b => b.Reserve (size_t (2 * b.size))))
      = SecretStringBuffer.new.ShrinkToFit
    ∧ (SecretStringBuffer.new.ShrinkToFit.bind (fun b => b.Put c)) = none := by
  refine ⟨by decide, by decide, ?_⟩
  have h : SecretStringBuffer.new.ShrinkToFit = some { data := { data := [], dataSize := 0 }, size := 0 } := by
    decide
  rw [h]
  rfl

/-- The region after `copy_n` into a fresh allocation: the chars copied, then zeros. -/
theorem copy_n_ofSize (first : List Char) (count size : Nat)
    (h1 : count ≤ first.length) (h2 : count ≤ size) :
    copy_n first count (SecretData.ofSize size).data
      = some (first.take count ++ List.replicate (size - count) NUL) := by
  simp [copy_n, SecretData.ofSize, h1, h2]

/-- What `Reserve` does on a sound buffer whose size is within its capacity: with a count
above the capacity the region is reallocated to exactly `count` chars, the chars in use are
copied and the rest is zero; otherwise nothing changes. -/
theorem Reserve_sound (b : SecretStringBuffer) (count : Nat) (hb : b.Sound)
    (hsize : b.size ≤ b.data.dataSize) (hcount : count < 2 ^ 64) :
    ∃ b1, b.Reserve count = some b1 ∧ b1.Sound ∧ b1.size = b.size
      ∧ b1.data.data.take b.size = b.data.data.take b.size
      ∧ (b.data.dataSize < count → b1.data.dataSize = count)
      ∧ (count ≤ b.data.dataSize → b1 = b) := by
  obtain ⟨h1, h2, h3⟩ := hb
  by_cases hgrow : count > b.data.dataSize
  · have hcopy := copy_n_ofSize b.data.data b.size count (by omega) (by omega)
    refine ⟨{ b with data := { data := b.data.data.take b.size
                ++ List.replicate (count - b.size) NUL, dataSize := count } }, ?_, ?_, rfl, ?_, ?_, ?_⟩
    · simp [SecretStringBuffer.Reserve, hgrow, hcopy]
    · refine ⟨h1, hcount, ?_⟩
      simp only [List.length_append, List.length_take, List.length_replicate]
      omega
    · simp only
      rw [List.take_append_of_le_length (by simp; omega)]
      simp
    · intro _; rfl
    · intro hle; omega
  · refine ⟨b, ?_, ⟨h1, h2, h3⟩, rfl, rfl, ?_, fun _ => rfl⟩
    · simp [SecretStringBuffer.Reserve, hgrow]
    · intro hlt; omega

/-- Setting index `n` does not change the first `n` elements. -/
theorem take_set_self (l : List Char) (n : Nat) (a : Char) : (l.set n a).take n = l.take n :=
  List.ext_getElem? fun i => by
    rw [List.getElem?_take, List.getElem?_take]
    split
    · next h => rw [List.getElem?_set_ne (by omega)]
    · rfl

/-- What `Put` does on a sound buffer whose size is within its capacity, when there is
room left or the capacity is positive (and can be doubled in `std::size_t`): the char is
stored at index `size`, the chars before it are unchanged, the size grows by one, and the
capacity is doubled when the buffer was full and unchanged otherwise. -/
theorem Put_sound (b : SecretStringBuffer) (c : Char) (hb : b.Sound)
    (hsize : b.size ≤ b.data.dataSize)
    (hroom : b.size < b.data.dataSize ∨ (0 < b.size ∧ 2 * b.size < 2 ^ 64)) :
    ∃ b1, b.Put c = some b1 ∧ b1.Sound ∧ b1.size = b.size + 1
      ∧ b1.size ≤ b1.data.dataSize
      ∧ b1.data.data.take b.size = b.data.data.take b.size
      ∧ b1.data.data[b.size]? = some c
      ∧ (b.size = b.data.dataSize → b1.data.dataSize = 2 * b.data.dataSize)
      ∧ (b.size ≠ b.data.dataSize → b1.data.dataSize = b.data.dataSize) := by
  by_cases hfull : b.size = b.data.dataSize
  · have hpos : 0 < b.size ∧ 2 * b.size < 2 ^ 64 := by
      rcases hroom with h | h
      · omega
      · exact h
    have hdouble : size_t (2 * b.size) = 2 * b.size := Nat.mod_eq_of_lt hpos.2
    obtain ⟨b1, hreserve, hsound1, hsize1, htake1, hgrow1, _⟩ :=
      Reserve_sound b (2 * b.size) hb hsize hpos.2
    have hcap1 : b1.data.dataSize = 2 * b.size := hgrow1 (by omega)
    obtain ⟨h1, h2, h3⟩ := hsound1
    have hindex : b1.size < b1.data.data.length := by omega
    have hnext : size_t (b1.size + 1) = b.size + 1 := by
      rw [hsize1]; exact Nat.mod_eq_of_lt (by omega)
    refine ⟨{ data := { b1.data with data := b1.data.data.set b1.size c },
              size := size_t (b1.size + 1) }, ?_, ?_, hnext, ?_, ?_, ?_, ?_, ?_⟩
    · unfold SecretStringBuffer.Put
      rw [if_pos hfull, hdouble, hreserve]
      simp only [hindex, if_true]
    · refine ⟨?_, h2, ?_⟩
      · simp only [hnext]; omega
      · simp only [List.length_set]; exact h3
    · simp only [hnext]; omega
    · simp only [hsize1, take_set_self]
      exact htake1
    · simp only [hsize1]
      rw [List.getElem?_set_self (by omega)]
    · intro _; simp only [hcap1]; omega
    · intro h; exact absurd hfull h
  · have hlt : b.size < b.data.dataSize := by omega
    obtain ⟨h1, h2, h3⟩ := hb
    have hindex : b.size < b.data.data.length := by omega
    have hnext : size_t (b.size + 1) = b.size + 1 := Nat.mod_eq_of_lt (by omega)
    refine ⟨{ data := { b.data with data := b.data.data.set b.size c },
              size := size_t (b.size + 1) }, ?_, ?_, hnext, ?_, ?_, ?_, ?_, ?_⟩
    · simp [SecretStringBuffer.Put, hfull, hindex]
    · refine ⟨?_, h2, ?_⟩
      · simp only [hnext]; omega
      · simp only [List.length_set]; exact h3
    · simp only [hnext]; omega
    · simp only [take_set_self]
    · simp only
      rw [List.getElem?_set_self hindex]
    · intro h; exact absurd h hfull
    · intro _; rfl

/-- On a sound buffer of capacity 0 (and so of size 0) `Put` is undefined: `Reserve(2*0)`
allocates nothing and the write at index 0 is outside the empty region. -/
theorem Put_of_capacity_zero (b : SecretStringBuffer) (c : Char) (hb : b.Sound)
    (hsize : b.size = 0) (hcapacity : b.data.dataSize = 0) : b.Put c = none := by
  obtain ⟨_, _, h3⟩ := hb
  have hlength : b.data.data.length = 0 := by omega
  simp [SecretStringBuffer.Put, SecretStringBuffer.Reserve, hsize, hcapacity, size_t, hlength]

/-- C15 (counterexample): a fresh buffer is filled to its capacity of 32 by `Push(32)`;
then `Push(1)` reserves `size+count = 33` chars, so the capacity becomes 33, which is less
than double the old capacity. -/
theorem Push_grows_to_exactly_what_is_needed :
    ((SecretStringBuffer.new.Push 32).map (fun r => (r.1.size, r.1.data.dataSize)))
      = some (32, 32)
    ∧ (((SecretStringBuffer.new.Push 32).bind (fun r => r.1.Push 1)).map
        (fun r => (r.1.size, r.1.data.dataSize))) = some (33, 33)
    ∧ ¬ (2 * 32 ≤ 33) := by
  refine ⟨by decide, by decide, by decide⟩

/-- C15 (amended): for a sound buffer with `size <= capacity` and a count with
`size + count` below 2^64, `Push(count)` returns the offset `size`, leaves the first `size`
chars unchanged and increases the size by `count`; when `size + count` exceeds the
capacity the new capacity is exactly `size + count`, otherwise the buffer's region is the
one it had. -/
theorem Push_sound (b : SecretStringBuffer) (count : Nat) (hb : b.Sound)
    (hsize : b.size ≤ b.data.dataSize) (hcount : b.size + count < 2 ^ 64) :
    ∃ b1, b.Push count = some (b1, b.size) ∧ b1.Sound
      ∧ b1.size = b.size + count
      ∧ b1.size ≤ b1.data.dataSize
      ∧ b1.data.data.take b.size = b.data.data.take b.size
      ∧ (b.data.dataSize < b.size + count → b1.data.dataSize = b.size + count)
      ∧ (b.size + count ≤ b.data.dataSize → b1.data = b.data) := by
  have hwrap : size_t (b.size + count) = b.size + count := Nat.mod_eq_of_lt hcount
  obtain ⟨b0, hreserve, hsound0, hsize0, htake0, hgrow0, hsame0⟩ :=
    Reserve_sound b (b.size + count) hb hsize hcount
  obtain ⟨h1, h2, h3⟩ := hsound0
  refine ⟨{ b0 with size := size_t (b0.size + count) }, ?_, ?_, ?_, ?_, htake0, hgrow0, ?_⟩
  · simp [SecretStringBuffer.Push, hwrap, hreserve, hsize0]
  · exact ⟨by simp only [hsize0, hwrap]; exact hcount, h2, h3⟩
  · simp only [hsize0, hwrap]
  · simp only [hsize0, hwrap]
    by_cases hgrow : b.data.dataSize < b.size + count
    · rw [hgrow0 hgrow]
    · have := hsame0 (by omega)
      rw [this]; omega
  · intro hle
    rw [hsame0 hle]

/-- The witness of C15 (amended): `Push(1)` on a fresh buffer that `Push(32)` has filled. -/
theorem Push_sound_witness :
    ∃ b1, (SecretStringBuffer.mk { data := List.replicate 32 NUL, dataSize := 32 } 32).Push 1
        = some (b1, 32)
      ∧ b1.size = 33 ∧ b1.data.dataSize = 33 :=
  have h := Push_sound (SecretStringBuffer.mk { data := List.replicate 32 NUL, dataSize := 32 } 32)
    1 (by decide) (by decide) (by decide)
  h.elim fun b1 hb1 => ⟨b1, hb1.1, hb1.2.2.1, hb1.2.2.2.2.2.1 (by decide)⟩

/-- C16 (counterexample): the char `s` is appended to a fresh buffer and popped again.  The
size is 0 afterwards, but the region still holds `s` at index 0, beyond the logical
size. -/
theorem Pop_keeps_the_chars_in_the_region :
    ((SecretStringBuffer.new.Put (Char.ofNat 115)).map (fun b => (b.Pop 1).size)) = some 0
    ∧ ((SecretStringBuffer.new.Put (Char.ofNat 115)).map
        (fun b => (b.Pop 1).GetString[0]?)) = some (some (Char.ofNat 115))
    ∧ Char.ofNat 115 ≠ NUL := by
  refine ⟨by decide, by decide, by decide⟩

/-- C16 (amended): for a buffer whose size is a value of `std::size_t` and a count with
`count <= size`, after `Pop(count)` the size is the old size minus `count` and the region
is unchanged: the first new-size chars are unchanged, and so are the chars beyond them,
which stay in the region. -/
theorem Pop_sound (b : SecretStringBuffer) (count : Nat) (hsize : b.size < 2 ^ 64)
    (hcount : count ≤ b.size) :
    (b.Pop count).size = b.size - count ∧ (b.Pop count).data = b.data
    ∧ (b.Pop count).GetString = b.GetString := by
  refine ⟨?_, rfl, rfl⟩
  simp only [SecretStringBuffer.Pop, size_t]
  have h1 : count % 2 ^ 64 = count := Nat.mod_eq_of_lt (by omega)
  rw [h1]
  have h2 : b.size + (2 ^ 64 - count) = (b.size - count) + 2 ^ 64 := by omega
  rw [h2, Nat.add_mod_right]
  exact Nat.mod_eq_of_lt (by omega)

/-- The witness of C16 (amended): two chars are popped from a buffer that holds three. -/
theorem Pop_sound_witness :
    ((SecretStringBuffer.mk { data := [Char.ofNat 97, Char.ofNat 98, Char.ofNat 99], dataSize := 3 }
        3).Pop 2).size = 1
    ∧ ((SecretStringBuffer.mk { data := [Char.ofNat 97, Char.ofNat 98, Char.ofNat 99], dataSize := 3 }
        3).Pop 2).GetString = [Char.ofNat 97, Char.ofNat 98, Char.ofNat 99] :=
  have h := Pop_sound
    (SecretStringBuffer.mk { data := [Char.ofNat 97, Char.ofNat 98, Char.ofNat 99], dataSize := 3 } 3)
    2 (by decide) (by decide)
  ⟨h.1, h.2.2⟩

/-- What `ShrinkToFit` does on a sound buffer whose size is within its capacity: the
region is reallocated to exactly `size` chars. -/
theorem ShrinkToFit_sound (b : SecretStringBuffer) (hb : b.Sound)
    (hsize : b.size ≤ b.data.dataSize) :
    ∃ b1, b.ShrinkToFit = some b1 ∧ b1.Sound ∧ b1.size = b.size ∧ b1.data.dataSize = b.size
      ∧ b1.data.data = b.data.data.take b.size := by
  obtain ⟨h1, h2, h3⟩ := hb
  have hcopy := copy_n_ofSize b.data.data b.size b.size (by omega) (Nat.le_refl _)
  refine ⟨{ b with data := { data := b.data.data.take b.size, dataSize := b.size } }, ?_, ?_,
    rfl, rfl, rfl⟩
  · simp [SecretStringBuffer.ShrinkToFit, hcopy]
  · refine ⟨h1, h1, ?_⟩
    simp only [List.length_take]
    omega

/-- On a sound buffer whose size is within its capacity `Push` is defined for every count
and keeps the buffer sound and the size within the capacity, also when `size + count`
wraps around. -/
theorem Push_keeps_size_within_capacity (b : SecretStringBuffer) (count : Nat) (hb : b.Sound)
    (hsize : b.size ≤ b.data.dataSize) :
    ∃ r, b.Push count = some r ∧ r.1.Sound ∧ r.1.size ≤ r.1.data.dataSize := by
  have hlt : size_t (b.size + count) < 2 ^ 64 := Nat.mod_lt _ (by decide)
  obtain ⟨b0, hreserve, hsound0, hsize0, _, hgrow0, hsame0⟩ :=
    Reserve_sound b (size_t (b.size + count)) hb hsize hlt
  obtain ⟨h1, h2, h3⟩ := hsound0
  refine ⟨({ b0 with size := size_t (b0.size + count) }, b0.size), ?_, ?_, ?_⟩
  · simp [SecretStringBuffer.Push, hreserve]
  · exact ⟨by simp only [hsize0]; exact hlt, h2, h3⟩
  · simp only [hsize0]
    by_cases hgrow : b.data.dataSize < size_t (b.size + count)
    · rw [hgrow0 hgrow]
    · have := hsame0 (by omega)
      rw [this]; omega

/-- Every call that is defined keeps a sound buffer sound and its size within its
capacity, when its argument is a value of `std::size_t` and a `Pop` takes no more than the
size. -/
theorem call_keeps_size_within_capacity (b : SecretStringBuffer) (c : SecretStringBuffer.Call)
    (b1 : SecretStringBuffer) (hb : b.Sound) (hsize : b.size ≤ b.data.dataSize)
    (hargument : match c with
      | .Pop count => count ≤ b.size
      | .Reserve count => count < 2 ^ 64
      | .Push count => count < 2 ^ 64
      | _ => True)
    (h : b.call c = some b1) : b1.Sound ∧ b1.size ≤ b1.data.dataSize := by
  have hput : ∀ ch b2, b.Put ch = some b2 → b2.Sound ∧ b2.size ≤ b2.data.dataSize := by
    intro ch b2 hb2
    by_cases hroom : b.size < b.data.dataSize ∨ (0 < b.size ∧ 2 * b.size < 2 ^ 64)
    · obtain ⟨b3, h3, hsound3, _, hle3, _⟩ := Put_sound b ch hb hsize hroom
      rw [h3] at hb2
      cases hb2
      exact ⟨hsound3, hle3⟩
    · exfalso
      have hfull : b.size = b.data.dataSize := by omega
      obtain ⟨h1, h2, h3⟩ := hb
      have hnogrow : ¬ size_t (2 * b.size) > b.data.dataSize := by
        by_cases hzero : b.size = 0
        · simp [hzero, size_t] 
        · have hbig : ¬ 2 * b.size < 2 ^ 64 := by
            intro hlt; exact hroom (Or.inr ⟨by omega, hlt⟩)
          simp only [size_t]
          omega
      have hindex : ¬ b.size < b.data.data.length := by omega
      unfold SecretStringBuffer.Put at hb2
      rw [if_pos hfull] at hb2
      unfold SecretStringBuffer.Reserve at hb2
      rw [if_neg hnogrow] at hb2
      simp only [hindex, if_false] at hb2
      cases hb2
  cases c with
  | Put ch => exact hput ch b1 h
  | PutUnsafe ch => exact hput ch b1 h
  | Reserve count =>
    obtain ⟨b2, h2, hsound2, hsize2, _, hgrow2, hsame2⟩ := Reserve_sound b count hb hsize hargument
    simp only [SecretStringBuffer.call] at h
    rw [h2] at h
    cases h
    refine ⟨hsound2, ?_⟩
    by_cases hgrow : b.data.dataSize < count
    · rw [hgrow2 hgrow, hsize2]; omega
    · rw [hsame2 (by omega)]; exact hsize
  | Push count =>
    obtain ⟨r, hr, hsound, hle⟩ := Push_keeps_size_within_capacity b count hb hsize
    simp only [SecretStringBuffer.call, hr, Option.map_some', Option.some.injEq] at h
    subst h
    exact ⟨hsound, hle⟩
  | ShrinkToFit =>
    obtain ⟨b2, h2, hsound2, hsize2, hcap2, _⟩ := ShrinkToFit_sound b hb hsize
    simp only [SecretStringBuffer.call] at h
    rw [h2] at h
    cases h
    exact ⟨hsound2, by omega⟩
  | Clear =>
    simp only [SecretStringBuffer.call, Option.some.injEq] at h
    subst h
    simp only [SecretStringBuffer.Clear]
    exact ⟨by decide, by decide⟩
  | Pop count =>
    simp only [SecretStringBuffer.call, Option.some.injEq] at h
    subst h
    obtain ⟨h1, h2, h3⟩ := hb
    obtain ⟨hpop, hdata, _⟩ := Pop_sound b count h1 hargument
    refine ⟨⟨?_, ?_, ?_⟩, ?_⟩
    · rw [hpop]; omega
    · rw [hdata]; exact h2
    · rw [hdata]; exact h3
    · rw [hpop, hdata]; omega

/-- The part of C22 that holds: along every admissible sequence of calls that is defined,
starting from a sound buffer whose size is within its capacity (such as a fresh one), the
size stays within the capacity. -/
theorem calls_keep_size_within_capacity (calls : List SecretStringBuffer.Call) :
    ∀ (b b1 : SecretStringBuffer), b.Sound → b.size ≤ b.data.dataSize →
      b.Admissible calls → b.calls calls = some b1 → b1.Sound ∧ b1.size ≤ b1.data.dataSize := by
  induction calls with
  | nil =>
    intro b b1 hb hsize _ h
    simp only [SecretStringBuffer.calls, Option.some.injEq] at h
    subst h
    exact ⟨hb, hsize⟩
  | cons c rest ih =>
    intro b b1 hb hsize hadmissible h
    simp only [SecretStringBuffer.calls] at h
    obtain ⟨hargument, hrest⟩ := hadmissible
    cases hcall : b.call c with
    | none => simp [hcall] at h
    | some b2 =>
      simp only [hcall] at h
      obtain ⟨hsound2, hsize2⟩ :=
        call_keeps_size_within_capacity b c b2 hb hsize hargument hcall
      exact ih b2 b1 hsound2 hsize2 (hrest b2 hcall) h

/-- C22 (the code at the failing input): on a fresh buffer, `ShrinkToFit` and then `Put`.
After `ShrinkToFit` the size 0 is within the capacity 0, and yet `Put` writes outside the
allocated region: `Reserve(2*0)` reserves nothing.  The sequence of calls is admissible
and undefined. -/
theorem ShrinkToFit_then_Put_writes_outside (c : Char) :
    ((SecretStringBuffer.new.calls [SecretStringBuffer.Call.ShrinkToFit]).map
        (fun b => (b.size, b.data.dataSize, b.data.data))) = some (0, 0, [])
    ∧ SecretStringBuffer.new.Admissible
        [SecretStringBuffer.Call.ShrinkToFit, SecretStringBuffer.Call.Put c]
    ∧ SecretStringBuffer.new.calls
        [SecretStringBuffer.Call.ShrinkToFit, SecretStringBuffer.Call.Put c] = none := by
  have h : SecretStringBuffer.new.ShrinkToFit
      = some { data := { data := [], dataSize := 0 }, size := 0 } := by decide
  refine ⟨by decide, ?_, ?_⟩
  · simp [SecretStringBuffer.Admissible]
  · simp only [SecretStringBuffer.calls, SecretStringBuffer.call, h]
    rw [Put_of_capacity_zero _ c (by decide) rfl rfl]

/-- C23 (the code at every input): `PushUnsafe(count)` calls itself, so it returns for no
amount of fuel, on any buffer and count; `Push(1)` on a fresh buffer returns offset 0 and
leaves size 1. -/
theorem PushUnsafe_never_returns :
    (∀ (fuel : Nat) (b : SecretStringBuffer) (count : Nat),
      SecretStringBuffer.PushUnsafe fuel b count = none)
    ∧ ((SecretStringBuffer.new.Push 1).map (fun r => (r.1.size, r.2))) = some (1, 0) := by
  refine ⟨?_, by decide⟩
  intro fuel b count
  induction fuel with
  | zero => rfl
  | succ n ih => simpa [SecretStringBuffer.PushUnsafe] using ih

/-! ### Memberships over the map (C20, C21) -/

/-- The VO ids that `getUserVOMemberships` reads from items: those of the items that have
a `voID`. -/
theorem vos_eq_filterMap (items : List Item) :
    PersistentStore.getUserVOMemberships.vos items
      = items.filterMap (fun item => (Item.find item "voID").map AttributeValue.GetS) := by
  induction items with
  | nil => rfl
  | cons item rest ih =>
    simp only [PersistentStore.getUserVOMemberships.vos]
    cases h : Item.find item "voID" with
    | none => simp [List.filterMap_cons, h, ih]
    | some value => simp [List.filterMap_cons, h, ih]

/-- In a well-formed database, a row of the user table that has a `voID` is the
membership record of its `ID` and `voID`. -/
theorem wellFormed_row (db : Database) (hwf : db.WellFormed = true) (row : String × Item)
    (hrow : row ∈ db) (htable : row.1 = PersistentStore.userTableName) (value : AttributeValue)
    (hvalue : Item.find row.2 "voID" = some value) :
    ∃ uID voID, value = AttributeValue.S voID ∧ Item.find row.2 "ID" = some (AttributeValue.S uID)
      ∧ Item.find row.2 "sortKey" = some (AttributeValue.S (uID ++ ":" ++ voID)) := by
  simp only [Database.WellFormed, List.all_eq_true] at hwf
  have h := hwf row hrow
  simp only [htable, ne_eq, not_true_eq_false, decide_False, Bool.false_or] at h
  unfold Database.isMembershipOrOther at h
  rw [hvalue] at h
  cases value with
  | BOOL b => simp at h
  | S voID =>
    simp only at h
    cases hid : Item.find row.2 "ID" with
    | none => simp [hid] at h
    | some id =>
      cases id with
      | BOOL b => simp [hid] at h
      | S uID =>
        simp only [hid, decide_eq_true_eq] at h
        exact ⟨uID, voID, rfl, rfl, h⟩

/-- In a well-formed database, a row of user `uID` in the user table from which
`getUserVOMemberships` would read `voID` is the row at the key of that membership. -/
theorem row_reporting_membership (db : Database) (hwf : db.WellFormed = true)
    (row : String × Item) (hrow : row ∈ db) (htable : row.1 = PersistentStore.userTableName)
    (uID voID : String) (hid : Item.find row.2 "ID" = some (AttributeValue.S uID))
    (hvo : (Item.find row.2 "voID").map AttributeValue.GetS = some voID) :
    Database.isAt PersistentStore.userTableName
      [("ID", AttributeValue.S uID), ("sortKey", AttributeValue.S (uID ++ ":" ++ voID))] row
      = true := by
  cases hvalue : Item.find row.2 "voID" with
  | none => simp [hvalue] at hvo
  | some value =>
    obtain ⟨u1, v1, hv1, hid1, hsort1⟩ := wellFormed_row db hwf row hrow htable value hvalue
    rw [hvalue, hv1] at hvo
    simp only [Option.map_some', AttributeValue.GetS, Option.some.injEq] at hvo
    rw [hid] at hid1
    simp only [Option.some.injEq, AttributeValue.S.injEq] at hid1
    subst hvo hid1
    simp only [Database.isAt, Database.key, htable, hid, hsort1, true_and, decide_eq_true_eq]
    rfl

/-- What `getUserVOMemberships` returns over the map when the database is up. -/
theorem getUserVOMemberships_up (db : Database) (uID : String) :
    PersistentStore.getUserVOMemberships (Database.client true) db uID
      = (db.filter (fun row => decide (row.1 = PersistentStore.userTableName)
            && Database.satisfies (KeyCondition.equalsAndBeginsWith "ID" (AttributeValue.S uID)
                "sortKey" (AttributeValue.S (uID ++ ":VO"))) row.2)).filterMap
          (fun row => (Item.find row.2 "voID").map AttributeValue.GetS) := by
  simp [PersistentStore.getUserVOMemberships, Database.client, Database.Query, vos_eq_filterMap,
    List.filterMap_map, Function.comp_def]

/-- A write over the map succeeds only when the database is up. -/
theorem up_of_addUserToVO (db : Database) (up : Bool) (uID voID : String)
    (h : (PersistentStore.addUserToVO (Database.client up) db uID voID).1 = true) :
    up = true := by
  cases up with
  | true => rfl
  | false => simp [PersistentStore.addUserToVO, Database.client] at h

/-- In a well-formed database, the rows of user `uID` that are not at the key of the
membership in `voID` do not report `voID`. -/
theorem other_rows_do_not_report (db : Database) (hwf : db.WellFormed = true)
    (uID voID : String) :
    voID ∉ ((db.filter (fun row => !Database.isAt PersistentStore.userTableName
          [("ID", AttributeValue.S uID), ("sortKey", AttributeValue.S (uID ++ ":" ++ voID))]
          row)).filter
        (fun row => decide (row.1 = PersistentStore.userTableName)
          && Database.satisfies (KeyCondition.equalsAndBeginsWith "ID" (AttributeValue.S uID)
              "sortKey" (AttributeValue.S (uID ++ ":VO"))) row.2)).filterMap
        (fun row => (Item.find row.2 "voID").map AttributeValue.GetS) := by
  intro hmem
  simp only [List.mem_filterMap, List.mem_filter, Bool.and_eq_true, decide_eq_true_eq,
    Bool.not_eq_true'] at hmem
  obtain ⟨row, ⟨⟨hrow, hnot⟩, htable, hsat⟩, hvo⟩ := hmem
  have hid : Item.find row.2 "ID" = some (AttributeValue.S uID) := by
    simp only [Database.satisfies, Bool.and_eq_true, decide_eq_true_eq] at hsat
    exact hsat.1
  have := row_reporting_membership db hwf row hrow htable uID voID hid hvo
  rw [this] at hnot
  cases hnot

/-- A key condition that is selected within rows that satisfy `q` anyway selects the same
rows without that restriction. -/
theorem filter_filter_of_imp (l : Database) (p q : String × Item → Bool)
    (h : ∀ row, p row = true → q row = true) : (l.filter q).filter p = l.filter p := by
  rw [List.filter_filter]
  apply List.filter_congr
  intro row _
  cases hp : p row with
  | false => simp
  | true => simp [h row hp]

/-- Looking a row up among the rows that satisfy `q` finds the same row when every row
looked for satisfies `q`. -/
theorem find?_filter_of_imp (l : Database) (p q : String × Item → Bool)
    (h : ∀ row, p row = true → q row = true) : (l.filter q).find? p = l.find? p := by
  induction l with
  | nil => rfl
  | cons row rest ih =>
    cases hq : q row with
    | true =>
      rw [List.filter_cons_of_pos hq]
      simp only [List.find?_cons, ih]
    | false =>
      have hp : p row = false := by
        cases hp : p row with
        | false => rfl
        | true => rw [h row hp] at hq; cases hq
      rw [List.filter_cons_of_neg (by simp [hq]), List.find?_cons, hp, ih]

/-- The values that `readAll` returns when every item has what is read. -/
theorem readAll_of_forall {α : Type} (read : Item → Option α) (items : List Item)
    (h : ∀ item ∈ items, ∃ a, read item = some a) :
    ∃ values, readAll read items = some values
      ∧ ∀ a ∈ values, ∃ item ∈ items, read item = some a := by
  induction items with
  | nil => exact ⟨[], rfl, by simp⟩
  | cons item rest ih =>
    obtain ⟨a, ha⟩ := h item (List.mem_cons_self _ _)
    obtain ⟨others, hothers, hfrom⟩ := ih (fun i hi => h i (List.mem_cons_of_mem _ hi))
    refine ⟨a :: others, by simp [readAll, ha, hothers], ?_⟩
    intro x hx
    rcases List.mem_cons.mp hx with hx | hx
    · exact ⟨item, List.mem_cons_self _ _, hx ▸ ha⟩
    · obtain ⟨i, hi, hread⟩ := hfrom x hx
      exact ⟨i, List.mem_cons_of_mem _ hi, hread⟩

/-- A write over the map succeeds only when the database is up. -/
theorem up_of_removeUserFromVO (db : Database) (up : Bool) (uID voID : String)
    (h : (PersistentStore.removeUserFromVO (Database.client up) db uID voID).1 = true) :
    up = true := by
  cases up with
  | true => rfl
  | false => simp [PersistentStore.removeUserFromVO, Database.client] at h

/-- Over the map, adding a membership and removing it again leaves the rows that are not at
the key of the membership. -/
theorem removeUserFromVO_addUserToVO (db : Database) (uID voID : String) :
    (PersistentStore.removeUserFromVO (Database.client true)
        (PersistentStore.addUserToVO (Database.client true) db uID voID).2 uID voID).2
      = db.filter (fun row => !Database.isAt PersistentStore.userTableName
          [("ID", AttributeValue.S uID), ("sortKey", AttributeValue.S (uID ++ ":" ++ voID))]
          row) := by
  have hkey : Database.isAt PersistentStore.userTableName
      [("ID", AttributeValue.S uID), ("sortKey", AttributeValue.S (uID ++ ":" ++ voID))]
      (PersistentStore.userTableName,
        [("ID", AttributeValue.S uID), ("sortKey", AttributeValue.S (uID ++ ":" ++ voID)),
         ("voID", AttributeValue.S voID)]) = true := by
    simp only [Database.isAt, true_and, decide_eq_true_eq]
    rfl
  have hput : (PersistentStore.addUserToVO (Database.client true) db uID voID).2
      = db.filter (fun row => !Database.isAt PersistentStore.userTableName
          [("ID", AttributeValue.S uID), ("sortKey", AttributeValue.S (uID ++ ":" ++ voID))] row)
        ++ [(PersistentStore.userTableName,
            [("ID", AttributeValue.S uID), ("sortKey", AttributeValue.S (uID ++ ":" ++ voID)),
             ("voID", AttributeValue.S voID)])] := by
    simp only [PersistentStore.addUserToVO, Database.client, Database.PutItem, if_true]
    rfl
  rw [hput]
  simp only [PersistentStore.removeUserFromVO, Database.client, Database.DeleteItem, if_true]
  rw [List.filter_append, List.filter_filter, List.filter_cons_of_neg (by simp [hkey]),
    List.filter_nil, List.append_nil]
  apply List.filter_congr
  intro row _
  simp

/-- The rows that are left of a well-formed database are well-formed. -/
theorem wellFormed_filter (db : Database) (q : String × Item → Bool)
    (hwf : db.WellFormed = true) : Database.WellFormed (db.filter q) = true := by
  simp only [Database.WellFormed, List.all_eq_true] at hwf ⊢
  intro row hrow
  exact hwf row (List.mem_of_mem_filter hrow)

/-- A user id is not the sort key of one of the user's memberships. -/
theorem id_ne_sortKey (uID voID : String) : uID ≠ uID ++ ":" ++ voID := by
  intro h
  have hlength := congrArg String.length h
  simp only [String.length_append] at hlength
  have : ":".length = 1 := rfl
  omega

/-- C20: removing a membership undoes adding it.  Over the map keyed by (ID, sortKey), in
a well-formed database, after `addUserToVO(u, v)` succeeds and then
`removeUserFromVO(u, v)` succeeds: `getUserVOMemberships(u)` does not contain `v`;
`getMembersOfVO(v)` returns and does not contain `u`; if `u` had no membership before,
`getUserVOMemberships(u)` is empty; the user record of `u` reads as before; and the
memberships of every other user are unchanged. -/
theorem removeUserFromVO_undoes_addUserToVO (db : Database) (up : Bool) (uID voID : String)
    (hwf : db.WellFormed = true)
    (hadd : (PersistentStore.addUserToVO (Database.client up) db uID voID).1 = true)
    (hremove : (PersistentStore.removeUserFromVO (Database.client up)
      (PersistentStore.addUserToVO (Database.client up) db uID voID).2 uID voID).1 = true) :
    voID ∉ PersistentStore.getUserVOMemberships (Database.client up)
        (PersistentStore.removeUserFromVO (Database.client up)
          (PersistentStore.addUserToVO (Database.client up) db uID voID).2 uID voID).2 uID
    ∧ (∃ members, PersistentStore.getMembersOfVO (Database.client up)
          (PersistentStore.removeUserFromVO (Database.client up)
            (PersistentStore.addUserToVO (Database.client up) db uID voID).2 uID voID).2 voID
        = Run.returned members ∧ uID ∉ members)
    ∧ (PersistentStore.getUserVOMemberships (Database.client up) db uID = [] →
        PersistentStore.getUserVOMemberships (Database.client up)
          (PersistentStore.removeUserFromVO (Database.client up)
            (PersistentStore.addUserToVO (Database.client up) db uID voID).2 uID voID).2 uID
          = [])
    ∧ PersistentStore.getUser (Database.client up)
        (PersistentStore.removeUserFromVO (Database.client up)
          (PersistentStore.addUserToVO (Database.client up) db uID voID).2 uID voID).2 uID
      = PersistentStore.getUser (Database.client up) db uID
    ∧ (∀ other, other ≠ uID →
        PersistentStore.getUserVOMemberships (Database.client up)
          (PersistentStore.removeUserFromVO (Database.client up)
            (PersistentStore.addUserToVO (Database.client up) db uID voID).2 uID voID).2 other
          = PersistentStore.getUserVOMemberships (Database.client up) db other) := by
  have hup := up_of_addUserToVO db up uID voID hadd
  subst hup
  rw [removeUserFromVO_addUserToVO]
  refine ⟨?_, ?_, ?_, ?_, ?_⟩
  · rw [getUserVOMemberships_up]
    exact other_rows_do_not_report db hwf uID voID
  · have hwf2 := wellFormed_filter db (fun row => !Database.isAt PersistentStore.userTableName
      [("ID", AttributeValue.S uID), ("sortKey", AttributeValue.S (uID ++ ":" ++ voID))] row) hwf
    simp only [PersistentStore.getMembersOfVO, Database.client, Database.Query, if_true]
    have hall : ∀ item ∈ ((db.filter (fun row => !Database.isAt PersistentStore.userTableName
          [("ID", AttributeValue.S uID), ("sortKey", AttributeValue.S (uID ++ ":" ++ voID))]
          row)).filter (fun row => decide (row.1 = PersistentStore.userTableName)
            && Database.satisfies (KeyCondition.equals "voID" (AttributeValue.S voID)) row.2)).map
          (fun row => row.2),
        ∃ a, Item.GetS item "ID" = some a := by
      intro item hitem
      simp only [List.mem_map, List.mem_filter, Bool.and_eq_true, decide_eq_true_eq,
        Database.satisfies] at hitem
      obtain ⟨row, ⟨hrow, htable, hvo⟩, hitem⟩ := hitem
      subst hitem
      obtain ⟨u1, v1, _, hid1, _⟩ := wellFormed_row _ hwf2 row
        (List.mem_filter.mpr hrow) htable _ hvo
      exact ⟨u1, by simp [Item.GetS, hid1, AttributeValue.GetS]⟩
    obtain ⟨members, hmembers, hfrom⟩ := readAll_of_forall _ _ hall
    refine ⟨members, by rw [hmembers], ?_⟩
    intro hmem
    obtain ⟨item, hitem, hread⟩ := hfrom uID hmem
    simp only [List.mem_map, List.mem_filter, Bool.and_eq_true, decide_eq_true_eq,
      Database.satisfies, Bool.not_eq_true'] at hitem
    obtain ⟨row, ⟨⟨hrow, hnot⟩, htable, hvo⟩, hitem⟩ := hitem
    subst hitem
    obtain ⟨u1, v1, hv1, hid1, _⟩ := wellFormed_row db hwf row hrow htable _ hvo
    have hu : u1 = uID := by
      simpa [Item.GetS, hid1, AttributeValue.GetS] using hread
    subst hu
    have := row_reporting_membership db hwf row hrow htable u1 voID hid1
      (by simp [hvo, AttributeValue.GetS])
    rw [this] at hnot
    cases hnot
  · intro hbefore
    rw [getUserVOMemberships_up] at hbefore ⊢
    rw [List.eq_nil_iff_forall_not_mem]
    intro x hx
    have hx2 : x ∈ (db.filter (fun row => decide (row.1 = PersistentStore.userTableName)
          && Database.satisfies (KeyCondition.equalsAndBeginsWith "ID" (AttributeValue.S uID)
              "sortKey" (AttributeValue.S (uID ++ ":VO"))) row.2)).filterMap
        (fun row => (Item.find row.2 "voID").map AttributeValue.GetS) := by
      simp only [List.mem_filterMap, List.mem_filter] at hx ⊢
      obtain ⟨row, ⟨⟨hrow, _⟩, hcond⟩, hvo⟩ := hx
      exact ⟨row, ⟨hrow, hcond⟩, hvo⟩
    rw [hbefore] at hx2
    cases hx2
  · simp only [PersistentStore.getUser, Database.client, Database.GetItem, if_true]
    rw [find?_filter_of_imp]
    intro row hrow
    simp only [Database.isAt, decide_eq_true_eq, Bool.not_eq_true', decide_eq_false_iff_not,
      not_and] at hrow ⊢
    intro _ hkey
    rw [hrow.2] at hkey
    have hsort := congrArg Prod.snd hkey
    simp only [Database.key] at hsort
    have hsort2 : some (AttributeValue.S uID) = some (AttributeValue.S (uID ++ ":" ++ voID)) :=
      hsort
    simp only [Option.some.injEq, AttributeValue.S.injEq] at hsort2
    exact id_ne_sortKey uID voID hsort2
  · intro other hother
    rw [getUserVOMemberships_up, getUserVOMemberships_up, filter_filter_of_imp]
    intro row hrow
    simp only [Bool.and_eq_true, decide_eq_true_eq, Database.satisfies] at hrow
    obtain ⟨_, hid, _⟩ := hrow
    simp only [Database.isAt, Bool.not_eq_true', decide_eq_false_iff_not, not_and]
    intro _ hkey
    have hfirst := congrArg Prod.fst hkey
    simp only [Database.key] at hfirst
    rw [hid] at hfirst
    have hfirst2 : some (AttributeValue.S other) = some (AttributeValue.S uID) := hfirst
    simp only [Option.some.injEq, AttributeValue.S.injEq] at hfirst2
    exact hother hfirst2

/-- The witness of C20: `User_bob`, who has a user record and no membership, is added to
`VO_1` and removed again, in a database that also holds a membership of `User_fred`. -/
theorem removeUserFromVO_undoes_addUserToVO_witness :
    PersistentStore.getUserVOMemberships (Database.client true)
        (PersistentStore.removeUserFromVO (Database.client true)
          (PersistentStore.addUserToVO (Database.client true)
            [("SLATE_users", [("ID", AttributeValue.S "User_bob"),
                ("sortKey", AttributeValue.S "User_bob"), ("name", AttributeValue.S "Bob"),
                ("email", AttributeValue.S "bob@place.com")]),
             ("SLATE_users", [("ID", AttributeValue.S "User_fred"),
                ("sortKey", AttributeValue.S "User_fred:VO_1"),
                ("voID", AttributeValue.S "VO_1")])]
            "User_bob" "VO_1").2 "User_bob" "VO_1").2 "User_bob" = []
    ∧ PersistentStore.getUserVOMemberships (Database.client true)
        (PersistentStore.addUserToVO (Database.client true)
            [("SLATE_users", [("ID", AttributeValue.S "User_bob"),
                ("sortKey", AttributeValue.S "User_bob"), ("name", AttributeValue.S "Bob"),
                ("email", AttributeValue.S "bob@place.com")]),
             ("SLATE_users", [("ID", AttributeValue.S "User_fred"),
                ("sortKey", AttributeValue.S "User_fred:VO_1"),
                ("voID", AttributeValue.S "VO_1")])]
            "User_bob" "VO_1").2 "User_bob" = ["VO_1"] :=
  ⟨(removeUserFromVO_undoes_addUserToVO
      [("SLATE_users", [("ID", AttributeValue.S "User_bob"),
          ("sortKey", AttributeValue.S "User_bob"), ("name", AttributeValue.S "Bob"),
          ("email", AttributeValue.S "bob@place.com")]),
       ("SLATE_users", [("ID", AttributeValue.S "User_fred"),
          ("sortKey", AttributeValue.S "User_fred:VO_1"),
          ("voID", AttributeValue.S "VO_1")])]
      true "User_bob" "VO_1" (by decide) (by decide) (by decide)).2.2.1 (by decide),
   by decide⟩

/-! ### Pagination (C17, C18, C19) -/

/-- C18 (the code at the failing input): the members of `VO_1` and the memberships of
`User_1` come in two query pages; the first page carries a non-empty key to continue from.
`getMembersOfVO` returns the member of the first page only, though the query continued from
that key returns `User_2`; `getUserVOMemberships` returns the VO of the first page only,
though the continued query returns `VO_2`. -/
theorem membership_queries_stop_after_first_page :
    ((Scenario.pagedClient (.ok Scenario.secondPage)).Query ()
        { tableName := PersistentStore.userTableName, indexName := some "ByVO"
          keyCondition := KeyCondition.equals "voID" (AttributeValue.S "VO_1") })
      = .ok { items := [Scenario.membershipItem "User_1" "VO_1"],
              lastEvaluatedKey := Scenario.firstKey }
    ∧ Scenario.firstKey ≠ []
    ∧ ((Scenario.pagedClient (.ok Scenario.secondPage)).Query ()
        { tableName := PersistentStore.userTableName, indexName := some "ByVO"
          keyCondition := KeyCondition.equals "voID" (AttributeValue.S "VO_1")
          exclusiveStartKey := Scenario.firstKey })
      = .ok { items := [Scenario.membershipItem "User_2" "VO_1"] }
    ∧ PersistentStore.getMembersOfVO (Scenario.pagedClient (.ok Scenario.secondPage)) () "VO_1"
      = Run.returned ["User_1"]
    ∧ ((Scenario.pagedClient (.ok Scenario.secondPage)).Query ()
        { tableName := PersistentStore.userTableName
          keyCondition := KeyCondition.equalsAndBeginsWith "ID" (AttributeValue.S "User_1")
            "sortKey" (AttributeValue.S "User_1:VO")
          exclusiveStartKey := Scenario.firstKey })
      = .ok { items := [Scenario.membershipItem "User_1" "VO_2"] }
    ∧ PersistentStore.getUserVOMemberships (Scenario.pagedClient (.ok Scenario.secondPage)) ()
        "User_1" = ["VO_1"] := by
  refine ⟨by rfl, by decide, by rfl, by decide, by rfl, by decide⟩

/-- The membership queries read the first page only: two database clients that answer the
queries without a key to continue from alike give the same members and memberships,
whatever they answer to continued queries. -/
theorem membership_queries_read_first_page {σ : Type} (first second : DynamoDBClient σ)
    (db : σ) (id : String)
    (h : ∀ request : QueryRequest, request.exclusiveStartKey = [] →
      first.Query db request = second.Query db request) :
    PersistentStore.getMembersOfVO first db id = PersistentStore.getMembersOfVO second db id
    ∧ PersistentStore.getUserVOMemberships first db id
      = PersistentStore.getUserVOMemberships second db id := by
  constructor
  · simp only [PersistentStore.getMembersOfVO]
    rw [h _ rfl]
  · simp only [PersistentStore.getUserVOMemberships]
    rw [h _ rfl]

/-- The values read from two lists of items, one after the other. -/
theorem readAll_append {α : Type} (read : Item → Option α) (first second : List Item)
    (values : List α) (h : readAll read (first ++ second) = some values) :
    ∃ x y, readAll read first = some x ∧ readAll read second = some y ∧ values = x ++ y := by
  induction first generalizing values with
  | nil => exact ⟨[], values, rfl, by simpa using h, rfl⟩
  | cons item rest ih =>
    simp only [List.cons_append, readAll, List.append_eq] at h
    cases hitem : read item with
    | none => simp [hitem] at h
    | some a =>
      simp only [hitem] at h
      cases hrest : readAll read (rest ++ second) with
      | none => simp [hrest] at h
      | some others =>
        simp only [hrest, Option.some.injEq] at h
        obtain ⟨x, y, hx, hy, hxy⟩ := ih others hrest
        exact ⟨a :: x, y, by simp [readAll, hitem, hx], hy, by simp [← h, hxy]⟩

/-- The values that `readAll` returns are the values read from the items, in order. -/
theorem readAll_eq_some {α : Type} (read : Item → Option α) (items : List Item)
    (values : List α) (h : readAll read items = some values) :
    values.map some = items.map read := by
  induction items generalizing values with
  | nil => simp only [readAll, Option.some.injEq] at h; simp [← h]
  | cons item rest ih =>
    simp only [readAll] at h
    cases hitem : read item with
    | none => simp [hitem] at h
    | some a =>
      simp only [hitem] at h
      cases hrest : readAll read rest with
      | none => simp [hrest] at h
      | some others =>
        simp only [hrest, Option.some.injEq] at h
        simp [← h, hitem, ih others hrest]

/-- Every item is read when each of them has what is read. -/
theorem readAll_isSome {α : Type} (read : Item → Option α) (items : List Item)
    (h : ∀ item ∈ items, (read item).isSome) : ∃ values, readAll read items = some values := by
  induction items with
  | nil => exact ⟨[], rfl⟩
  | cons item rest ih =>
    obtain ⟨a, ha⟩ := Option.isSome_iff_exists.mp (h item (List.mem_cons_self _ _))
    obtain ⟨others, hothers⟩ := ih (fun i hi => h i (List.mem_cons_of_mem _ hi))
    exact ⟨a :: others, by simp [readAll, ha, hothers]⟩

/-- The loop of `listUsers` on a scan that is served page by page. -/
theorem listUsers_loop_serves {σ : Type} (dbClient : DynamoDBClient σ) (db : σ) :
    ∀ (pages : List ScanResult) (request : ScanRequest) (collected : List User) (fuel : Nat)
      (users : List User),
      PersistentStore.ScanServes dbClient db request pages → pages.length ≤ fuel →
      readAll PersistentStore.listUsers.user (PersistentStore.allItems pages) = some users →
      PersistentStore.listUsers.loop dbClient db fuel request collected
        = Run.returned (collected ++ users) := by
  intro pages
  induction pages with
  | nil => intro _ _ _ _ h; exact absurd h (by simp [PersistentStore.ScanServes])
  | cons page rest ih =>
    intro request collected fuel users hserves hfuel hread
    cases fuel with
    | zero => simp at hfuel
    | succ fuel =>
      cases rest with
      | nil =>
        obtain ⟨hscan, hkey⟩ := hserves
        simp only [PersistentStore.allItems, List.flatMap_cons, List.flatMap_nil,
          List.append_nil] at hread
        simp [PersistentStore.listUsers.loop, hscan, hkey, hread]
      | cons next rest =>
        obtain ⟨hscan, hkey, hrest⟩ := hserves
        simp only [PersistentStore.allItems, List.flatMap_cons] at hread
        obtain ⟨x, y, hx, hy, hxy⟩ := readAll_append _ _ _ _ hread
        have hnext := ih _ (collected ++ x) fuel y hrest
          (by simpa using hfuel) (by simpa [PersistentStore.allItems] using hy)
        have hempty : page.lastEvaluatedKey.isEmpty = false := by
          cases hk : page.lastEvaluatedKey with
          | nil => exact absurd hk hkey
          | cons _ _ => rfl
        simp only [PersistentStore.listUsers.loop, hscan, hempty, hx]
        simpa [hxy] using hnext

/-- The loop of `listVOs` on a scan that is served page by page. -/
theorem listVOs_loop_serves {σ : Type} (dbClient : DynamoDBClient σ) (db : σ) :
    ∀ (pages : List ScanResult) (request : ScanRequest) (collected : List VO) (fuel : Nat)
      (vos : List VO),
      PersistentStore.ScanServes dbClient db request pages → pages.length ≤ fuel →
      readAll PersistentStore.listVOs.vo (PersistentStore.allItems pages) = some vos →
      PersistentStore.listVOs.loop dbClient db fuel request collected
        = Run.returned (collected ++ vos) := by
  intro pages
  induction pages with
  | nil => intro _ _ _ _ h; exact absurd h (by simp [PersistentStore.ScanServes])
  | cons page rest ih =>
    intro request collected fuel vos hserves hfuel hread
    cases fuel with
    | zero => simp at hfuel
    | succ fuel =>
      cases rest with
      | nil =>
        obtain ⟨hscan, hkey⟩ := hserves
        simp only [PersistentStore.allItems, List.flatMap_cons, List.flatMap_nil,
          List.append_nil] at hread
        simp [PersistentStore.listVOs.loop, hscan, hkey, hread]
      | cons next rest =>
        obtain ⟨hscan, hkey, hrest⟩ := hserves
        simp only [PersistentStore.allItems, List.flatMap_cons] at hread
        obtain ⟨x, y, hx, hy, hxy⟩ := readAll_append _ _ _ _ hread
        have hnext := ih _ (collected ++ x) fuel y hrest
          (by simpa using hfuel) (by simpa [PersistentStore.allItems] using hy)
        have hempty : page.lastEvaluatedKey.isEmpty = false := by
          cases hk : page.lastEvaluatedKey with
          | nil => exact absurd hk hkey
          | cons _ _ => rfl
        simp only [PersistentStore.listVOs.loop, hscan, hempty, hx]
        simpa [hxy] using hnext

/-- C17: when the scan of the user table is served as a finite sequence of pages, each but
the last with a non-empty key from which the next request continues, and likewise the scan
of the VO table, and every item has the attributes that are read, then `listUsers` and
`listVOs` return once the fuel covers the pages, and they return the users and VOs of the
items of all pages, in order, one for each item; so the result depends on the items only,
not on how they are split into pages. -/
theorem listUsers_listVOs_return_all_pages {σ : Type} (dbClient : DynamoDBClient σ) (db : σ)
    (fuel : Nat) (userPages voPages : List ScanResult)
    (husers : PersistentStore.ScanServes dbClient db PersistentStore.listUsers.request userPages)
    (hvos : PersistentStore.ScanServes dbClient db PersistentStore.listVOs.request voPages)
    (huserFuel : userPages.length ≤ fuel) (hvoFuel : voPages.length ≤ fuel)
    (huserItems : ∀ item ∈ PersistentStore.allItems userPages,
      (PersistentStore.listUsers.user item).isSome)
    (hvoItems : ∀ item ∈ PersistentStore.allItems voPages,
      (PersistentStore.listVOs.vo item).isSome) :
    (∃ users, PersistentStore.listUsers dbClient db fuel = Run.returned users
      ∧ users.map some = (PersistentStore.allItems userPages).map PersistentStore.listUsers.user
      ∧ users.length = (PersistentStore.allItems userPages).length)
    ∧ (∃ vos, PersistentStore.listVOs dbClient db fuel = Run.returned vos
      ∧ vos.map some = (PersistentStore.allItems voPages).map PersistentStore.listVOs.vo
      ∧ vos.length = (PersistentStore.allItems voPages).length) := by
  constructor
  · obtain ⟨users, hread⟩ := readAll_isSome _ _ huserItems
    have hmap := readAll_eq_some _ _ _ hread
    refine ⟨users, ?_, hmap, ?_⟩
    · simpa [PersistentStore.listUsers] using
        listUsers_loop_serves dbClient db userPages _ [] fuel users husers huserFuel hread
    · simpa using congrArg List.length hmap
  · obtain ⟨vos, hread⟩ := readAll_isSome _ _ hvoItems
    have hmap := readAll_eq_some _ _ _ hread
    refine ⟨vos, ?_, hmap, ?_⟩
    · simpa [PersistentStore.listVOs] using
        listVOs_loop_serves dbClient db voPages _ [] fuel vos hvos hvoFuel hread
    · simpa using congrArg List.length hmap

/-- C17 at a concrete input: the client of the scenario serves the table in two pages, and
the listings return the entries of both. -/
theorem listUsers_listVOs_return_all_pages_witness :
    PersistentStore.ScanServes (Scenario.pagedClient (.ok Scenario.secondPage)) ()
        PersistentStore.listUsers.request [Scenario.firstPage, Scenario.secondPage]
    ∧ PersistentStore.ScanServes (Scenario.pagedClient (.ok Scenario.secondPage)) ()
        PersistentStore.listVOs.request [Scenario.firstPage, Scenario.secondPage]
    ∧ ((∃ users, PersistentStore.listUsers (Scenario.pagedClient (.ok Scenario.secondPage)) () 2
          = Run.returned users
        ∧ users.map some
          = (PersistentStore.allItems [Scenario.firstPage, Scenario.secondPage]).map
              PersistentStore.listUsers.user
        ∧ users.length
          = (PersistentStore.allItems [Scenario.firstPage, Scenario.secondPage]).length)
      ∧ (∃ vos, PersistentStore.listVOs (Scenario.pagedClient (.ok Scenario.secondPage)) () 2
          = Run.returned vos
        ∧ vos.map some
          = (PersistentStore.allItems [Scenario.firstPage, Scenario.secondPage]).map
              PersistentStore.listVOs.vo
        ∧ vos.length
          = (PersistentStore.allItems [Scenario.firstPage, Scenario.secondPage]).length)) :=
  ⟨⟨rfl, by decide, rfl, rfl⟩, ⟨rfl, by decide, rfl, rfl⟩,
    listUsers_listVOs_return_all_pages (Scenario.pagedClient (.ok Scenario.secondPage)) () 2
      [Scenario.firstPage, Scenario.secondPage] [Scenario.firstPage, Scenario.secondPage]
      ⟨rfl, by decide, rfl, rfl⟩ ⟨rfl, by decide, rfl, rfl⟩ (by decide) (by decide)
      (by decide) (by decide)⟩

/-- The loop of `listUsers` on a scan that fails after some pages. -/
theorem listUsers_loop_fails {σ : Type} (dbClient : DynamoDBClient σ) (db : σ) :
    ∀ (pages : List ScanResult) (request : ScanRequest) (collected : List User) (fuel : Nat)
      (users : List User),
      PersistentStore.ScanFailsAfter dbClient db request pages → pages.length < fuel →
      readAll PersistentStore.listUsers.user (PersistentStore.allItems pages) = some users →
      PersistentStore.listUsers.loop dbClient db fuel request collected
        = Run.returned (collected ++ users) := by
  intro pages
  induction pages with
  | nil =>
    intro request collected fuel users hfails hfuel hread
    obtain ⟨what, hscan⟩ := hfails
    cases fuel with
    | zero => simp at hfuel
    | succ fuel =>
      simp only [PersistentStore.allItems, List.flatMap_nil, readAll, Option.some.injEq] at hread
      simp [PersistentStore.listUsers.loop, hscan, ← hread]
  | cons page rest ih =>
    intro request collected fuel users hfails hfuel hread
    cases fuel with
    | zero => simp at hfuel
    | succ fuel =>
      obtain ⟨hscan, hkey, hrest⟩ := hfails
      simp only [PersistentStore.allItems, List.flatMap_cons] at hread
      obtain ⟨x, y, hx, hy, hxy⟩ := readAll_append _ _ _ _ hread
      have hnext := ih _ (collected ++ x) fuel y hrest
        (by simpa using hfuel) (by simpa [PersistentStore.allItems] using hy)
      have hempty : page.lastEvaluatedKey.isEmpty = false := by
        cases hk : page.lastEvaluatedKey with
        | nil => exact absurd hk hkey
        | cons _ _ => rfl
      simp only [PersistentStore.listUsers.loop, hscan, hempty, hx]
      simpa [hxy] using hnext

/-- The loop of `listVOs` on a scan that fails after some pages. -/
theorem listVOs_loop_fails {σ : Type} (dbClient : DynamoDBClient σ) (db : σ) :
    ∀ (pages : List ScanResult) (request : ScanRequest) (collected : List VO) (fuel : Nat)
      (vos : List VO),
      PersistentStore.ScanFailsAfter dbClient db request pages → pages.length < fuel →
      readAll PersistentStore.listVOs.vo (PersistentStore.allItems pages) = some vos →
      PersistentStore.listVOs.loop dbClient db fuel request collected
        = Run.returned (collected ++ vos) := by
  intro pages
  induction pages with
  | nil =>
    intro request collected fuel vos hfails hfuel hread
    obtain ⟨what, hscan⟩ := hfails
    cases fuel with
    | zero => simp at hfuel
    | succ fuel =>
      simp only [PersistentStore.allItems, List.flatMap_nil, readAll, Option.some.injEq] at hread
      simp [PersistentStore.listVOs.loop, hscan, ← hread]
  | cons page rest ih =>
    intro request collected fuel vos hfails hfuel hread
    cases fuel with
    | zero => simp at hfuel
    | succ fuel =>
      obtain ⟨hscan, hkey, hrest⟩ := hfails
      simp only [PersistentStore.allItems, List.flatMap_cons] at hread
      obtain ⟨x, y, hx, hy, hxy⟩ := readAll_append _ _ _ _ hread
      have hnext := ih _ (collected ++ x) fuel y hrest
        (by simpa using hfuel) (by simpa [PersistentStore.allItems] using hy)
      have hempty : page.lastEvaluatedKey.isEmpty = false := by
        cases hk : page.lastEvaluatedKey with
        | nil => exact absurd hk hkey
        | cons _ _ => rfl
      simp only [PersistentStore.listVOs.loop, hscan, hempty, hx]
      simpa [hxy] using hnext

/-- C19 (counterexample): the table of the scenario holds `User_1` and `User_2`, read in
two pages.  When both scans succeed the listings have two entries; when the second scan
fails, `listUsers` and `listVOs` return the entry of the first page alone, a proper
non-empty part of the full listing, as an ordinary result. -/
theorem listings_return_the_pages_before_a_failed_scan :
    PersistentStore.listUsers (Scenario.pagedClient (.ok Scenario.secondPage)) () 2
      = Run.returned
          [{ valid := true, id := "User_1", name := "Bob", email := "bob@place.com" },
           { valid := true, id := "User_2", name := "Fred", email := "fred@place.com" }]
    ∧ PersistentStore.listUsers (Scenario.pagedClient (.error "throttled")) () 2
      = Run.returned [{ valid := true, id := "User_1", name := "Bob", email := "bob@place.com" }]
    ∧ PersistentStore.listVOs (Scenario.pagedClient (.ok Scenario.secondPage)) () 2
      = Run.returned
          [{ valid := true, id := "User_1", name := "Bob" },
           { valid := true, id := "User_2", name := "Fred" }]
    ∧ PersistentStore.listVOs (Scenario.pagedClient (.error "throttled")) () 2
      = Run.returned [{ valid := true, id := "User_1", name := "Bob" }] := by
  refine ⟨by decide, by decide, by decide, by decide⟩

/-- C19 (amended): when the scans of the user table and of the VO table are served some
pages, each with a non-empty key from which the next request continues, and the scan call
after them fails, and every item has the attributes that are read, then `listUsers` and
`listVOs` return, as an ordinary result, the users and VOs of the items of the pages
served before the failure. -/
theorem listings_return_collected_on_failed_scan {σ : Type} (dbClient : DynamoDBClient σ)
    (db : σ) (fuel : Nat) (userPages voPages : List ScanResult)
    (husers : PersistentStore.ScanFailsAfter dbClient db PersistentStore.listUsers.request
      userPages)
    (hvos : PersistentStore.ScanFailsAfter dbClient db PersistentStore.listVOs.request voPages)
    (huserFuel : userPages.length < fuel) (hvoFuel : voPages.length < fuel)
    (huserItems : ∀ item ∈ PersistentStore.allItems userPages,
      (PersistentStore.listUsers.user item).isSome)
    (hvoItems : ∀ item ∈ PersistentStore.allItems voPages,
      (PersistentStore.listVOs.vo item).isSome) :
    (∃ users, PersistentStore.listUsers dbClient db fuel = Run.returned users
      ∧ users.map some = (PersistentStore.allItems userPages).map PersistentStore.listUsers.user)
    ∧ (∃ vos, PersistentStore.listVOs dbClient db fuel = Run.returned vos
      ∧ vos.map some = (PersistentStore.allItems voPages).map PersistentStore.listVOs.vo) := by
  constructor
  · obtain ⟨users, hread⟩ := readAll_isSome _ _ huserItems
    refine ⟨users, ?_, readAll_eq_some _ _ _ hread⟩
    simpa [PersistentStore.listUsers] using
      listUsers_loop_fails dbClient db userPages _ [] fuel users husers huserFuel hread
  · obtain ⟨vos, hread⟩ := readAll_isSome _ _ hvoItems
    refine ⟨vos, ?_, readAll_eq_some _ _ _ hread⟩
    simpa [PersistentStore.listVOs] using
      listVOs_loop_fails dbClient db voPages _ [] fuel vos hvos hvoFuel hread

/-- C19 (amended) at a concrete input: the second scan of the scenario fails, and the
listings return the entry of the first page. -/
theorem listings_return_collected_on_failed_scan_witness :
    PersistentStore.ScanFailsAfter (Scenario.pagedClient (.error "throttled")) ()
        PersistentStore.listUsers.request [Scenario.firstPage]
    ∧ PersistentStore.ScanFailsAfter (Scenario.pagedClient (.error "throttled")) ()
        PersistentStore.listVOs.request [Scenario.firstPage]
    ∧ ((∃ users, PersistentStore.listUsers (Scenario.pagedClient (.error "throttled")) () 2
          = Run.returned users
        ∧ users.map some
          = (PersistentStore.allItems [Scenario.firstPage]).map PersistentStore.listUsers.user)
      ∧ (∃ vos, PersistentStore.listVOs (Scenario.pagedClient (.error "throttled")) () 2
          = Run.returned vos
        ∧ vos.map some
          = (PersistentStore.allItems [Scenario.firstPage]).map PersistentStore.listVOs.vo)) :=
  ⟨⟨rfl, by decide, "throttled", rfl⟩, ⟨rfl, by decide, "throttled", rfl⟩,
    listings_return_collected_on_failed_scan (Scenario.pagedClient (.error "throttled")) () 2
      [Scenario.firstPage] [Scenario.firstPage]
      ⟨rfl, by decide, "throttled", rfl⟩ ⟨rfl, by decide, "throttled", rfl⟩
      (by decide) (by decide) (by decide) (by decide)⟩

/-! ### The list policy (C12) -/

/-- C12: for an authenticated user and an existing VO, `listSecrets` answers 403 exactly
when the user is neither an administrator nor a member of the VO; otherwise it answers 200
with a document whose `items` array is the entry of each secret that the store returns for
the VO id and the optional cluster, one for one and in the same order.  The store is not
changed. -/
theorem listSecrets_policy (env : Env) (w : World) (req : request) (voRaw : String)
    (hauth : (requester env w req).valid = true)
    (hvo : req.get "vo" = some voRaw)
    (hvalid : (w.store.getVO (cstr voRaw)).valid = true) :
    ((listSecrets env w req).1.code = some 403 ↔
      ((requester env w req).admin = false
        ∧ w.store.userInVO (requester env w req).id (w.store.getVO (cstr voRaw)).id = false))
    ∧ (¬ ((requester env w req).admin = false
        ∧ w.store.userInVO (requester env w req).id (w.store.getVO (cstr voRaw)).id = false) →
      (listSecrets env w req).1.code = some 200
      ∧ (listSecrets env w req).1.items
        = some ((w.store.listSecrets (w.store.getVO (cstr voRaw)).id
            (listSecrets.cluster req)).map (listSecrets.item w.store)))
    ∧ (listSecrets env w req).2 = w := by
  simp only [requester] at hauth ⊢
  by_cases hrefused : (env.authenticateUser w.store (req.get "token")).admin = false
      ∧ w.store.userInVO (env.authenticateUser w.store (req.get "token")).id
        (w.store.getVO (cstr voRaw)).id = false
  · obtain ⟨hadmin, hmember⟩ := hrefused
    simp [listSecrets, hauth, hvo, hvalid, hadmin, hmember, reply, Outcome.code]
  · have hpass : (!(env.authenticateUser w.store (req.get "token")).admin
        && !w.store.userInVO (env.authenticateUser w.store (req.get "token")).id
          (w.store.getVO (cstr voRaw)).id) = false := by
      cases hadmin : (env.authenticateUser w.store (req.get "token")).admin
      · cases hmember : w.store.userInVO (env.authenticateUser w.store (req.get "token")).id
          (w.store.getVO (cstr voRaw)).id
        · exact absurd ⟨hadmin, hmember⟩ hrefused
        · rfl
      · rfl
    have hrun : listSecrets env w req
        = (reply 200 (Body.document (Value.object [
            ("apiVersion", Value.string "v1alpha1"),
            ("items", Value.array ((w.store.listSecrets (w.store.getVO (cstr voRaw)).id
              (listSecrets.cluster req)).map (listSecrets.item w.store)))])), w) := by
      simp only [listSecrets, hauth, hvo, hvalid, hpass, Bool.not_true, Bool.false_eq_true,
        if_false]
      rfl
    rw [hrun]
    refine ⟨?_, fun _ => ⟨rfl, ?_⟩, rfl⟩
    · simp [hrefused, reply, Outcome.code]
    · simp [reply, Outcome.items]

/-- C12 at concrete inputs: `alice`, a member of `vo1`, and the administrator `root` are
given the one secret of `vo1`; `carol`, who is neither, is refused. -/
theorem listSecrets_policy_witness :
    ((listSecrets (Scenario.env Value.null [] Scenario.success) Scenario.world
        (Scenario.listingOf "token-alice" "vo1")).1.items
      = some [listSecrets.item Scenario.store Scenario.secret1])
    ∧ ((listSecrets (Scenario.env Value.null [] Scenario.success) Scenario.world
        (Scenario.listingOf "token-root" "vo1")).1.items
      = some [listSecrets.item Scenario.store Scenario.secret1])
    ∧ (listSecrets (Scenario.env Value.null [] Scenario.success) Scenario.world
        (Scenario.listingOf "token-carol" "vo1")).1.code = some 403 :=
  have member := listSecrets_policy (Scenario.env Value.null [] Scenario.success)
    Scenario.world (Scenario.listingOf "token-alice" "vo1") "vo1" (by decide) (by rfl)
    (by decide)
  have administrator := listSecrets_policy (Scenario.env Value.null [] Scenario.success)
    Scenario.world (Scenario.listingOf "token-root" "vo1") "vo1" (by decide) (by rfl)
    (by decide)
  have neither := listSecrets_policy (Scenario.env Value.null [] Scenario.success)
    Scenario.world (Scenario.listingOf "token-carol" "vo1") "vo1" (by decide) (by rfl)
    (by decide)
  ⟨(member.2.1 (by decide)).2, (administrator.2.1 (by decide)).2,
    neither.1.mpr (by decide)⟩

/-! ### Persist before provision (C11) -/

/-- The calls of `createSecret.provision`: the first is `addSecret` for the record, no
later one is an `addSecret`, and when the record cannot be written there is no later call
and the answer is 500. -/
theorem provision_trace (env : Env) (w : World) (body : Value) (secret : Secret) (vo : VO)
    (cluster : Cluster) :
    ∃ rest, (createSecret.provision env w body secret vo cluster).2.trace
        = w.trace ++ Event.addSecret secret :: rest
      ∧ (∀ s, Event.addSecret s ∉ rest)
      ∧ (env.putItem w.trace secret = false →
          rest = [] ∧ (createSecret.provision env w body secret vo cluster).1
            = reply 500 (generateError "Failed to store secret to the persistent store")) := by
  simp only [createSecret.provision, PersistentStore.addSecret, PersistentStore.removeSecret]
  cases hadd : env.putItem w.trace secret
  · exact ⟨[], by simp, by simp, fun _ => ⟨rfl, by simp⟩⟩
  · simp only [Bool.not_true, Bool.false_eq_true, if_false, if_true]
    repeat' split
    all_goals
      simp only [List.append_assoc, List.cons_append, List.nil_append,
        List.append_cancel_left_eq, List.cons.injEq, true_and]
      simp

/-- The calls of `createSecret.materialize`: none, or the decryption of the source
secret. -/
theorem materialize_trace (env : Env) (w : World) (user : User) (body : Value)
    (secret : Secret) :
    (createSecret.materialize env w user body secret).2.trace = w.trace
    ∨ ∃ s, (createSecret.materialize env w user body secret).2.trace
        = w.trace ++ [Event.decryptSecret s] := by
  simp only [createSecret.materialize]
  repeat' split
  all_goals simp

/-- The calls of `createSecret`, after those made before it: none; or the decryption of
a source secret alone; or, possibly after such a decryption, `addSecret` for a record,
followed by calls none of which is an `addSecret`, and by no call at all, with the answer
500, when the record could not be written. -/
theorem createSecret_trace (env : Env) (w : World) (req : request) :
    (createSecret env w req).2.trace = w.trace
    ∨ (∃ s, (createSecret env w req).2.trace = w.trace ++ [Event.decryptSecret s])
    ∨ ∃ before secret rest, (before = [] ∨ ∃ s, before = [Event.decryptSecret s])
        ∧ (createSecret env w req).2.trace = w.trace ++ (before ++ Event.addSecret secret :: rest)
        ∧ (∀ s, Event.addSecret s ∉ rest)
        ∧ (env.putItem (w.trace ++ before) secret = false →
            rest = [] ∧ (createSecret env w req).1
              = reply 500 (generateError "Failed to store secret to the persistent store")) := by
  simp only [createSecret]
  split
  · exact Or.inl rfl
  split
  · exact Or.inl rfl
  split
  · exact Or.inl rfl
  rename_i body secret0 _ _ vo cluster secret _
  simp only [createSecret.fromDuplicateCheck]
  split
  · exact Or.inl rfl
  have hmat := materialize_trace env w (env.authenticateUser w.store (req.get "token")) body
    secret
  split
  · rename_i o w1 heq
    rw [heq] at hmat
    rcases hmat with h | ⟨s, h⟩
    · exact Or.inl h
    · exact Or.inr (Or.inl ⟨s, h⟩)
  · rename_i body1 secret1 w1 heq
    rw [heq] at hmat
    obtain ⟨rest, htrace, hnone, hfail⟩ := provision_trace env w1 body1 secret1 vo cluster
    refine Or.inr (Or.inr ?_)
    rcases hmat with h | ⟨s, h⟩
    · simp only at h
      refine ⟨[], secret1, rest, Or.inl rfl, ?_, hnone, ?_⟩
      · rw [htrace, h]; rfl
      · rw [List.append_nil, ← h]; exact hfail
    · simp only at h
      refine ⟨[Event.decryptSecret s], secret1, rest, Or.inr ⟨s, rfl⟩, ?_, hnone, ?_⟩
      · rw [htrace, h]; simp
      · rw [← h]; exact hfail

/-- C11: in the calls that `createSecret` makes, every call to the cluster agent (a
namespace creation or a `kubectl` call) comes after an `addSecret` that succeeded; and when
the `addSecret` fails, the handler answers 500 with the message of line 267, `addSecret` is
its last call, and no call before it went to the cluster agent. -/
theorem createSecret_persists_before_provisioning (env : Env) (w : World) (req : request) :
    (∀ pre e post, (createSecret env w req).2.trace = w.trace ++ (pre ++ e :: post) →
      e.isClusterCall = true →
      ∃ before secret after, pre = before ++ Event.addSecret secret :: after
        ∧ env.putItem (w.trace ++ before) secret = true)
    ∧ (∀ before secret after,
      (createSecret env w req).2.trace = w.trace ++ (before ++ Event.addSecret secret :: after) →
      env.putItem (w.trace ++ before) secret = false →
      (createSecret env w req).1
        = reply 500 (generateError "Failed to store secret to the persistent store")
      ∧ after = [] ∧ ∀ e ∈ before, e.isClusterCall = false) := by
  rcases createSecret_trace env w req with h | ⟨s, h⟩ | ⟨m, record, rest, hm, h, hnone, hfail⟩
  · constructor
    · intro pre e post htrace _
      rw [h] at htrace
      have := congrArg List.length htrace
      simp at this
    · intro before secret after htrace _
      rw [h] at htrace
      have := congrArg List.length htrace
      simp at this
  · constructor
    · intro pre e post htrace hcall
      rw [h, List.append_cancel_left_eq] at htrace
      cases pre with
      | nil =>
        simp only [List.nil_append, List.cons.injEq] at htrace
        rw [← htrace.1] at hcall
        simp [Event.isClusterCall] at hcall
      | cons x pre =>
        have := congrArg List.length htrace
        simp at this
    · intro before secret after htrace _
      rw [h, List.append_cancel_left_eq] at htrace
      cases before with
      | nil => simp at htrace
      | cons x before =>
        have := congrArg List.length htrace
        simp at this
  · rw [h]
    constructor
    · intro pre e post htrace hcall
      rw [List.append_cancel_left_eq] at htrace
      have hwritten : env.putItem (w.trace ++ m) record = true ∨ rest = [] := by
        cases hput : env.putItem (w.trace ++ m) record
        · exact Or.inr (hfail hput).1
        · exact Or.inl rfl
      rcases hm with hm | ⟨s, hm⟩
      · subst hm
        cases pre with
        | nil =>
          simp only [List.nil_append, List.cons.injEq] at htrace
          rw [← htrace.1] at hcall
          simp [Event.isClusterCall] at hcall
        | cons x pre =>
          simp only [List.nil_append, List.cons_append, List.cons.injEq] at htrace
          obtain ⟨hx, hrest⟩ := htrace
          rcases hwritten with hput | hempty
          · exact ⟨[], record, pre, by simp [hx], by simpa using hput⟩
          · rw [hempty] at hrest
            have := congrArg List.length hrest
            simp at this
            omega
      · subst hm
        cases pre with
        | nil =>
          simp only [List.nil_append, List.cons_append, List.cons.injEq] at htrace
          rw [← htrace.1] at hcall
          simp [Event.isClusterCall] at hcall
        | cons x pre =>
          cases pre with
          | nil =>
            simp only [List.nil_append, List.cons_append, List.cons.injEq] at htrace
            rw [← htrace.2.1] at hcall
            simp [Event.isClusterCall] at hcall
          | cons y pre =>
            simp only [List.nil_append, List.cons_append, List.cons.injEq] at htrace
            obtain ⟨hx, hy, hrest⟩ := htrace
            rcases hwritten with hput | hempty
            · exact ⟨[Event.decryptSecret s], record, pre, by simp [hx, hy], hput⟩
            · rw [hempty] at hrest
              have := congrArg List.length hrest
              simp at this
              omega
    · intro before secret after htrace hput
      rw [List.append_cancel_left_eq] at htrace
      have hsame : before = m ∧ secret = record ∧ after = rest := by
        rcases hm with hm | ⟨s, hm⟩
        · subst hm
          cases before with
          | nil => simpa using htrace.symm
          | cons x before =>
            simp only [List.nil_append, List.cons_append, List.cons.injEq] at htrace
            exact absurd (htrace.2 ▸ (by simp : Event.addSecret secret
              ∈ before ++ Event.addSecret secret :: after)) (hnone secret)
        · subst hm
          cases before with
          | nil => simp at htrace
          | cons x before =>
            cases before with
            | nil =>
              simp only [List.nil_append, List.cons_append, List.cons.injEq] at htrace
              obtain ⟨hx, hsecret, hafter⟩ := htrace
              simp only [Event.addSecret.injEq] at hsecret
              exact ⟨by rw [hx], hsecret.symm, hafter.symm⟩
            | cons y before =>
              simp only [List.nil_append, List.cons_append, List.cons.injEq] at htrace
              exact absurd (htrace.2.2 ▸ (by simp : Event.addSecret secret
                ∈ before ++ Event.addSecret secret :: after)) (hnone secret)
      obtain ⟨hbefore, hsecret, hafter⟩ := hsame
      subst hbefore hsecret hafter
      obtain ⟨hempty, hanswer⟩ := hfail hput
      refine ⟨hanswer, hempty, ?_⟩
      intro e he
      rcases hm with hm | ⟨s, hm⟩
      · rw [hm] at he; simp at he
      · rw [hm] at he
        simp only [List.mem_singleton] at he
        rw [he]; rfl

/-- C11 at concrete inputs: in a successful creation by `alice` the first
namespace-creation call comes after the `addSecret` of the record, which succeeded; and
when the database is down the answer is 500 and `addSecret` is the only call. -/
theorem createSecret_persists_before_provisioning_witness :
    (∃ before secret after,
      [Event.addSecret Scenario.apiKey]
        = before ++ Event.addSecret secret :: after
      ∧ (Scenario.env (Scenario.inlineBody "api-key" "cluster1" [("user", Value.string "admin")])
          [] Scenario.success).putItem (Scenario.world.trace ++ before) secret = true)
    ∧ (createSecret
        (Scenario.storeDown
          (Scenario.inlineBody "api-key" "cluster1" [("user", Value.string "admin")]))
        Scenario.world (Scenario.requestOf "token-alice" false)).1
      = reply 500 (generateError "Failed to store secret to the persistent store")
    ∧ (createSecret
        (Scenario.storeDown
          (Scenario.inlineBody "api-key" "cluster1" [("user", Value.string "admin")]))
        Scenario.world (Scenario.requestOf "token-alice" false)).2.trace
      = [Event.addSecret Scenario.apiKey] :=
  ⟨(createSecret_persists_before_provisioning
      (Scenario.env (Scenario.inlineBody "api-key" "cluster1" [("user", Value.string "admin")])
        [] Scenario.success)
      Scenario.world (Scenario.requestOf "token-alice" false)).1
      [Event.addSecret Scenario.apiKey]
      (Event.kubectl_create_namespace "Cluster_1.yaml" Scenario.vo1)
      ((createSecret
        (Scenario.env (Scenario.inlineBody "api-key" "cluster1" [("user", Value.string "admin")])
          [] Scenario.success)
        Scenario.world (Scenario.requestOf "token-alice" false)).2.trace.drop 2)
      (by rfl) (by rfl),
    ((createSecret_persists_before_provisioning
      (Scenario.storeDown
        (Scenario.inlineBody "api-key" "cluster1" [("user", Value.string "admin")]))
      Scenario.world (Scenario.requestOf "token-alice" false)).2 []
      Scenario.apiKey
      [] (by rfl) (by rfl)).1,
    by rfl⟩

/-! ### Copying a secret (C13) -/

/-- When `createSecret.provision` answers 200, the record was written and is the one the
store holds for its id. -/
theorem provision_ok (env : Env) (w : World) (body : Value) (secret : Secret) (vo : VO)
    (cluster : Cluster) (hvalid : secret.valid = true)
    (h : (createSecret.provision env w body secret vo cluster).1.code = some 200) :
    (createSecret.provision env w body secret vo cluster).2.store.getSecret secret.id
      = secret := by
  simp only [createSecret.provision, PersistentStore.addSecret, PersistentStore.removeSecret]
    at h ⊢
  cases hadd : env.putItem w.trace secret
  · simp [hadd, reply, Outcome.code] at h
  · simp only [hadd, Bool.not_true, Bool.false_eq_true, if_false, if_true] at h ⊢
    repeat' split at h
    all_goals first
      | (simp [reply, Outcome.code] at h; done)
      | skip
    · rename_i o hargs
      rw [arguments_error env body secret vo o hargs] at h
      simp [Outcome.code] at h
    · rename_i _ hfirst _ arguments hargs _ hrethrown _ result hkubectl hstatus
      simp only [hfirst, hargs, hrethrown, hkubectl, hstatus]
      cases secret
      simp only at hvalid
      simp [PersistentStore.getSecret, hvalid]

/-- In a list of calls that starts with a decryption and an `addSecret` and has no other
`addSecret`, every `addSecret` is that one. -/
theorem addSecret_after_decryption (source record secret : Secret)
    (rest before after : List Event) (hnone : ∀ s, Event.addSecret s ∉ rest)
    (h : Event.decryptSecret source :: Event.addSecret record :: rest
      = before ++ Event.addSecret secret :: after) :
    secret = record := by
  cases before with
  | nil => simp at h
  | cons x before =>
    cases before with
    | nil =>
      simp only [List.nil_append, List.cons_append, List.cons.injEq,
        Event.addSecret.injEq] at h
      exact h.2.1.symm
    | cons y before =>
      simp only [List.cons_append, List.cons.injEq] at h
      exact absurd (h.2.2 ▸ (by simp : Event.addSecret secret
        ∈ before ++ Event.addSecret secret :: after)) (hnone secret)

/-- The record of a copy: for a request that passes the shape validation, the authorization
for the target VO and the duplicate check, and that names a source secret in `copyFrom` and
has no contents: when the source does not exist the answer is 404, and when the requester
is not a member of the VO of the source the answer is 403, in both cases without any call;
otherwise every record that the handler writes to the store is the new record with the
stored payload of the source as its payload, that record is written once the source is
decrypted and parsed, and it is the record the store holds when the answer is 200. -/
theorem createSecret_copy_record (env : Env) (w : World) (req : request) (body : Value)
    (requested : Secret) (vo : VO) (cluster : Cluster) (resolved : Secret) (copyFrom : String)
    (hauth : (requester env w req).valid = true)
    (hshape : createSecret.shape env w.trace req = .ok (body, requested))
    (hauthz : createSecret.authorize w.store (requester env w req) requested
      = .ok (vo, cluster, resolved))
    (hdup : createSecret.checkDuplicate w.store vo resolved = .ok ())
    (hcontents : body.HasMember "contents" = .ok false)
    (hcopy : body.member "copyFrom" = .ok (Value.string copyFrom)) :
    ((w.store.getSecret (cstr copyFrom)).valid = false →
      createSecret env w req
        = (reply 404 (generateError "The specified source secret does not exist"), w))
    ∧ ((w.store.getSecret (cstr copyFrom)).valid = true →
      w.store.userInVO (requester env w req).id (w.store.getSecret (cstr copyFrom)).vo = false →
      createSecret env w req = (reply 403 (generateError "Not authorized"), w))
    ∧ ((w.store.getSecret (cstr copyFrom)).valid = true →
      w.store.userInVO (requester env w req).id (w.store.getSecret (cstr copyFrom)).vo = true →
      (∀ before secret after,
        (createSecret env w req).2.trace = w.trace ++ (before ++ Event.addSecret secret :: after) →
        secret = { resolved with data := (w.store.getSecret (cstr copyFrom)).data,
                                 valid := true })
      ∧ (∀ text contents,
        env.decryptSecret w.trace (w.store.getSecret (cstr copyFrom)) = .ok text →
        env.Parse text = .ok contents →
        ∃ after, (createSecret env w req).2.trace
          = w.trace ++ Event.decryptSecret (w.store.getSecret (cstr copyFrom))
            :: Event.addSecret { resolved with
                data := (w.store.getSecret (cstr copyFrom)).data, valid := true } :: after)
      ∧ ((createSecret env w req).1.code = some 200 →
        (createSecret env w req).2.store.getSecret resolved.id
          = { resolved with data := (w.store.getSecret (cstr copyFrom)).data,
                            valid := true })) := by
  simp only [requester] at hauth hauthz ⊢
  have hrun : createSecret env w req
      = match createSecret.materialize env w (env.authenticateUser w.store (req.get "token"))
          body resolved with
        | (.error o, w1) => (o, w1)
        | (.ok (body, secret), w1) => createSecret.provision env w1 body secret vo cluster := by
    simp [createSecret, createSecret.fromDuplicateCheck, hauth, hshape, hauthz, hdup]
  obtain ⟨members, hmembers⟩ : ∃ members, body = Value.object members := by
    cases body with
    | object members => exact ⟨members, rfl⟩
    | _ => simp [Value.HasMember] at hcontents
  refine ⟨?_, ?_, ?_⟩
  · intro hmissing
    rw [hrun]
    simp [createSecret.materialize, hcontents, hcopy, bind, Except.bind, Value.GetString,
      hmissing]
  · intro hexists houtside
    rw [hrun]
    simp [createSecret.materialize, hcontents, hcopy, bind, Except.bind, Value.GetString,
      hexists, houtside]
  · intro hexists hmember
    cases hdecrypt : env.decryptSecret w.trace (w.store.getSecret (cstr copyFrom)) with
    | error what =>
      have hthrown : createSecret env w req
          = (Outcome.thrown what, { w with trace := w.trace
              ++ [Event.decryptSecret (w.store.getSecret (cstr copyFrom))] }) := by
        rw [hrun]
        simp [createSecret.materialize, hcontents, hcopy, bind, Except.bind, Value.GetString,
          hexists, hmember, hdecrypt]
      rw [hthrown]
      refine ⟨?_, ?_, ?_⟩
      · intro before secret after htrace
        simp only [List.append_cancel_left_eq] at htrace
        cases before with
        | nil => simp at htrace
        | cons x before =>
          have := congrArg List.length htrace
          simp at this
      · intro text contents htext
        simp at htext
      · intro hcode
        simp [Outcome.code] at hcode
    | ok text =>
      cases hparse : env.Parse text with
      | error what =>
        have hthrown : createSecret env w req
            = (Outcome.thrown what, { w with trace := w.trace
                ++ [Event.decryptSecret (w.store.getSecret (cstr copyFrom))] }) := by
          rw [hrun]
          simp [createSecret.materialize, hcontents, hcopy, bind, Except.bind, Value.GetString,
            hexists, hmember, hdecrypt, hparse]
        rw [hthrown]
        refine ⟨?_, ?_, ?_⟩
        · intro before secret after htrace
          simp only [List.append_cancel_left_eq] at htrace
          cases before with
          | nil => simp at htrace
          | cons x before =>
            have := congrArg List.length htrace
            simp at this
        · intro text1 contents htext hcontents1
          simp only [Except.ok.injEq] at htext
          rw [← htext, hparse] at hcontents1
          simp at hcontents1
        · intro hcode
          simp [Outcome.code] at hcode
      | ok contents =>
        have hprovision : createSecret env w req
            = createSecret.provision env
                { w with trace := w.trace
                  ++ [Event.decryptSecret (w.store.getSecret (cstr copyFrom))] }
                (Value.object (members ++ [("contents", contents)]))
                { resolved with data := (w.store.getSecret (cstr copyFrom)).data,
                                valid := true } vo cluster := by
          rw [hrun]
          subst hmembers
          simp [createSecret.materialize, hcontents, hcopy, bind, Except.bind, Value.GetString,
            hexists, hmember, hdecrypt, hparse, Value.AddMember]
        rw [hprovision]
        obtain ⟨rest, htrace, hnone, _⟩ := provision_trace env
          { w with trace := w.trace
            ++ [Event.decryptSecret (w.store.getSecret (cstr copyFrom))] }
          (Value.object (members ++ [("contents", contents)]))
          { resolved with data := (w.store.getSecret (cstr copyFrom)).data, valid := true }
          vo cluster
        refine ⟨?_, ?_, ?_⟩
        · intro before secret after hsplit
          rw [htrace] at hsplit
          simp only [List.append_assoc, List.cons_append, List.nil_append,
            List.append_cancel_left_eq] at hsplit
          exact addSecret_after_decryption _ _ _ rest before after hnone hsplit
        · intro _ _ _ _
          exact ⟨rest, by rw [htrace]; simp⟩
        · intro hcode
          exact provision_ok env _ _ _ vo cluster rfl hcode

/-- C13: for a request that passes the shape validation, the authorization for the target
VO and the duplicate check, and that names a source secret in `copyFrom` and has no
contents: when the source does not exist the answer is 404, and when the requester is not
a member of the VO of the source the answer is 403, in both cases without any call;
otherwise every record that the handler writes to the store is the new record with the
stored payload of the source as its payload, that record is written once the source is
decrypted and parsed, and it is the record the store holds when the answer is 200; and
when decryption reads the payload alone, every record written, and the record the store
holds for the new secret after the answer 200, decrypts as the source does, to the same
text and the same parsed contents.  The VO and the cluster of the new record are those of
the request, whatever those of the source are. -/
theorem createSecret_copy_semantics (env : Env) (w : World) (req : request) (body : Value)
    (requested : Secret) (vo : VO) (cluster : Cluster) (resolved : Secret) (copyFrom : String)
    (hauth : (requester env w req).valid = true)
    (hshape : createSecret.shape env w.trace req = .ok (body, requested))
    (hauthz : createSecret.authorize w.store (requester env w req) requested
      = .ok (vo, cluster, resolved))
    (hdup : createSecret.checkDuplicate w.store vo resolved = .ok ())
    (hcontents : body.HasMember "contents" = .ok false)
    (hcopy : body.member "copyFrom" = .ok (Value.string copyFrom)) :
    ((w.store.getSecret (cstr copyFrom)).valid = false →
      createSecret env w req
        = (reply 404 (generateError "The specified source secret does not exist"), w))
    ∧ ((w.store.getSecret (cstr copyFrom)).valid = true →
      w.store.userInVO (requester env w req).id (w.store.getSecret (cstr copyFrom)).vo = false →
      createSecret env w req = (reply 403 (generateError "Not authorized"), w))
    ∧ ((w.store.getSecret (cstr copyFrom)).valid = true →
      w.store.userInVO (requester env w req).id (w.store.getSecret (cstr copyFrom)).vo = true →
      (∀ before secret after,
        (createSecret env w req).2.trace = w.trace ++ (before ++ Event.addSecret secret :: after) →
        secret = { resolved with data := (w.store.getSecret (cstr copyFrom)).data,
                                 valid := true })
      ∧ (∀ text contents,
        env.decryptSecret w.trace (w.store.getSecret (cstr copyFrom)) = .ok text →
        env.Parse text = .ok contents →
        ∃ after, (createSecret env w req).2.trace
          = w.trace ++ Event.decryptSecret (w.store.getSecret (cstr copyFrom))
            :: Event.addSecret { resolved with
                data := (w.store.getSecret (cstr copyFrom)).data, valid := true } :: after)
      ∧ ((createSecret env w req).1.code = some 200 →
        (createSecret env w req).2.store.getSecret resolved.id
          = { resolved with data := (w.store.getSecret (cstr copyFrom)).data,
                            valid := true })
      ∧ (env.decryptsPayloadAlone →
        (∀ before secret after,
          (createSecret env w req).2.trace
            = w.trace ++ (before ++ Event.addSecret secret :: after) →
          ∀ trace, env.decryptSecret trace secret
              = env.decryptSecret w.trace (w.store.getSecret (cstr copyFrom))
            ∧ (env.decryptSecret trace secret >>= env.Parse)
              = (env.decryptSecret w.trace (w.store.getSecret (cstr copyFrom)) >>= env.Parse))
        ∧ ((createSecret env w req).1.code = some 200 →
          ∀ trace,
            env.decryptSecret trace ((createSecret env w req).2.store.getSecret resolved.id)
              = env.decryptSecret w.trace (w.store.getSecret (cstr copyFrom))
            ∧ (env.decryptSecret trace
                  ((createSecret env w req).2.store.getSecret resolved.id) >>= env.Parse)
              = (env.decryptSecret w.trace (w.store.getSecret (cstr copyFrom))
                  >>= env.Parse)))) := by
  obtain ⟨hmissing, hrefused, hcopied⟩ := createSecret_copy_record env w req body requested vo
    cluster resolved copyFrom hauth hshape hauthz hdup hcontents hcopy
  refine ⟨hmissing, hrefused, ?_⟩
  intro hexists hmember
  obtain ⟨hwritten, hcalled, hheld⟩ := hcopied hexists hmember
  refine ⟨hwritten, hcalled, hheld, ?_⟩
  intro hpayload
  constructor
  · intro before secret after hsplit trace
    have hsame := hpayload trace w.trace secret (w.store.getSecret (cstr copyFrom))
      (by rw [hwritten before secret after hsplit])
    exact ⟨hsame, by rw [hsame]⟩
  · intro hcode trace
    have hsame := hpayload trace w.trace
      ((createSecret env w req).2.store.getSecret resolved.id)
      (w.store.getSecret (cstr copyFrom)) (by rw [hheld hcode])
    exact ⟨hsame, by rw [hsame]⟩

/-- C13 at concrete inputs: `alice`, a member of `vo1` and `vo2`, copies `secret2` of
`vo2` on `cluster3` to a new secret of `vo1` on `cluster1`, and the store holds the new
record with the payload of `secret2`, which decrypts to the text and the contents of
`secret2`; a source that does not exist gives 404; and when `alice` is not a member of
`vo2` the copy is refused with 403. -/
theorem createSecret_copy_semantics_witness :
    ((createSecret (Scenario.copyEnv (Scenario.copyBody "tls-copy" "cluster1" "Secret_2"))
        (Scenario.copyWorld true) (Scenario.requestOf "token-alice" false)).2.store.getSecret
        "Secret_new"
      = { Scenario.copyResolved with data := Scenario.secret2.data, valid := true })
    ∧ (Scenario.copyEnv (Scenario.copyBody "tls-copy" "cluster1" "Secret_2")).decryptsPayloadAlone
    ∧ ((Scenario.copyEnv (Scenario.copyBody "tls-copy" "cluster1" "Secret_2")).decryptSecret []
          ((createSecret (Scenario.copyEnv (Scenario.copyBody "tls-copy" "cluster1" "Secret_2"))
            (Scenario.copyWorld true)
            (Scenario.requestOf "token-alice" false)).2.store.getSecret "Secret_new")
        = (Scenario.copyEnv (Scenario.copyBody "tls-copy" "cluster1" "Secret_2")).decryptSecret
            [] Scenario.secret2
      ∧ ((Scenario.copyEnv (Scenario.copyBody "tls-copy" "cluster1" "Secret_2")).decryptSecret []
          ((createSecret (Scenario.copyEnv (Scenario.copyBody "tls-copy" "cluster1" "Secret_2"))
            (Scenario.copyWorld true)
            (Scenario.requestOf "token-alice" false)).2.store.getSecret "Secret_new")
          >>= (Scenario.copyEnv (Scenario.copyBody "tls-copy" "cluster1" "Secret_2")).Parse)
        = .ok Scenario.tlsContents)
    ∧ Scenario.secret2.vo ≠ Scenario.copyResolved.vo
    ∧ Scenario.secret2.cluster ≠ Scenario.copyResolved.cluster
    ∧ createSecret (Scenario.copyEnv (Scenario.copyBody "tls-copy" "cluster1" "Secret_9"))
        (Scenario.copyWorld true) (Scenario.requestOf "token-alice" false)
      = (reply 404 (generateError "The specified source secret does not exist"),
          Scenario.copyWorld true)
    ∧ createSecret (Scenario.copyEnv (Scenario.copyBody "tls-copy" "cluster1" "Secret_2"))
        (Scenario.copyWorld false) (Scenario.requestOf "token-alice" false)
      = (reply 403 (generateError "Not authorized"), Scenario.copyWorld false) :=
  have copied := createSecret_copy_semantics
    (Scenario.copyEnv (Scenario.copyBody "tls-copy" "cluster1" "Secret_2"))
    (Scenario.copyWorld true) (Scenario.requestOf "token-alice" false)
    (Scenario.copyBody "tls-copy" "cluster1" "Secret_2") Scenario.copyRequested
    Scenario.vo1 Scenario.cluster1 Scenario.copyResolved "Secret_2"
    (by decide) (by rfl) (by rfl) (by rfl) (by rfl) (by rfl)
  have missing := createSecret_copy_semantics
    (Scenario.copyEnv (Scenario.copyBody "tls-copy" "cluster1" "Secret_9"))
    (Scenario.copyWorld true) (Scenario.requestOf "token-alice" false)
    (Scenario.copyBody "tls-copy" "cluster1" "Secret_9") Scenario.copyRequested
    Scenario.vo1 Scenario.cluster1 Scenario.copyResolved "Secret_9"
    (by decide) (by rfl) (by rfl) (by rfl) (by rfl) (by rfl)
  have refused := createSecret_copy_semantics
    (Scenario.copyEnv (Scenario.copyBody "tls-copy" "cluster1" "Secret_2"))
    (Scenario.copyWorld false) (Scenario.requestOf "token-alice" false)
    (Scenario.copyBody "tls-copy" "cluster1" "Secret_2") Scenario.copyRequested
    Scenario.vo1 Scenario.cluster1 Scenario.copyResolved "Secret_2"
    (by decide) (by rfl) (by rfl) (by rfl) (by rfl) (by rfl)
  ⟨(copied.2.2 (by decide) (by decide)).2.2.1 (by rfl),
    fun _ _ _ _ h => congrArg Except.ok h,
    ((copied.2.2 (by decide) (by decide)).2.2.2
      (fun _ _ _ _ h => congrArg Except.ok h)).2 (by rfl) [],
    by decide, by decide, missing.1 (by decide), refused.2.1 (by decide) (by decide)⟩

end Slate
